import Mathlib

set_option autoImplicit false

/-!
# LPUART driver (`DRV_LPUART.c`): embedding and verified properties

Machine integers are natural numbers reduced modulo `2^w` at the places where
the C code stores them in a `w`-bit object.  Operations whose C behaviour is
undefined (division by zero, access through a null pointer, an array index
outside the array) yield `none`.
-/

namespace LPUART

/-! ## Machine arithmetic -/

/-- Conversion to `uint8_t`. -/
def u8 (x : Nat) : Nat := x % 2 ^ 8

/-- Conversion to `uint16_t`. -/
def u16 (x : Nat) : Nat := x % 2 ^ 16

/-- Conversion to `uint32_t`. -/
def u32 (x : Nat) : Nat := x % 2 ^ 32

/-- Unsigned division of C: a zero divisor is undefined behaviour (`none`). -/
def udiv (a b : Nat) : Option Nat :=
  if b = 0 then none else some (a / b)

/-- Bitwise complement of a `uint32_t` value, the C operator `~`. -/
def not32 (x : Nat) : Nat := 2 ^ 32 - 1 - u32 x

/-- Left shift of a `uint32_t` value, the C operator `<<` (high bits are lost). -/
def shl32 (x n : Nat) : Nat := u32 (x <<< n)

/-! ## Baud-rate divisor search (`Drv_Uart_SetBaudRate`, lines 246-282) -/

/-- The values the search keeps between iterations:
`osr_compare` (`uint8_t`), `sbr_compare` (`uint16_t`), `baud_diff` (`uint32_t`). -/
structure SearchVars where
  osr_compare : Nat
  sbr_compare : Nat
  baud_diff : Nat
deriving DecidableEq, Repr

/-- The divider and the absolute baud error the code computes for the
oversampling ratio `i`: lines 253-263 with `i = osr_compare = 4`, and lines
266-275 inside the loop.  Result: `(sbr_cmploop, diff_loop)`. -/
def candidate (clk baudRate i : Nat) : Option (Nat × Nat) :=
  match udiv clk (u32 (baudRate * i)) with
  | none => none
  | some q =>
    match udiv clk (u32 (u16 q * i)) with
    | none => none
    | some baud_loop =>
      some (u16 q,
        if baud_loop > baudRate then u32 (baud_loop - baudRate)
        else u32 (baudRate - baud_loop))

/-- Lines 246-263: the best candidate is seeded with the ratio 4. -/
def searchSeed (clk baudRate : Nat) : Option SearchVars :=
  match candidate clk baudRate 4 with
  | none => none
  | some (sbr, diff) => some ⟨4, sbr, diff⟩

/-- Lines 266-281: one iteration of the loop, for the ratio `i`. -/
def searchStep (clk baudRate : Nat) (st : SearchVars) (i : Nat) : Option SearchVars :=
  match candidate clk baudRate i with
  | none => none
  | some (sbr_cmploop, diff_loop) =>
    if diff_loop < st.baud_diff then some ⟨u8 i, sbr_cmploop, diff_loop⟩ else some st

/-- The loop `for (i = 5; i < 33; i++)` run over the listed ratios. -/
def searchLoop (clk baudRate : Nat) : List Nat → SearchVars → Option SearchVars
  | [], st => some st
  | i :: is, st =>
    match searchStep clk baudRate st i with
    | none => none
    | some st1 => searchLoop clk baudRate is st1

/-- Lines 246-282 of `Drv_Uart_SetBaudRate`: the divisor search. -/
def DivisorSearch (clk baudRate : Nat) : Option SearchVars :=
  match searchSeed clk baudRate with
  | none => none
  | some st => searchLoop clk baudRate (List.range' 5 28) st


/-! ## Reference quantities for the search, in the words of the specification -/

/-- The candidate divider of a ratio `R`: `round-down(clock / (baud * R))`. -/
def specDivider (clk baud R : Nat) : Nat := clk / (baud * R)

/-- The absolute difference between the target baud rate and the achieved
rate `clock / (D * R)` (integer division, as the code computes it). -/
def baudError (clk baud R D : Nat) : Nat :=
  if clk / (D * R) > baud then clk / (D * R) - baud else baud - clk / (D * R)

/-- The error of the candidate of the ratio `R`. -/
def candidateError (clk baud R : Nat) : Nat :=
  baudError clk baud R (specDivider clk baud R)

/-- Clock/baud pairs on which no step of the search truncates or divides by
zero: every ratio up to 32 has a divider of at least 1, and the divider of
the ratio 4 (the largest one) fits the 16-bit variable. -/
def SearchDomain (clk baud : Nat) : Prop :=
  0 < baud ∧ 32 * baud ≤ clk ∧ clk < 2 ^ 32 ∧ clk / (4 * baud) < 2 ^ 16

instance (clk baud : Nat) : Decidable (SearchDomain clk baud) := by
  unfold SearchDomain; infer_instance


/-! ## Constants of the device header

The driver includes the device header through `Driver_Header.h`; the header
is not among the sources, so the register masks it defines are fixed here. -/

/-- Modelled from the spec: `LPUART_INSTANCE_COUNT` of the device header
(missing from the sources); the spec's fixed set of instances, equal to
`DRV_UART_INSTANCECOUNT`. -/
def LPUART_INSTANCE_COUNT : Nat := 3

/-- Modelled from the spec: `LPUART_BAUD_M10_MASK` (device header, missing):
the 10-bit-mode bit of the baud register, bit 29. -/
def LPUART_BAUD_M10_MASK : Nat := 0x20000000

/-- Modelled from the spec: `LPUART_BAUD_M10_SHIFT` (device header, missing). -/
def LPUART_BAUD_M10_SHIFT : Nat := 29

/-- Modelled from the spec: `LPUART_BAUD_SBNS_SHIFT` (device header, missing):
the stop-bit-count bit of the baud register, bit 13. -/
def LPUART_BAUD_SBNS_SHIFT : Nat := 13

/-- Modelled from the spec: `LPUART_CTRL_M_SHIFT` (device header, missing):
the 9-bit-mode width select of the control register, bit 4. -/
def LPUART_CTRL_M_SHIFT : Nat := 4

/-- Modelled from the spec: `LPUART_CTRL_M7_SHIFT` (device header, missing):
the 7-bit-mode width select of the control register, bit 11. -/
def LPUART_CTRL_M7_SHIFT : Nat := 11

/-- Modelled from the spec: `LPUART_CTRL_PE_MASK` (device header, missing):
parity enable, bit 1 of the control register. -/
def LPUART_CTRL_PE_MASK : Nat := 0x2

/-- Modelled from the spec: `LPUART_CTRL_PE_SHIFT` (device header, missing). -/
def LPUART_CTRL_PE_SHIFT : Nat := 1

/-- Modelled from the spec: `LPUART_CTRL_PT_MASK` (device header, missing):
parity type, bit 0 of the control register. -/
def LPUART_CTRL_PT_MASK : Nat := 0x1

/-- Modelled from the spec: `LPUART_CTRL_PT_SHIFT` (device header, missing). -/
def LPUART_CTRL_PT_SHIFT : Nat := 0

/-- Modelled from the spec: `LPUART_CTRL_TE_MASK` (device header, missing):
transmitter enable, bit 19 of the control register. -/
def LPUART_CTRL_TE_MASK : Nat := 0x80000

/-- Modelled from the spec: `LPUART_CTRL_TE_SHIFT` (device header, missing). -/
def LPUART_CTRL_TE_SHIFT : Nat := 19

/-- Modelled from the spec: `LPUART_CTRL_RE_MASK` (device header, missing):
receiver enable, bit 18 of the control register. -/
def LPUART_CTRL_RE_MASK : Nat := 0x40000

/-- Modelled from the spec: `LPUART_CTRL_RE_SHIFT` (device header, missing). -/
def LPUART_CTRL_RE_SHIFT : Nat := 18

/-- Modelled from the spec: `LPUART_CTRL_TIE_MASK` (device header, missing):
transmit interrupt enable, bit 23 of the control register. -/
def LPUART_CTRL_TIE_MASK : Nat := 0x800000

/-- Modelled from the spec: `LPUART_CTRL_RIE_MASK` (device header, missing):
receive interrupt enable, bit 21 of the control register. -/
def LPUART_CTRL_RIE_MASK : Nat := 0x200000

/-- Modelled from the spec: `LPUART_STAT_RDRF_MASK` (device header, missing):
the data-ready flag, bit 21 of the status register. -/
def LPUART_STAT_RDRF_MASK : Nat := 0x200000

/-- Modelled from the spec: `LPUART_STAT_TDRE_MASK` (device header, missing):
the transmit-empty flag, bit 23 of the status register. -/
def LPUART_STAT_TDRE_MASK : Nat := 0x800000

/-- Modelled from the spec: `LPUART_STAT_TC_MASK` (device header, missing):
the transmit-complete flag, bit 22 of the status register. -/
def LPUART_STAT_TC_MASK : Nat := 0x400000

/-- Modelled from the spec: `LPUART_STAT_OR_MASK` (device header, missing):
the overrun flag, bit 19 of the status register. -/
def LPUART_STAT_OR_MASK : Nat := 0x80000

/-- Modelled from the spec: `LPUART_STAT_NF_MASK` (device header, missing):
the noise flag, bit 18 of the status register. -/
def LPUART_STAT_NF_MASK : Nat := 0x40000

/-- Modelled from the spec: `LPUART_STAT_FE_MASK` (device header, missing):
the framing-error flag, bit 17 of the status register. -/
def LPUART_STAT_FE_MASK : Nat := 0x20000

/-- Modelled from the spec: `LPUART_STAT_PF_MASK` (device header, missing):
the parity-error flag, bit 16 of the status register. -/
def LPUART_STAT_PF_MASK : Nat := 0x10000

/-- The macro `DRV_UART_CTRL_ERROR_REC_INTERRUPT_MASK` (line 13). -/
def DRV_UART_CTRL_ERROR_REC_INTERRUPT_MASK : Nat := 0xF000000

/-- The macro `DRV_UART_STAT_ERROR_REC_FLAG_MASK` (line 19). -/
def DRV_UART_STAT_ERROR_REC_FLAG_MASK : Nat := 0xF0000

/-! ## Types of `DRV_LPUART.h` -/

/-- `DRV_UART_DATABITCOUNT_7`. -/
def DRV_UART_DATABITCOUNT_7 : Nat := 0xFF
/-- `DRV_UART_DATABITCOUNT_8`. -/
def DRV_UART_DATABITCOUNT_8 : Nat := 0x00
/-- `DRV_UART_DATABITCOUNT_9`. -/
def DRV_UART_DATABITCOUNT_9 : Nat := 0x01
/-- `DRV_UART_DATABITCOUNT_10`. -/
def DRV_UART_DATABITCOUNT_10 : Nat := 0x02

/-- `DRV_UART_PARITYMODEDISABLED`. -/
def DRV_UART_PARITYMODEDISABLED : Nat := 0x00
/-- `DRV_UART_PARITYMODEEVEN`. -/
def DRV_UART_PARITYMODEEVEN : Nat := 0x02
/-- `DRV_UART_PARITYMODEODD`. -/
def DRV_UART_PARITYMODEODD : Nat := 0x03

/-- `DRV_UART_STOPBITCOUNTONE`. -/
def DRV_UART_STOPBITCOUNTONE : Nat := 0x00
/-- `DRV_UART_STOPBITCOUNTTWO`. -/
def DRV_UART_STOPBITCOUNTTWO : Nat := 0x01

/-- `DRV_UART_NOTUSINGINTERRUPTS`. -/
def DRV_UART_NOTUSINGINTERRUPTS : Nat := 0x00
/-- `DRV_UART_USINGINTERRUPTS`. -/
def DRV_UART_USINGINTERRUPTS : Nat := 0x01

/-- `DRV_UART_CALLBACKERROR`. -/
def DRV_UART_CALLBACKERROR : Nat := 0
/-- `DRV_UART_CALLBACKTRANSMITTER`. -/
def DRV_UART_CALLBACKTRANSMITTER : Nat := 1
/-- `DRV_UART_CALLBACKRECEIVER`. -/
def DRV_UART_CALLBACKRECEIVER : Nat := 2

/-- The values of `Drv_Uart_BaudrateValueType`, in the order of the header. -/
def Drv_Uart_BaudrateValues : List Nat :=
  [600, 9600, 12800, 38400, 128000, 230400, 256000, 115200]

/-- `DRV_UART_INSTANCE_0`. -/
def DRV_UART_INSTANCE_0 : Nat := 0
/-- `DRV_UART_INSTANCE_1`. -/
def DRV_UART_INSTANCE_1 : Nat := 1
/-- `DRV_UART_INSTANCE_2`. -/
def DRV_UART_INSTANCE_2 : Nat := 2
/-- `DRV_UART_INSTANCECOUNT`. -/
def DRV_UART_INSTANCECOUNT : Nat := 3

/-- `Drv_Uart_StatusType`. -/
inductive Drv_Uart_StatusType where
  | DRV_UART_TXBUSY
  | DRV_UART_RXBUSY
  | DRV_UART_STATEREADY
  | DRV_UART_STATEDEFAULT
  | DRV_UART_STATEINITIALIZED
  | DRV_UART_STATERXOVERRUNERROR
  | DRV_UART_STATEFRAMINGERROR
  | DRV_UART_STATEPARITYERROR
  | DRV_UART_STATENOISEERROR
  | DRV_UART_OK
  | DRV_UART_ERROR
  | DRV_UART_BUSY
deriving DecidableEq, Repr

open Drv_Uart_StatusType

/-- The numeric value of a status, as the header gives it. -/
def Drv_Uart_StatusType.toNat : Drv_Uart_StatusType → Nat
  | DRV_UART_TXBUSY => 0xFF
  | DRV_UART_RXBUSY => 0xFE
  | DRV_UART_STATEREADY => 0x22
  | DRV_UART_STATEDEFAULT => 0x55
  | DRV_UART_STATEINITIALIZED => 0xEE
  | DRV_UART_STATERXOVERRUNERROR => 0x01
  | DRV_UART_STATEFRAMINGERROR => 0x02
  | DRV_UART_STATEPARITYERROR => 0x03
  | DRV_UART_STATENOISEERROR => 0x04
  | DRV_UART_OK => 0x00
  | DRV_UART_ERROR => 0x05
  | DRV_UART_BUSY => 0x06

/-- `DRV_UART_SOSCCLKSOUCE`. -/
def DRV_UART_SOSCCLKSOUCE : Nat := 0x00
/-- `DRV_UART_FIRCCLKSOUCE`. -/
def DRV_UART_FIRCCLKSOUCE : Nat := 0x01

/-- `Drv_Uart_ConfigType`; every field holds the numeric value of its enum. -/
structure Drv_Uart_ConfigType where
  bitCountPerChar : Nat
  parityMode : Nat
  stopBit : Nat
  baudRate : Nat
  transferType : Nat
  clockSource : Nat
deriving DecidableEq, Repr

/-- `Drv_Uart_RxBuffType`; a pointer is an address, `none` is `NULL`. -/
structure Drv_Uart_RxBuffType where
  prxBuff : Option Nat
  rxBuffSize : Nat
  rxCount : Nat
  rxStatus : Drv_Uart_StatusType
  isRxBusy : Bool
deriving DecidableEq, Repr

/-- `Drv_Uart_TxBuffType`; a pointer is an address, `none` is `NULL`. -/
structure Drv_Uart_TxBuffType where
  ptxBuff : Option Nat
  txBuffSize : Nat
  txCount : Nat
  txStatus : Drv_Uart_StatusType
  isTxBusy : Bool
deriving DecidableEq, Repr

/-! ## Machine state -/

/-- The registers of one instance (`LPUART_Type`) that the driver uses.
`DATA` is the value a read of the data register returns (the character the
hardware received); `written` lists the values written to the data register,
oldest first. -/
structure LPUART_Type where
  BAUD : Nat
  STAT : Nat
  CTRL : Nat
  MATCH : Nat
  DATA : Nat
  written : List Nat
deriving DecidableEq, Repr

/-- A call through a function pointer: `slot k fn` is
`s_UARTfunctionPointer[k]()` with `fn` the stored pointer, `error fn st` is
`s_UARTx_ErrorCallBack(st)` with `fn` the stored pointer. -/
inductive Event where
  | slot (k : Nat) (fn : Nat)
  | error (fn : Nat) (error_type : Drv_Uart_StatusType)
deriving DecidableEq, Repr

/-- The file-scope variables of `DRV_LPUART.c`, the register blocks behind
`s_lpuartBase`, the memory the buffers point into, and the calls made so far
through the callback pointers. -/
structure DrvState where
  base : Nat → LPUART_Type
  s_UARTrxBufferstr : Nat → Drv_Uart_RxBuffType
  s_UARTtxBufferstr : Nat → Drv_Uart_TxBuffType
  s_UARTx_ErrorCallBack : Option Nat
  s_UARTfunctionPointer : Nat → Option Nat
  s_UARTconfig : Nat → Drv_Uart_ConfigType
  s_UARTclkSource : Nat → Nat
  mem : Nat → Nat
  trace : List Event

/-- What the called functions do to the driver: the effect of each call on
the state. -/
abbrev Callbacks := Event → DrvState → DrvState

/-- Callbacks that do not call back into the driver. -/
def inert : Callbacks := fun _ s => s

/-- A call through a callback pointer: it is recorded, then the callee runs. -/
def invoke (run : Callbacks) (ev : Event) (s : DrvState) : DrvState :=
  run ev { s with trace := s.trace ++ [ev] }

/-- Array update: `f[i] = v`. -/
def setAt {α : Type} (f : Nat → α) (i : Nat) (v : α) : Nat → α :=
  fun j => if j = i then v else f j

/-- Update of the register block of one instance. -/
def updBase (s : DrvState) (inst : Nat) (f : LPUART_Type → LPUART_Type) : DrvState :=
  { s with base := setAt s.base inst (f (s.base inst)) }

/-- Update of `s_UARTrxBufferstr[inst]`. -/
def updRx (s : DrvState) (inst : Nat) (f : Drv_Uart_RxBuffType → Drv_Uart_RxBuffType) :
    DrvState :=
  { s with s_UARTrxBufferstr := setAt s.s_UARTrxBufferstr inst (f (s.s_UARTrxBufferstr inst)) }

/-- Update of `s_UARTtxBufferstr[inst]`. -/
def updTx (s : DrvState) (inst : Nat) (f : Drv_Uart_TxBuffType → Drv_Uart_TxBuffType) :
    DrvState :=
  { s with s_UARTtxBufferstr := setAt s.s_UARTtxBufferstr inst (f (s.s_UARTtxBufferstr inst)) }

/-- Modelled from the spec: the status register of the Register Interface
(hardware, not part of the sources).  Its flags are write-one-to-clear
(bits 14-20, 30, 31), the flags data-ready, transmit-empty, transmit-complete
and receiver-active (bits 21-24) are read-only, bits 25-29 are plain
read/write settings. -/
def writeSTAT (r : LPUART_Type) (v : Nat) : LPUART_Type :=
  { r with STAT := (r.STAT &&& 0x01E00000)
                   ||| (r.STAT &&& 0xC01FC000 &&& not32 v)
                   ||| (u32 v &&& 0x3E000000) }

/-- The state at start-up: the file-scope variables are zero-initialised
(status `0` is `DRV_UART_OK`), the registers hold their reset values, the
memory is `mem`. -/
def initialState (mem : Nat → Nat) : DrvState :=
  { base := fun _ => ⟨0x0F000004, 0x00C00000, 0, 0, 0, []⟩
    s_UARTrxBufferstr := fun _ => ⟨none, 0, 0, DRV_UART_OK, false⟩
    s_UARTtxBufferstr := fun _ => ⟨none, 0, 0, DRV_UART_OK, false⟩
    s_UARTx_ErrorCallBack := none
    s_UARTfunctionPointer := fun _ => none
    s_UARTconfig := fun _ => ⟨0, 0, 0, 0, 0, 0⟩
    s_UARTclkSource := fun _ => 0
    mem := mem
    trace := [] }

/-! ## The driver functions

A function with an instance argument indexes the per-instance arrays with it;
an index outside the arrays is undefined (`none`).  The static helpers are
only called with an index that was checked. -/

/-- `Drv_Uart_SetBitCountPerChar` (lines 172-208). -/
def Drv_Uart_SetBitCountPerChar (inst bitCountPerChar parityMode : Nat) (s : DrvState) :
    DrvState :=
  let temp_count := if parityMode ≠ 0 then u32 (bitCountPerChar + 1) else bitCountPerChar
  let s1 :=
    if temp_count = DRV_UART_DATABITCOUNT_10 then
      updBase s inst fun r =>
        { r with BAUD := (r.BAUD &&& not32 LPUART_BAUD_M10_MASK)
                           ||| shl32 1 LPUART_BAUD_M10_SHIFT }
    else s
  if temp_count ≠ DRV_UART_DATABITCOUNT_10 then
    let s2 := updBase s1 inst fun r =>
      { r with BAUD := r.BAUD &&& shl32 (not32 1) LPUART_BAUD_M10_SHIFT }
    let s3 := updBase s2 inst fun r =>
      { r with CTRL := r.CTRL &&& shl32 (not32 1) LPUART_CTRL_M_SHIFT }
    let s4 := updBase s3 inst fun r =>
      { r with CTRL := r.CTRL &&& shl32 (not32 1) LPUART_CTRL_M7_SHIFT }
    let s5 :=
      if temp_count = DRV_UART_DATABITCOUNT_8 then
        updBase s4 inst fun r =>
          { r with CTRL := r.CTRL &&& shl32 (not32 1) LPUART_CTRL_M_SHIFT }
      else s4
    let s6 :=
      if temp_count = DRV_UART_DATABITCOUNT_9 then
        updBase s5 inst fun r => { r with CTRL := r.CTRL ||| shl32 1 LPUART_CTRL_M_SHIFT }
      else s5
    if temp_count = DRV_UART_DATABITCOUNT_7 then
      updBase s6 inst fun r => { r with CTRL := r.CTRL ||| shl32 1 LPUART_CTRL_M7_SHIFT }
    else s6
  else s1

/-- `DRV_UART_SetParityMode` (lines 214-222). -/
def DRV_UART_SetParityMode (inst parityMode : Nat) (s : DrvState) : DrvState :=
  let s1 := updBase s inst fun r =>
    { r with CTRL := (r.CTRL &&& not32 LPUART_CTRL_PE_MASK)
                       ||| shl32 (u32 parityMode >>> 1) LPUART_CTRL_PE_SHIFT }
  updBase s1 inst fun r =>
    { r with CTRL := (r.CTRL &&& not32 LPUART_CTRL_PT_MASK)
                       ||| shl32 (u32 parityMode &&& 1) LPUART_CTRL_PT_SHIFT }

/-- `Drv_Uart_SetStopBit` (lines 229-234); `stopBitCount` is a `uint8_t`. -/
def Drv_Uart_SetStopBit (inst stopBitCount : Nat) (s : DrvState) : DrvState :=
  updBase s inst fun r =>
    { r with BAUD := (r.BAUD &&& shl32 (not32 1) LPUART_BAUD_SBNS_SHIFT)
                       ||| shl32 (u8 stopBitCount) LPUART_BAUD_SBNS_SHIFT }

/-- Lines 284-301 of `Drv_Uart_SetBaudRate`: the value of the baud register
after the search ended on `st`. -/
def programBaud (inst clk baudRate : Nat) (st : SearchVars) (baud0 : Nat) : Option Nat :=
  let b1 :=
    if st.osr_compare < 8 then (baud0 &&& shl32 (not32 1) 17) ||| shl32 1 17 else baud0
  let forced :=
    if inst = DRV_UART_INSTANCE_1 then
      match udiv clk (u32 (baudRate * 16)) with
      | none => none
      | some q => some (16, u16 q)
    else some (st.osr_compare, st.sbr_compare)
  match forced with
  | none => none
  | some (osr_compare, sbr_compare) =>
    let osr_compare := u8 (u32 (osr_compare + (2 ^ 32 - 1)))
    let b2 := (b1 &&& shl32 (not32 0x1F) 24) ||| shl32 osr_compare 24
    some ((b2 &&& shl32 (not32 0x1FFF) 0) ||| shl32 sbr_compare 0)

/-- `Drv_Uart_SetBaudRate` (lines 241-303). -/
def Drv_Uart_SetBaudRate (inst baudRate : Nat) (s : DrvState) :
    Option (Drv_Uart_StatusType × DrvState) :=
  if inst < LPUART_INSTANCE_COUNT then
    match DivisorSearch (s.s_UARTclkSource inst) baudRate with
    | none => none
    | some st =>
      match programBaud inst (s.s_UARTclkSource inst) baudRate st (s.base inst).BAUD with
      | none => none
      | some b => some (DRV_UART_OK, updBase s inst fun r => { r with BAUD := b })
  else none

/-- `Drv_Uart_Init` (lines 309-363).  The configuration is read (line 312)
and the arrays are indexed (lines 314-320) before the check of line 322.
The helpers are called under the names `DRV_UART_SetBitCountPerChar`,
`DRV_UART_SetStopBit` and `DRV_UART_SetBaudRate`; they are taken to be the
functions this file defines under the same names in other letter case. -/
def Drv_Uart_Init (inst : Nat) (uartConfig : Option Drv_Uart_ConfigType) (s : DrvState) :
    Option (Drv_Uart_StatusType × DrvState) :=
  match uartConfig with
  | none => none
  | some cfg =>
    if inst < LPUART_INSTANCE_COUNT then
      let s1 :=
        if cfg.clockSource = DRV_UART_FIRCCLKSOUCE then
          { s with s_UARTclkSource := setAt s.s_UARTclkSource inst 48000000 }
        else if cfg.clockSource = DRV_UART_SOSCCLKSOUCE then
          { s with s_UARTclkSource := setAt s.s_UARTclkSource inst 8000000 }
        else s
      if inst < DRV_UART_INSTANCECOUNT ∧ uartConfig.isSome then
        let s2 := updBase s1 inst fun r => { r with BAUD := 0x0F000004 }
        let s3 := updBase s2 inst fun r => writeSTAT r 0xC01FC000
        let s4 := updBase s3 inst fun r => { r with CTRL := 0x00000000 }
        let s5 := updBase s4 inst fun r => { r with MATCH := 0x00000000 }
        let s6 := Drv_Uart_SetBitCountPerChar inst cfg.bitCountPerChar
          (if cfg.parityMode ≠ 0 then 1 else 0) s5
        let s7 := DRV_UART_SetParityMode inst cfg.parityMode s6
        let s8 := Drv_Uart_SetStopBit inst cfg.stopBit s7
        match Drv_Uart_SetBaudRate inst cfg.baudRate s8 with
        | none => none
        | some (_, s9) =>
          let s10 := updTx s9 inst fun t =>
            { t with txStatus := DRV_UART_STATEREADY, isTxBusy := false }
          let s11 := updRx s10 inst fun t =>
            { t with rxStatus := DRV_UART_STATEREADY, isRxBusy := false }
          some (DRV_UART_STATEREADY, s11)
      else some (DRV_UART_ERROR, s1)
    else none

/-- `Drv_Uart_SendDataInterrupt` (lines 497-530).  The wait of line 514 is
over at once: the control register holds the bit just written. -/
def Drv_Uart_SendDataInterrupt (inst : Nat) (data : Option Nat) (length : Nat)
    (s : DrvState) : Option (Drv_Uart_StatusType × DrvState) :=
  if inst < LPUART_INSTANCE_COUNT then
    if ¬ (s.s_UARTtxBufferstr inst).isTxBusy then
      if data.isSome ∧ length > 0 ∧ inst < LPUART_INSTANCE_COUNT then
        let s1 := updTx s inst fun t =>
          { t with ptxBuff := data, txBuffSize := length, txCount := 0,
                   txStatus := DRV_UART_TXBUSY, isTxBusy := true }
        let s2 := updBase s1 inst fun r =>
          { r with CTRL := (r.CTRL &&& not32 LPUART_CTRL_TE_MASK)
                             ||| shl32 1 LPUART_CTRL_TE_SHIFT }
        let s3 := updBase s2 inst fun r => { r with CTRL := r.CTRL ||| LPUART_CTRL_TIE_MASK }
        some (DRV_UART_TXBUSY, s3)
      else some (DRV_UART_ERROR, s)
    else some (DRV_UART_TXBUSY, s)
  else none

/-- `Drv_Uart_ReceiveDataInterrupt` (lines 651-686).  The wait of line 669 is
over at once: the control register holds the bit just written. -/
def Drv_Uart_ReceiveDataInterrupt (inst : Nat) (rxBuff : Option Nat) (rxSize : Nat)
    (s : DrvState) : Option (Drv_Uart_StatusType × DrvState) :=
  if inst < LPUART_INSTANCE_COUNT then
    if ¬ (s.s_UARTrxBufferstr inst).isRxBusy then
      if rxBuff.isSome ∧ rxSize ≠ 0 then
        let s1 := updRx s inst fun t =>
          { t with prxBuff := rxBuff, rxBuffSize := rxSize, rxCount := 0,
                   rxStatus := DRV_UART_RXBUSY, isRxBusy := true }
        let s2 := updBase s1 inst fun r =>
          writeSTAT r (r.STAT ||| DRV_UART_STAT_ERROR_REC_FLAG_MASK)
        let s3 := updBase s2 inst fun r =>
          { r with CTRL := (r.CTRL &&& not32 LPUART_CTRL_RE_MASK)
                             ||| shl32 1 LPUART_CTRL_RE_SHIFT }
        let s4 := updBase s3 inst fun r =>
          { r with CTRL := r.CTRL ||| DRV_UART_CTRL_ERROR_REC_INTERRUPT_MASK }
        let s5 := updBase s4 inst fun r => { r with CTRL := r.CTRL ||| LPUART_CTRL_RIE_MASK }
        some (DRV_UART_RXBUSY, s5)
      else some (DRV_UART_ERROR, s)
    else some (DRV_UART_RXBUSY, s)
  else none

/-- The assignment `s_UARTfunctionPointer[k] = fn`. -/
def setSlot (s : DrvState) (k : Nat) (fn : Option Nat) : DrvState :=
  { s with s_UARTfunctionPointer := setAt s.s_UARTfunctionPointer k fn }

/-- `Drv_Uart_InstallCallBack` (lines 707-721). -/
def Drv_Uart_InstallCallBack (callBackType : Nat) (cbFunction : Option Nat)
    (s : DrvState) : DrvState :=
  let s1 :=
    if callBackType = DRV_UART_CALLBACKERROR then
      setSlot s DRV_UART_CALLBACKERROR cbFunction
    else s
  let s2 :=
    if callBackType = DRV_UART_CALLBACKTRANSMITTER then
      setSlot s1 DRV_UART_CALLBACKTRANSMITTER cbFunction
    else s1
  if callBackType = DRV_UART_CALLBACKRECEIVER then
    setSlot s2 DRV_UART_CALLBACKRECEIVER cbFunction
  else s2

/-- `Drv_Uart_InstallCallBackE` (lines 727-730). -/
def Drv_Uart_InstallCallBackE (cbFunctionE : Option Nat) (s : DrvState) : DrvState :=
  { s with s_UARTx_ErrorCallBack := cbFunctionE }

/-- A store of one `uint8_t` through `p[off]`; undefined for `p = NULL`. -/
def storeByte (p : Option Nat) (off v : Nat) (s : DrvState) : Option DrvState :=
  match p with
  | none => none
  | some a => some { s with mem := setAt s.mem (a + off) (u8 v) }

/-- A load of one `uint8_t` through `p[off]`; undefined for `p = NULL`. -/
def loadByte (p : Option Nat) (off : Nat) (s : DrvState) : Option Nat :=
  match p with
  | none => none
  | some a => some (u8 (s.mem (a + off)))

/-- Lines 813-835 of `Drv_Uart_HanldeInterruptRx`: the `switch` on
`s_UARTconfig[instance].bitCountPerChar` that stores the character `data`. -/
def rxStore (inst data : Nat) (s : DrvState) : Option DrvState :=
  let rx := s.s_UARTrxBufferstr inst
  let width := (s.s_UARTconfig inst).bitCountPerChar
  if width = DRV_UART_DATABITCOUNT_7 then
    match storeByte rx.prxBuff rx.rxCount (data &&& 0x7F) s with
    | none => none
    | some s1 => some (updRx s1 inst fun t => { t with rxCount := u16 (t.rxCount + 1) })
  else if width = DRV_UART_DATABITCOUNT_8 then
    match storeByte rx.prxBuff rx.rxCount (data &&& 0xFF) s with
    | none => none
    | some s1 => some (updRx s1 inst fun t => { t with rxCount := u16 (t.rxCount + 1) })
  else if width = DRV_UART_DATABITCOUNT_9 then
    match storeByte rx.prxBuff rx.rxCount (data &&& 0xFF) s with
    | none => none
    | some s1 =>
      match storeByte rx.prxBuff (rx.rxCount + 1) ((data >>> 8) &&& 0x01) s1 with
      | none => none
      | some s2 => some (updRx s2 inst fun t => { t with rxCount := u16 (t.rxCount + 2) })
  else if width = DRV_UART_DATABITCOUNT_10 then
    match storeByte rx.prxBuff rx.rxCount (data &&& 0xFF) s with
    | none => none
    | some s1 =>
      match storeByte rx.prxBuff (rx.rxCount + 1) ((data >>> 8) &&& 0x03) s1 with
      | none => none
      | some s2 => some (updRx s2 inst fun t => { t with rxCount := u16 (t.rxCount + 2) })
  else some s

/-- `Drv_Uart_HanldeInterruptRx` (lines 806-851). -/
def Drv_Uart_HanldeInterruptRx (run : Callbacks) (inst : Nat) (s : DrvState) :
    Option DrvState :=
  if inst < LPUART_INSTANCE_COUNT then
    let data := u16 (s.base inst).DATA
    if (s.s_UARTrxBufferstr inst).isRxBusy then
      match rxStore inst data s with
      | none => none
      | some s1 =>
        if (s1.s_UARTrxBufferstr inst).rxCount = (s1.s_UARTrxBufferstr inst).rxBuffSize then
          let s2 := updRx s1 inst fun t =>
            { t with rxStatus := DRV_UART_STATEREADY, isRxBusy := false }
          match s2.s_UARTfunctionPointer DRV_UART_CALLBACKRECEIVER with
          | some fn => some (invoke run (Event.slot DRV_UART_CALLBACKRECEIVER fn) s2)
          | none => some s2
        else some s1
    else some s
  else none

/-- A write of `v` to the data register of the instance. -/
def writeDATA (inst v : Nat) (s : DrvState) : DrvState :=
  updBase s inst fun r => { r with written := r.written ++ [u32 v] }

/-- Lines 863-891 of `Drv_Uart_HanldeInterruptTx`: the `switch` on
`s_UARTconfig[instance].bitCountPerChar` that writes the next character. -/
def txLoad (inst : Nat) (s : DrvState) : Option DrvState :=
  let tx := s.s_UARTtxBufferstr inst
  let width := (s.s_UARTconfig inst).bitCountPerChar
  if width = DRV_UART_DATABITCOUNT_7 then
    match loadByte tx.ptxBuff tx.txCount s with
    | none => none
    | some b =>
      some (updTx (writeDATA inst (b &&& 0x7F) s) inst fun t =>
        { t with txCount := u16 (t.txCount + 1) })
  else if width = DRV_UART_DATABITCOUNT_8 then
    match loadByte tx.ptxBuff tx.txCount s with
    | none => none
    | some b =>
      some (updTx (writeDATA inst (b &&& 0xFF) s) inst fun t =>
        { t with txCount := u16 (t.txCount + 1) })
  else if width = DRV_UART_DATABITCOUNT_9 then
    match loadByte tx.ptxBuff tx.txCount s, loadByte tx.ptxBuff (tx.txCount + 1) s with
    | some tempData1, some tempData2 =>
      some (updTx (writeDATA inst (((tempData2 <<< 8) ||| tempData1) &&& 0x01FF) s) inst
        fun t => { t with txCount := u16 (t.txCount + 2) })
    | _, _ => none
  else if width = DRV_UART_DATABITCOUNT_10 then
    match loadByte tx.ptxBuff tx.txCount s, loadByte tx.ptxBuff (tx.txCount + 1) s with
    | some tempData1, some tempData2 =>
      some (updTx (writeDATA inst (((tempData2 <<< 8) ||| tempData1) &&& 0x03FF) s) inst
        fun t => { t with txCount := u16 (t.txCount + 2) })
    | _, _ => none
  else some s

/-- `Drv_Uart_HanldeInterruptTx` (lines 857-906). -/
def Drv_Uart_HanldeInterruptTx (run : Callbacks) (inst : Nat) (s : DrvState) :
    Option DrvState :=
  if inst < LPUART_INSTANCE_COUNT then
    if (s.s_UARTtxBufferstr inst).isTxBusy then
      match txLoad inst s with
      | none => none
      | some s1 =>
        if (s1.s_UARTtxBufferstr inst).txCount = (s1.s_UARTtxBufferstr inst).txBuffSize then
          let s2 := updBase s1 inst fun r =>
            { r with CTRL := r.CTRL &&& not32 LPUART_CTRL_TIE_MASK }
          let s3 := updBase s2 inst fun r =>
            { r with CTRL := r.CTRL &&& not32 LPUART_CTRL_TE_MASK }
          let s4 :=
            match s3.s_UARTfunctionPointer DRV_UART_CALLBACKTRANSMITTER with
            | some fn => invoke run (Event.slot DRV_UART_CALLBACKTRANSMITTER fn) s3
            | none => s3
          some (updTx s4 inst fun t =>
            { t with txStatus := DRV_UART_STATEREADY, isTxBusy := false })
        else some s1
    else some s
  else none

/-- Lines 916-933 of `Drv_Uart_HanldeInterruptError`: the `switch` on the
error flags of the status register. -/
def classify (temp : Nat) (old : Drv_Uart_StatusType) : Drv_Uart_StatusType :=
  if temp = LPUART_STAT_OR_MASK then DRV_UART_STATERXOVERRUNERROR
  else if temp = LPUART_STAT_NF_MASK then DRV_UART_STATENOISEERROR
  else if temp = LPUART_STAT_FE_MASK then DRV_UART_STATEFRAMINGERROR
  else if temp = LPUART_STAT_PF_MASK then DRV_UART_STATEPARITYERROR
  else old

/-- `Drv_Uart_HanldeInterruptError` (lines 912-944).  The call of line 942
goes through `s_UARTx_ErrorCallBack`; through a null pointer it is
undefined. -/
def Drv_Uart_HanldeInterruptError (run : Callbacks) (inst : Nat) (s : DrvState) :
    Option DrvState :=
  if inst < LPUART_INSTANCE_COUNT then
    let temp := (s.base inst).STAT &&& DRV_UART_STAT_ERROR_REC_FLAG_MASK
    let s1 := updRx s inst fun t => { t with rxStatus := classify temp t.rxStatus }
    let s2 := updBase s1 inst fun r =>
      writeSTAT r (r.STAT ||| DRV_UART_STAT_ERROR_REC_FLAG_MASK)
    let s3 := updBase s2 inst fun r =>
      { r with CTRL := r.CTRL &&& not32 DRV_UART_CTRL_ERROR_REC_INTERRUPT_MASK }
    let s4 := updBase s3 inst fun r =>
      { r with CTRL := r.CTRL &&& not32 LPUART_CTRL_RIE_MASK }
    match s4.s_UARTfunctionPointer DRV_UART_CALLBACKERROR with
    | some _ =>
      match s4.s_UARTx_ErrorCallBack with
      | none => none
      | some fnE => some (invoke run (Event.error fnE (s4.s_UARTrxBufferstr inst).rxStatus) s4)
    | none => some s4
  else none

/-- `Drv_Uart_CheckIFReceiver` (lines 736-746). -/
def Drv_Uart_CheckIFReceiver (inst : Nat) (s : DrvState) : Bool :=
  decide ((s.base inst).STAT &&& LPUART_STAT_RDRF_MASK ≠ 0)

/-- `Drv_Uart_CheckIFTransmitter` (lines 753-763). -/
def Drv_Uart_CheckIFTransmitter (inst : Nat) (s : DrvState) : Bool :=
  decide ((s.base inst).STAT &&& LPUART_STAT_TDRE_MASK ≠ 0)

/-- `Drv_Uart_CheckIFError` (lines 769-779). -/
def Drv_Uart_CheckIFError (inst : Nat) (s : DrvState) : Bool :=
  decide ((s.base inst).STAT &&& DRV_UART_STAT_ERROR_REC_FLAG_MASK ≠ 0)

/-- `Drv_Uart_HanldeInterrupt` (lines 786-800), the dispatcher the three
interrupt service routines call with their instance. -/
def Drv_Uart_HanldeInterrupt (run : Callbacks) (inst : Nat) (s : DrvState) :
    Option DrvState :=
  if inst < LPUART_INSTANCE_COUNT then
    if Drv_Uart_CheckIFReceiver inst s then Drv_Uart_HanldeInterruptRx run inst s
    else if Drv_Uart_CheckIFTransmitter inst s then Drv_Uart_HanldeInterruptTx run inst s
    else if Drv_Uart_CheckIFError inst s then Drv_Uart_HanldeInterruptError run inst s
    else some s
  else none

/-- The loop of lines 554-589 of `Drv_Uart_ReceiveDataPolling`, for the
character width `width`: every pass waits for a character (the next one of
the list the hardware delivers) and stores it through `rxBuff`.  `none` when
the characters run out while the loop still waits. -/
def rxPollLoop (width : Nat) : List Nat → Nat → Nat → DrvState → Option DrvState
  | _, _, 0, s => some s
  | [], _, _ + 1, _ => none
  | c :: cs, rxBuff, rxSize + 1, s =>
    let data := u16 c
    if width = DRV_UART_DATABITCOUNT_7 then
      rxPollLoop width cs (rxBuff + 1) rxSize
        { s with mem := setAt s.mem rxBuff (u8 (data &&& 0x7F)) }
    else if width = DRV_UART_DATABITCOUNT_8 then
      rxPollLoop width cs (rxBuff + 1) rxSize
        { s with mem := setAt s.mem rxBuff (u8 (data &&& 0xFF)) }
    else if width = DRV_UART_DATABITCOUNT_9 then
      rxPollLoop width cs (rxBuff + 2) (u16 (u32 (rxSize + 1 + (2 ^ 32 - 2))))
        { s with mem := setAt (setAt s.mem rxBuff (u8 (data &&& 0xFF))) (rxBuff + 1)
                          (u8 ((data >>> 8) &&& 0x01)) }
    else if width = DRV_UART_DATABITCOUNT_10 then
      rxPollLoop width cs (rxBuff + 2) (u16 (u32 (rxSize + 1 + (2 ^ 32 - 2))))
        { s with mem := setAt (setAt s.mem rxBuff (u8 (data &&& 0xFF))) (rxBuff + 1)
                          (u8 ((data >>> 8) &&& 0x03)) }
    else rxPollLoop width cs rxBuff (rxSize + 1) s

/-- `Drv_Uart_ReceiveDataPolling` (lines 536-608), with the characters the
hardware delivers while the function polls.  Lines 546-547 write the
transmit descriptor.  The waits on the control register are over at once;
`none` also when the function never returns. -/
def Drv_Uart_ReceiveDataPolling (inst : Nat) (rxBuff : Option Nat) (rxSize : Nat)
    (chars : List Nat) (s : DrvState) : Option (Drv_Uart_StatusType × DrvState) :=
  if inst < LPUART_INSTANCE_COUNT then
    if ¬ (s.s_UARTrxBufferstr inst).isRxBusy then
      match rxBuff with
      | some a =>
        if inst < LPUART_INSTANCE_COUNT ∧ rxSize > 0 then
          let s1 := updTx s inst fun t =>
            { t with txStatus := DRV_UART_TXBUSY, isTxBusy := true }
          let s2 := updBase s1 inst fun r =>
            { r with CTRL := (r.CTRL &&& not32 LPUART_CTRL_RE_MASK)
                               ||| shl32 1 LPUART_CTRL_RE_SHIFT }
          match rxPollLoop (s2.s_UARTconfig inst).bitCountPerChar chars a rxSize s2 with
          | none => none
          | some s3 =>
            let s4 := updBase s3 inst fun r =>
              { r with CTRL := r.CTRL &&& not32 LPUART_CTRL_RE_MASK }
            let s5 := updRx s4 inst fun t =>
              { t with rxStatus := DRV_UART_STATEREADY, isRxBusy := false }
            some (DRV_UART_STATEREADY, s5)
        else some (DRV_UART_ERROR, s)
      | none => some (DRV_UART_ERROR, s)
    else some (DRV_UART_TXBUSY, s)
  else none

/-- `Drv_Uart_AbortReceiving` (lines 614-626). -/
def Drv_Uart_AbortReceiving (inst : Nat) (s : DrvState) :
    Option (Drv_Uart_StatusType × DrvState) :=
  if inst < LPUART_INSTANCE_COUNT then
    let s1 := updRx s inst fun t =>
      { t with prxBuff := none, rxBuffSize := 0, rxCount := 0,
               rxStatus := DRV_UART_STATEREADY, isRxBusy := false }
    let s2 := updBase s1 inst fun r =>
      { r with CTRL := r.CTRL &&& not32 LPUART_CTRL_RIE_MASK }
    let s3 := updBase s2 inst fun r =>
      { r with CTRL := r.CTRL &&& not32 LPUART_CTRL_RE_MASK }
    some (DRV_UART_STATEREADY, s3)
  else none

/-- `Drv_Uart_AbortTransmitting` (lines 632-644). -/
def Drv_Uart_AbortTransmitting (inst : Nat) (s : DrvState) :
    Option (Drv_Uart_StatusType × DrvState) :=
  if inst < LPUART_INSTANCE_COUNT then
    let s1 := updTx s inst fun t =>
      { t with ptxBuff := none, txBuffSize := 0, txCount := 0,
               txStatus := DRV_UART_STATEREADY, isTxBusy := false }
    let s2 := updBase s1 inst fun r =>
      { r with CTRL := r.CTRL &&& not32 LPUART_CTRL_TIE_MASK }
    let s3 := updBase s2 inst fun r =>
      { r with CTRL := r.CTRL &&& not32 LPUART_CTRL_TE_MASK }
    some (DRV_UART_STATEREADY, s3)
  else none

/-- `Drv_Uart_Deinit` (lines 951-986).  The write to the interrupt
controller (line 976) is outside the state kept here; the wait of line 979
is over at once. -/
def Drv_Uart_Deinit (inst : Nat) (s : DrvState) : Option (Drv_Uart_StatusType × DrvState) :=
  if inst < LPUART_INSTANCE_COUNT then
    if inst < LPUART_INSTANCE_COUNT then
      let s1 := updBase s inst fun r => writeSTAT r 0xC01FC000
      let s2 := updBase s1 inst fun r => { r with CTRL := 0x00000000 }
      let s3 := updBase s2 inst fun r => { r with MATCH := 0x00000000 }
      let s4 := updBase s3 inst fun r => { r with BAUD := 0x0F000004 }
      let s5 := setSlot s4 DRV_UART_CALLBACKERROR none
      let s6 := setSlot s5 DRV_UART_CALLBACKRECEIVER none
      let s7 := setSlot s6 DRV_UART_CALLBACKTRANSMITTER none
      let s8 := updTx s7 inst fun t =>
        { t with txStatus := DRV_UART_STATEDEFAULT, isTxBusy := false }
      let s9 := updRx s8 inst fun t =>
        { t with rxStatus := DRV_UART_STATEDEFAULT, isRxBusy := false }
      let s10 := updBase s9 inst fun r =>
        { r with CTRL := r.CTRL &&& not32 (LPUART_CTRL_TE_MASK ||| LPUART_CTRL_RE_MASK) }
      some (DRV_UART_OK, s10)
    else some (DRV_UART_ERROR, s)
  else none

/-- The value `Drv_Uart_HanldeInterruptTx` writes to the data register for
the width `width` from the buffer bytes `tempData1` (at the progress offset)
and `tempData2` (the next one): the right-hand sides of lines 866, 871, 878
and 885. -/
def txChar (width tempData1 tempData2 : Nat) : Nat :=
  if width = DRV_UART_DATABITCOUNT_7 then tempData1 &&& 0x7F
  else if width = DRV_UART_DATABITCOUNT_8 then tempData1 &&& 0xFF
  else if width = DRV_UART_DATABITCOUNT_9 then ((tempData2 <<< 8) ||| tempData1) &&& 0x01FF
  else if width = DRV_UART_DATABITCOUNT_10 then ((tempData2 <<< 8) ||| tempData1) &&& 0x03FF
  else 0

/-- The bytes `Drv_Uart_HanldeInterruptRx` stores for the width `width` from
the value `data` read from the data register: the right-hand sides of lines
816, 820, 824-825 and 829-830, in the order of the buffer. -/
def rxBytes (width data : Nat) : List Nat :=
  if width = DRV_UART_DATABITCOUNT_7 then [u8 (data &&& 0x7F)]
  else if width = DRV_UART_DATABITCOUNT_8 then [u8 (data &&& 0xFF)]
  else if width = DRV_UART_DATABITCOUNT_9 then
    [u8 (data &&& 0xFF), u8 ((data >>> 8) &&& 0x01)]
  else if width = DRV_UART_DATABITCOUNT_10 then
    [u8 (data &&& 0xFF), u8 ((data >>> 8) &&& 0x03)]
  else []

/-! ## Hardware events, repeated interrupts, register fields -/

/-- The hardware receives the character `v` on the instance: a read of the
data register returns `v` and the data-ready flag is set. -/
def hwReceive (inst v : Nat) (s : DrvState) : DrvState :=
  updBase s inst fun r => { r with DATA := v, STAT := r.STAT ||| LPUART_STAT_RDRF_MASK }

/-- The hardware raises the status flags `flags` of the instance. -/
def hwRaise (inst flags : Nat) (s : DrvState) : DrvState :=
  updBase s inst fun r => { r with STAT := r.STAT ||| flags }

/-- The hardware reports the transmit data register empty, with no received
character pending: the transmit-empty flag is set, the data-ready flag clear. -/
def hwTransmitReady (inst : Nat) (s : DrvState) : DrvState :=
  updBase s inst fun r =>
    { r with STAT := (r.STAT &&& not32 LPUART_STAT_RDRF_MASK) ||| LPUART_STAT_TDRE_MASK }

/-- A receive-ready interrupt that delivers the character `v`. -/
def rxReadyIrq (run : Callbacks) (inst v : Nat) (s : DrvState) : Option DrvState :=
  Drv_Uart_HanldeInterrupt run inst (hwReceive inst v s)

/-- A transmit-ready interrupt. -/
def txReadyIrq (run : Callbacks) (inst : Nat) (s : DrvState) : Option DrvState :=
  Drv_Uart_HanldeInterrupt run inst (hwTransmitReady inst s)

/-- The handler `f` run `k` times in a row. -/
def repeatIrq (f : DrvState → Option DrvState) : Nat → DrvState → Option DrvState
  | 0, s => some s
  | k + 1, s =>
    match f s with
    | none => none
    | some s1 => repeatIrq f k s1

/-- The `n` bytes of memory from the address `a` on. -/
def readBuf (s : DrvState) (a n : Nat) : List Nat :=
  (List.range n).map fun i => u8 (s.mem (a + i))

/-- The oversampling field of a baud-register value, bits 24..28. -/
def fieldOSR (baud : Nat) : Nat := (baud >>> 24) &&& 0x1F

/-- The divider field of a baud-register value, bits 0..12. -/
def fieldSBR (baud : Nat) : Nat := baud &&& 0x1FFF

/-- The clock frequencies `Drv_Uart_Init` selects between (lines 312-319). -/
def supportedClocks : List Nat := [8000000, 48000000]

/-- The least candidate error found by enumerating the ratios 4..32. -/
def bruteForceError (clk baud : Nat) : Nat :=
  ((List.range' 4 29).map (candidateError clk baud)).foldl min (candidateError clk baud 4)

/-- The start-up state in which instance `inst` runs from the clock `clk`. -/
def clockedState (inst clk : Nat) : DrvState :=
  { initialState (fun _ => 0) with s_UARTclkSource := setAt (fun _ => 0) inst clk }

/-- The state of an asynchronous transmission of the `n` bytes at `a`, started
in the state `s`, after `k` bytes were moved to the data register. -/
def TxInFlight (s : DrvState) (inst a n k : Nat) (t : DrvState) : Prop :=
  t.s_UARTtxBufferstr inst = ⟨some a, n, k, DRV_UART_TXBUSY, true⟩ ∧
  (t.base inst).written = (s.base inst).written ++ readBuf s a k ∧
  t.mem = s.mem ∧ t.trace = s.trace ∧
  (t.s_UARTconfig inst).bitCountPerChar = DRV_UART_DATABITCOUNT_8 ∧
  t.s_UARTfunctionPointer = s.s_UARTfunctionPointer

/-! ## Scenarios -/

/-- The state an operation leaves, `d` if the operation is undefined. -/
def stateAfter (o : Option (Drv_Uart_StatusType × DrvState)) (d : DrvState) : DrvState :=
  match o with
  | some (_, s) => s
  | none => d

/-- A configuration with the character width `width`, parity disabled, one
stop bit, 115200 baud, interrupt transfers, the 48 MHz clock. -/
def configOfWidth (width : Nat) : Drv_Uart_ConfigType :=
  { bitCountPerChar := width
    parityMode := DRV_UART_PARITYMODEDISABLED
    stopBit := DRV_UART_STOPBITCOUNTONE
    baudRate := 115200
    transferType := DRV_UART_USINGINTERRUPTS
    clockSource := DRV_UART_FIRCCLKSOUCE }

/-- Start-up, then `Drv_Uart_Init` of instance 0 with the width `width`. -/
def configured (width : Nat) (mem : Nat → Nat) : DrvState :=
  stateAfter (Drv_Uart_Init 0 (some (configOfWidth width)) (initialState mem))
    (initialState mem)

/-- Memory holding the bytes `0x41, 0x42, 0x43` from the address `0x100` on. -/
def abcMemory : Nat → Nat := fun a =>
  if a = 0x100 then 0x41 else if a = 0x101 then 0x42 else if a = 0x102 then 0x43 else 0

/-- Instance 0 configured with width 8 and a transmit-complete callback `7`. -/
def sendReady : DrvState :=
  Drv_Uart_InstallCallBack DRV_UART_CALLBACKTRANSMITTER (some 7)
    (configured DRV_UART_DATABITCOUNT_8 abcMemory)

/-- Instance 0 configured with width 9, a receive-complete callback `fn`
registered, `receiveAsync(buf, 4)` issued, and two receive-ready interrupts
that deliver `0x1AB` and `0x0CD`. -/
def width9Receive (mem : Nat → Nat) (buf fn : Nat) : Option DrvState :=
  match Drv_Uart_ReceiveDataInterrupt 0 (some buf) 4
      (Drv_Uart_InstallCallBack DRV_UART_CALLBACKRECEIVER (some fn)
        (configured DRV_UART_DATABITCOUNT_9 mem)) with
  | none => none
  | some (_, s2) =>
    match rxReadyIrq inert 0 0x1AB s2 with
    | none => none
    | some s3 => rxReadyIrq inert 0 0x0CD s3

/-- Instance 0 configured, error callbacks `5` (by kind) and `6` (error
registration) registered, `receiveAsync(0x100, 4)` in flight, and the
hardware raising the status flags `flags`. -/
def receiveWithFlags (flags : Nat) : DrvState :=
  hwRaise 0 flags
    (stateAfter
      (Drv_Uart_ReceiveDataInterrupt 0 (some 0x100) 4
        (Drv_Uart_InstallCallBackE (some 6)
          (Drv_Uart_InstallCallBack DRV_UART_CALLBACKERROR (some 5)
            (configured DRV_UART_DATABITCOUNT_8 abcMemory))))
      (initialState abcMemory))

/-- A transmit direction that is busy with the 3 bytes at `0x100`, one of
them sent. -/
def sendBusy : DrvState :=
  updTx sendReady 0 fun t =>
    { t with ptxBuff := some 0x100, txBuffSize := 3, txCount := 1,
             txStatus := DRV_UART_TXBUSY, isTxBusy := true }

/-- Memory holding `0xEE` in every byte. -/
def staleMemory : Nat → Nat := fun _ => 0xEE

/-- What a test observes of the receive direction of instance 0: the `n`
bytes of the buffer at `buf`, the progress count, the status, the busy flag,
and the calls made through the callback pointers. -/
def observeRx (buf n : Nat) (s : DrvState) :
    List Nat × Nat × Drv_Uart_StatusType × Bool × List Event :=
  (readBuf s buf n, (s.s_UARTrxBufferstr 0).rxCount, (s.s_UARTrxBufferstr 0).rxStatus,
    (s.s_UARTrxBufferstr 0).isRxBusy, s.trace)

/-- Instance 0 configured, then `sendAsync` of the 3 bytes at `0x100` and
`receiveAsync` of 4 bytes into `0x200`, both in flight. -/
def bothInFlight : DrvState :=
  stateAfter
    (Drv_Uart_ReceiveDataInterrupt 0 (some 0x200) 4
      (stateAfter (Drv_Uart_SendDataInterrupt 0 (some 0x100) 3 sendReady) sendReady))
    sendReady

/-- The kind the specification reports for each single error flag. -/
def singleErrorFlags : List (Nat × Drv_Uart_StatusType) :=
  [(LPUART_STAT_OR_MASK, DRV_UART_STATERXOVERRUNERROR),
   (LPUART_STAT_NF_MASK, DRV_UART_STATENOISEERROR),
   (LPUART_STAT_FE_MASK, DRV_UART_STATEFRAMINGERROR),
   (LPUART_STAT_PF_MASK, DRV_UART_STATEPARITYERROR)]

/-- The hardware shows exactly the status flags `flags` on the instance. -/
def hwStatus (inst flags : Nat) (s : DrvState) : DrvState :=
  updBase s inst fun r => { r with STAT := flags }

/-- Instance 0 configured, an error callback `5` registered by kind and an
error callback `6` registered with the error registration, and
`receiveAsync(0x100, 4)` in flight. -/
def receiveArmed : DrvState :=
  stateAfter
    (Drv_Uart_ReceiveDataInterrupt 0 (some 0x100) 4
      (Drv_Uart_InstallCallBackE (some 6)
        (Drv_Uart_InstallCallBack DRV_UART_CALLBACKERROR (some 5)
          (configured DRV_UART_DATABITCOUNT_8 abcMemory))))
    (initialState abcMemory)

/-- Instance 0 configured, an error callback `6` registered with the error
registration only, `receiveAsync(0x100, 4)` in flight, the overrun flag
raised. -/
def errorRegisteredOnly : DrvState :=
  hwRaise 0 LPUART_STAT_OR_MASK
    (stateAfter
      (Drv_Uart_ReceiveDataInterrupt 0 (some 0x100) 4
        (Drv_Uart_InstallCallBackE (some 6) (configured DRV_UART_DATABITCOUNT_8 abcMemory)))
      (initialState abcMemory))

/-- Start-up, then an error callback `5` registered by kind only. -/
def kindRegisteredOnly : DrvState :=
  Drv_Uart_InstallCallBack DRV_UART_CALLBACKERROR (some 5) (initialState abcMemory)

/-- From instance 0 configured: `sendAsync` of 1 byte, the transmit-ready
interrupt that completes it, a completed `receiveBlocking` of 1 byte, and one
more transmit-ready interrupt.  Result: the states after the second, the
third and the last step. -/
def progressScenario : Option (DrvState × DrvState × DrvState) :=
  match Drv_Uart_SendDataInterrupt 0 (some 0x100) 1 sendReady with
  | none => none
  | some (_, s1) =>
    match txReadyIrq inert 0 s1 with
    | none => none
    | some s2 =>
      match Drv_Uart_ReceiveDataPolling 0 (some 0x200) 1 [0x5A] s2 with
      | none => none
      | some (_, s3) =>
        match txReadyIrq inert 0 s3 with
        | none => none
        | some s4 => some (s2, s3, s4)

/-- The progress count, the buffer length and the busy flag of the transmit
direction of instance 0. -/
def observeTx (s : DrvState) : Nat × Nat × Bool :=
  ((s.s_UARTtxBufferstr 0).txCount, (s.s_UARTtxBufferstr 0).txBuffSize,
    (s.s_UARTtxBufferstr 0).isTxBusy)

/-- The receive in flight of `receiveArmed` after the error handler served an
overrun, then a `receiveAsync(0x300, 2)`: the status returned and the receive
descriptor of instance 0 before and after the call. -/
def rearmScenario :
    Option (Drv_Uart_StatusType × Drv_Uart_RxBuffType × Drv_Uart_RxBuffType) :=
  match Drv_Uart_HanldeInterruptError inert 0 (hwRaise 0 LPUART_STAT_OR_MASK receiveArmed) with
  | none => none
  | some s1 =>
    match Drv_Uart_ReceiveDataInterrupt 0 (some 0x300) 2 s1 with
    | none => none
    | some (r, s2) => some (r, s1.s_UARTrxBufferstr 0, s2.s_UARTrxBufferstr 0)

/-- The state `bothInFlight` at a moment when the hardware has received the
character `0x5A` (data-ready set), the transmit data register is empty
(transmit-empty set) and the overrun flag is raised. -/
def allPending : DrvState :=
  hwRaise 0 (LPUART_STAT_TDRE_MASK ||| LPUART_STAT_OR_MASK) (hwReceive 0 0x5A bothInFlight)

/-- The state the error handler leaves from `receiveArmed` with the overrun
flag raised. -/
def afterOverrun : DrvState :=
  stateAfter
    ((Drv_Uart_HanldeInterruptError inert 0 (hwRaise 0 LPUART_STAT_OR_MASK receiveArmed)).map
      fun s => (DRV_UART_OK, s))
    receiveArmed

/-- `UserConfig` of `MIDDLE_UART.c` (lines 12-18). -/
def UserConfig : Drv_Uart_ConfigType :=
  { baudRate := 115200
    bitCountPerChar := DRV_UART_DATABITCOUNT_8
    clockSource := DRV_UART_FIRCCLKSOUCE
    parityMode := DRV_UART_PARITYMODEDISABLED
    stopBit := DRV_UART_STOPBITCOUNTONE
    transferType := DRV_UART_USINGINTERRUPTS }

/-- The driver call of `MIDD_uartInit` (`MIDDLE_UART.c`, line 53); the pin
and interrupt-controller set-up around it is outside the state kept here. -/
def MIDD_uartInit (s : DrvState) : Option (Drv_Uart_StatusType × DrvState) :=
  Drv_Uart_Init DRV_UART_INSTANCE_1 (some UserConfig) s

/-- A configuration with 8-bit characters, parity disabled and interrupt
transfers, with the given stop-bit count, baud rate and clock source. -/
def configWith (stopBit baudRate clockSource : Nat) : Drv_Uart_ConfigType :=
  { bitCountPerChar := DRV_UART_DATABITCOUNT_8
    parityMode := DRV_UART_PARITYMODEDISABLED
    stopBit := stopBit
    baudRate := baudRate
    transferType := DRV_UART_USINGINTERRUPTS
    clockSource := clockSource }

/-- What a test observes of `Drv_Uart_Init` on the instance `inst`: the
status returned, the baud register and its stop-bit-count bit (bit 13). -/
def observeInit (inst : Nat) (p : Drv_Uart_StatusType × DrvState) :
    Drv_Uart_StatusType × Nat × Bool :=
  (p.1, (p.2.base inst).BAUD, (p.2.base inst).BAUD.testBit LPUART_BAUD_SBNS_SHIFT)

/-- A transmit-complete callback that issues `sendAsync(inst, a, n)` from
inside the callback; every other call does nothing to the driver. -/
def resendCallback (inst a n : Nat) : Callbacks := fun ev s =>
  match ev with
  | Event.slot 1 _ => stateAfter (Drv_Uart_SendDataInterrupt inst (some a) n s) s
  | _ => s

/-- The state `sendReady` with `sendAsync` of the 1 byte at `0x100` in
flight. -/
def sendOne : DrvState :=
  stateAfter (Drv_Uart_SendDataInterrupt 0 (some 0x100) 1 sendReady) sendReady

/-- From `sendOne`: the transmit-ready interrupt that completes the
transmission, with a transmit-complete callback that issues `sendAsync` of
the 2 bytes at `0x101`. -/
def resendScenario : Option DrvState :=
  txReadyIrq (resendCallback 0 0x101 2) 0 sendOne

/-- Instance 0 configured with a receive-complete callback `9` and
`receiveAsync(0x200, 1)` in flight. -/
def receiveOne : DrvState :=
  stateAfter
    (Drv_Uart_ReceiveDataInterrupt 0 (some 0x200) 1
      (Drv_Uart_InstallCallBack DRV_UART_CALLBACKRECEIVER (some 9) sendReady))
    sendReady

/-- What a test observes after the receive-ready interrupt that completes a
reception on instance 0: the receive-interrupt-enable and receiver-enable
bits of the control register, the receive descriptor, and the calls made. -/
def observeRxDone (s : DrvState) : Nat × Nat × Drv_Uart_RxBuffType × List Event :=
  ((s.base 0).CTRL &&& LPUART_CTRL_RIE_MASK, (s.base 0).CTRL &&& LPUART_CTRL_RE_MASK,
    s.s_UARTrxBufferstr 0, s.trace)

/-- From `sendReady` (transmit direction idle): a completed
`receiveBlocking(0x200, 2)` with the characters `0x5A, 0x5B`, then
`sendAsync(0x100, 3)`.  Result: the transmit status and busy flag before the
receive, after it, and the status `sendAsync` returns. -/
def blockingThenSend :
    Option ((Drv_Uart_StatusType × Bool) × (Drv_Uart_StatusType × Bool) ×
      Drv_Uart_StatusType) :=
  match Drv_Uart_ReceiveDataPolling 0 (some 0x200) 2 [0x5A, 0x5B] sendReady with
  | none => none
  | some (_, s1) =>
    match Drv_Uart_SendDataInterrupt 0 (some 0x100) 3 s1 with
    | none => none
    | some (r, _) =>
      some (((sendReady.s_UARTtxBufferstr 0).txStatus, (sendReady.s_UARTtxBufferstr 0).isTxBusy),
        ((s1.s_UARTtxBufferstr 0).txStatus, (s1.s_UARTtxBufferstr 0).isTxBusy), r)

/-! ## The remaining functions, and sequences of calls -/

/-- `Drv_Uart_EnableTx` (lines 369-372). -/
def Drv_Uart_EnableTx (inst : Nat) (s : DrvState) : Option DrvState :=
  if inst < LPUART_INSTANCE_COUNT then
    some (updBase s inst fun r =>
      { r with CTRL := (r.CTRL &&& not32 LPUART_CTRL_TE_MASK)
                         ||| shl32 1 LPUART_CTRL_TE_SHIFT })
  else none

/-- `Drv_Uart_DisableTx` (lines 378-381). -/
def Drv_Uart_DisableTx (inst : Nat) (s : DrvState) : Option DrvState :=
  if inst < LPUART_INSTANCE_COUNT then
    some (updBase s inst fun r => { r with CTRL := r.CTRL &&& not32 LPUART_CTRL_TE_MASK })
  else none

/-- `Drv_Uart_EnableRx` (lines 387-390). -/
def Drv_Uart_EnableRx (inst : Nat) (s : DrvState) : Option DrvState :=
  if inst < LPUART_INSTANCE_COUNT then
    some (updBase s inst fun r =>
      { r with CTRL := (r.CTRL &&& not32 LPUART_CTRL_RE_MASK)
                         ||| shl32 1 LPUART_CTRL_RE_SHIFT })
  else none

/-- `Drv_Uart_DisableRx` (lines 396-399). -/
def Drv_Uart_DisableRx (inst : Nat) (s : DrvState) : Option DrvState :=
  if inst < LPUART_INSTANCE_COUNT then
    some (updBase s inst fun r => { r with CTRL := r.CTRL &&& not32 LPUART_CTRL_RE_MASK })
  else none

/-- The loop of lines 422-472 of `Drv_Uart_SendDataPolling`, for the
character width `width`, with at most `fuel` passes: every pass writes one
character read through `txBuff` to the data register.  The waits on the
status flags are over at once.  `none` when the loop has not ended within
`fuel` passes. -/
def txPollLoop (inst width : Nat) : Nat → Nat → Nat → DrvState → Option DrvState
  | 0, _, txSize, s => if txSize = 0 then some s else none
  | fuel + 1, txBuff, txSize, s =>
    if txSize = 0 then some s
    else if width = DRV_UART_DATABITCOUNT_7 then
      txPollLoop inst width fuel (txBuff + 1) (txSize - 1)
        (writeDATA inst (u8 (s.mem txBuff) &&& 0x7F) s)
    else if width = DRV_UART_DATABITCOUNT_8 then
      txPollLoop inst width fuel (txBuff + 1) (txSize - 1)
        (writeDATA inst (u8 (s.mem txBuff) &&& 0xFF) s)
    else if width = DRV_UART_DATABITCOUNT_9 then
      txPollLoop inst width fuel (txBuff + 2) (u16 (u32 (txSize + (2 ^ 32 - 2))))
        (writeDATA inst (((u8 (s.mem (txBuff + 1)) <<< 8) ||| u8 (s.mem txBuff)) &&& 0x01FF) s)
    else if width = DRV_UART_DATABITCOUNT_10 then
      txPollLoop inst width fuel (txBuff + 2) (u16 (u32 (txSize + (2 ^ 32 - 2))))
        (writeDATA inst (((u8 (s.mem (txBuff + 1)) <<< 8) ||| u8 (s.mem txBuff)) &&& 0x03FF) s)
    else txPollLoop inst width fuel txBuff txSize s

/-- `Drv_Uart_SendDataPolling` (lines 406-491), with at most `fuel` passes of
its loop.  The waits on the control register are over at once; `none` also
when the function has not returned within `fuel` passes. -/
def Drv_Uart_SendDataPolling (inst : Nat) (txBuff : Option Nat) (txSize fuel : Nat)
    (s : DrvState) : Option (Drv_Uart_StatusType × DrvState) :=
  if inst < LPUART_INSTANCE_COUNT then
    match txBuff with
    | some a =>
      if inst < LPUART_INSTANCE_COUNT ∧ txSize > 0 then
        if ¬ (s.s_UARTtxBufferstr inst).isTxBusy then
          let s1 := updTx s inst fun t =>
            { t with txStatus := DRV_UART_TXBUSY, isTxBusy := true }
          let s2 := updBase s1 inst fun r =>
            { r with CTRL := (r.CTRL &&& not32 LPUART_CTRL_TE_MASK)
                               ||| shl32 1 LPUART_CTRL_TE_SHIFT }
          match txPollLoop inst (s2.s_UARTconfig inst).bitCountPerChar fuel a txSize s2 with
          | none => none
          | some s3 =>
            let s4 := updBase s3 inst fun r =>
              { r with CTRL := (r.CTRL &&& not32 LPUART_CTRL_TE_MASK)
                                 ||| shl32 0 LPUART_CTRL_TE_SHIFT }
            let s5 := updTx s4 inst fun t =>
              { t with txStatus := DRV_UART_STATEREADY, isTxBusy := false }
            some (DRV_UART_STATEREADY, s5)
        else some (DRV_UART_TXBUSY, s)
      else some (DRV_UART_ERROR, s)
    | none => some (DRV_UART_ERROR, s)
  else none

/-- `LPUART0_RxTx_IRQHandler`, `LPUART1_RxTx_IRQHandler` and
`LPUART2_RxTx_IRQHandler` (lines 688-701): the handler of the instance calls
the dispatcher with its instance. -/
def LPUART_RxTx_IRQHandler (run : Callbacks) (inst : Nat) (s : DrvState) : Option DrvState :=
  Drv_Uart_HanldeInterrupt run inst s

/-- What can happen to the driver: a call of one of its functions with
external linkage by the application, a store of the application to its
memory, a change of the status and data registers by the hardware, and an
interrupt request of an instance. -/
inductive Call where
  | Init (inst : Nat) (uartConfig : Option Drv_Uart_ConfigType)
  | Deinit (inst : Nat)
  | SetBaudRate (inst baudRate : Nat)
  | EnableTx (inst : Nat)
  | DisableTx (inst : Nat)
  | EnableRx (inst : Nat)
  | DisableRx (inst : Nat)
  | SendDataPolling (inst : Nat) (txBuff : Option Nat) (txSize fuel : Nat)
  | SendDataInterrupt (inst : Nat) (data : Option Nat) (length : Nat)
  | ReceiveDataPolling (inst : Nat) (rxBuff : Option Nat) (rxSize : Nat) (chars : List Nat)
  | ReceiveDataInterrupt (inst : Nat) (rxBuff : Option Nat) (rxSize : Nat)
  | AbortReceiving (inst : Nat)
  | AbortTransmitting (inst : Nat)
  | InstallCallBack (callBackType : Nat) (cbFunction : Option Nat)
  | InstallCallBackE (cbFunctionE : Option Nat)
  | store (addr v : Nat)
  | hardware (inst stat data : Nat)
  | interrupt (inst : Nat)
deriving Repr

/-- The state after one call; `none` when the call is undefined or does not
return.  The status a function returns is dropped. -/
def step (run : Callbacks) (c : Call) (s : DrvState) : Option DrvState :=
  match c with
  | Call.Init inst uartConfig => (Drv_Uart_Init inst uartConfig s).map Prod.snd
  | Call.Deinit inst => (Drv_Uart_Deinit inst s).map Prod.snd
  | Call.SetBaudRate inst baudRate => (Drv_Uart_SetBaudRate inst baudRate s).map Prod.snd
  | Call.EnableTx inst => Drv_Uart_EnableTx inst s
  | Call.DisableTx inst => Drv_Uart_DisableTx inst s
  | Call.EnableRx inst => Drv_Uart_EnableRx inst s
  | Call.DisableRx inst => Drv_Uart_DisableRx inst s
  | Call.SendDataPolling inst txBuff txSize fuel =>
    (Drv_Uart_SendDataPolling inst txBuff txSize fuel s).map Prod.snd
  | Call.SendDataInterrupt inst data length =>
    (Drv_Uart_SendDataInterrupt inst data length s).map Prod.snd
  | Call.ReceiveDataPolling inst rxBuff rxSize chars =>
    (Drv_Uart_ReceiveDataPolling inst rxBuff rxSize chars s).map Prod.snd
  | Call.ReceiveDataInterrupt inst rxBuff rxSize =>
    (Drv_Uart_ReceiveDataInterrupt inst rxBuff rxSize s).map Prod.snd
  | Call.AbortReceiving inst => (Drv_Uart_AbortReceiving inst s).map Prod.snd
  | Call.AbortTransmitting inst => (Drv_Uart_AbortTransmitting inst s).map Prod.snd
  | Call.InstallCallBack callBackType cbFunction =>
    some (Drv_Uart_InstallCallBack callBackType cbFunction s)
  | Call.InstallCallBackE cbFunctionE => some (Drv_Uart_InstallCallBackE cbFunctionE s)
  | Call.store addr v => some { s with mem := setAt s.mem addr (u8 v) }
  | Call.hardware inst stat data =>
    some (updBase s inst fun r => { r with STAT := stat, DATA := data })
  | Call.interrupt inst => LPUART_RxTx_IRQHandler run inst s

/-- The state after a sequence of calls, `none` when one of them is undefined
or does not return. -/
def execCalls (run : Callbacks) : List Call → DrvState → Option DrvState
  | [], s => some s
  | c :: cs, s =>
    match step run c s with
    | none => none
    | some s1 => execCalls run cs s1

/-- The state a sequence of calls leaves, `d` when it is undefined. -/
def stateOr (o : Option DrvState) (d : DrvState) : DrvState :=
  match o with
  | some s => s
  | none => d

/-- The receive-ready interrupts that deliver the characters of the list,
one after the other. -/
def receiveAll (run : Callbacks) (inst : Nat) : List Nat → DrvState → Option DrvState
  | [], s => some s
  | v :: vs, s =>
    match rxReadyIrq run inst v s with
    | none => none
    | some s1 => receiveAll run inst vs s1

/-- The memory `mem` after the bytes of the list were stored from the address
`a` on. -/
def writeBuf (mem : Nat → Nat) (a : Nat) : List Nat → Nat → Nat
  | [] => mem
  | x :: xs => writeBuf (setAt mem a x) (a + 1) xs

/-- A configuration with the character width 9, even parity, two stop bits,
9600 baud, interrupt transfers, the 48 MHz clock. -/
def wideConfig : Drv_Uart_ConfigType :=
  { bitCountPerChar := DRV_UART_DATABITCOUNT_9
    parityMode := DRV_UART_PARITYMODEEVEN
    stopBit := DRV_UART_STOPBITCOUNTTWO
    baudRate := 9600
    transferType := DRV_UART_USINGINTERRUPTS
    clockSource := DRV_UART_FIRCCLKSOUCE }

/-- Start-up with the memory `abcMemory`, then: instance 0 configured with
`wideConfig`, instance 1 with width 10, a receive-complete callback `9`
registered, a completed `sendBlocking(0x100, 2)` on instance 0, and the
baud rate of instance 0 set again. -/
def wideCalls : List Call :=
  [Call.Init 0 (some wideConfig),
   Call.Init 1 (some (configOfWidth DRV_UART_DATABITCOUNT_10)),
   Call.InstallCallBack DRV_UART_CALLBACKRECEIVER (some 9),
   Call.SendDataPolling 0 (some 0x100) 2 2,
   Call.SetBaudRate 0 115200]

/-- The state `wideCalls` leaves. -/
def wideState : DrvState :=
  stateOr (execCalls (resendCallback 0 0x101 2) wideCalls (initialState abcMemory))
    (initialState abcMemory)

/-- Start-up with the memory `abcMemory`, then: instance 0 configured with
width 8, and a completed `receiveBlocking(0x200, 1)` with the character
`0x5A`.  No transmission was ever started. -/
def nullBufferCalls : List Call :=
  [Call.Init 0 (some (configOfWidth DRV_UART_DATABITCOUNT_8)),
   Call.ReceiveDataPolling 0 (some 0x200) 1 [0x5A]]

/-- After `nullBufferCalls`: the hardware shows the transmit data register
empty and no received character, and the interrupt of instance 0 is
requested. -/
def nullBufferIrq : List Call :=
  nullBufferCalls ++ [Call.hardware 0 LPUART_STAT_TDRE_MASK 0, Call.interrupt 0]

set_option maxRecDepth 100000

/-! ## Lemmas on the search -/

theorem specDivider_pos {clk baud i : Nat} (h : SearchDomain clk baud)
    (hi : i ≤ 32) (hi4 : 4 ≤ i) : 1 ≤ specDivider clk baud i := by
  obtain ⟨hb, hc, _, _⟩ := h
  unfold specDivider
  have h1 : baud * i ≤ baud * 32 := Nat.mul_le_mul_left baud hi
  have h2 : 0 < baud * i := Nat.mul_pos hb (by omega)
  exact Nat.div_pos (by omega) h2

theorem specDivider_lt {clk baud i : Nat} (h : SearchDomain clk baud)
    (hi4 : 4 ≤ i) : specDivider clk baud i < 2 ^ 16 := by
  obtain ⟨hb, _, _, h16⟩ := h
  unfold specDivider
  have h1 : 4 * baud ≤ baud * i := by
    rw [Nat.mul_comm 4 baud]; exact Nat.mul_le_mul_left baud hi4
  have h2 : clk / (baud * i) ≤ clk / (4 * baud) :=
    Nat.div_le_div_left h1 (by omega)
  omega

theorem udiv_of_pos {a b : Nat} (hb : 0 < b) : udiv a b = some (a / b) := by
  unfold udiv
  rw [if_neg (by omega)]

theorem candidate_eq {clk baud i : Nat} (h : SearchDomain clk baud)
    (hi4 : 4 ≤ i) (hi : i ≤ 32) :
    candidate clk baud i
      = some (specDivider clk baud i, candidateError clk baud i) := by
  have hpos := specDivider_pos h hi hi4
  have hlt := specDivider_lt h hi4
  obtain ⟨hb, hc, hclk, _⟩ := h
  have h1 : baud * i ≤ baud * 32 := Nat.mul_le_mul_left baud hi
  have h2 : 0 < baud * i := Nat.mul_pos hb (by omega)
  have h3 : u32 (baud * i) = baud * i := Nat.mod_eq_of_lt (by omega)
  have h5 : specDivider clk baud i * (baud * i) ≤ clk := Nat.div_mul_le_self clk (baud * i)
  have h6 : specDivider clk baud i * i ≤ specDivider clk baud i * (baud * i) :=
    Nat.mul_le_mul_left _ (Nat.le_mul_of_pos_left i hb)
  have h7 : 0 < specDivider clk baud i * i := Nat.mul_pos hpos (by omega)
  have h9 : clk / (specDivider clk baud i * i) ≤ clk := Nat.div_le_self _ _
  unfold candidateError baudError
  have hq : clk / (baud * i) = specDivider clk baud i := rfl
  generalize specDivider clk baud i = q at *
  have h4 : u16 q = q := Nat.mod_eq_of_lt hlt
  have h8 : u32 (q * i) = q * i := Nat.mod_eq_of_lt (by omega)
  unfold candidate
  rw [h3, udiv_of_pos h2, hq]
  simp only [h4, h8]
  rw [udiv_of_pos h7]
  generalize clk / (q * i) = bl at *
  have h10 : u32 (bl - baud) = bl - baud := Nat.mod_eq_of_lt (by omega)
  have h11 : u32 (baud - bl) = baud - bl := Nat.mod_eq_of_lt (by omega)
  simp only [h10, h11]

/-- The loop over the ratios `a, a+1, ..., a+n-1`: it ends, and either keeps
the incoming best candidate (no listed ratio is strictly better), or ends on
the first listed ratio of minimal error, which is strictly better than the
incoming candidate. -/
theorem searchLoop_range {clk baud : Nat} (h : SearchDomain clk baud) :
    ∀ (n a : Nat) (st : SearchVars), 4 ≤ a → a + n ≤ 33 →
      ∃ st1, searchLoop clk baud (List.range' a n) st = some st1 ∧
        ((st1 = st ∧ ∀ j, a ≤ j → j < a + n → st.baud_diff ≤ candidateError clk baud j) ∨
         (∃ i, a ≤ i ∧ i < a + n ∧
            st1 = ⟨i, specDivider clk baud i, candidateError clk baud i⟩ ∧
            candidateError clk baud i < st.baud_diff ∧
            (∀ j, a ≤ j → j < i → candidateError clk baud i < candidateError clk baud j) ∧
            (∀ j, i ≤ j → j < a + n →
              candidateError clk baud i ≤ candidateError clk baud j))) := by
  intro n
  induction n with
  | zero =>
    intro a st _ _
    exact ⟨st, rfl, Or.inl ⟨rfl, fun j h1 h2 => by omega⟩⟩
  | succ n ih =>
    intro a st ha hn
    have hc := candidate_eq h ha (by omega : a ≤ 32)
    have hu8 : u8 a = a := Nat.mod_eq_of_lt (by omega)
    show ∃ st1, searchLoop clk baud (a :: List.range' (a + 1) n) st = some st1 ∧ _
    by_cases hlt : candidateError clk baud a < st.baud_diff
    · have hs : searchStep clk baud st a
          = some ⟨a, specDivider clk baud a, candidateError clk baud a⟩ := by
        simp [searchStep, hc, hlt, hu8]
      obtain ⟨st1, h1, h2⟩ := ih (a + 1)
        ⟨a, specDivider clk baud a, candidateError clk baud a⟩ (by omega) (by omega)
      refine ⟨st1, by simp [searchLoop, hs, h1], Or.inr ?_⟩
      rcases h2 with ⟨he, hall⟩ | ⟨i, hi1, hi2, he, hlt2, hbefore, hafter⟩
      · refine ⟨a, le_refl a, by omega, he, hlt, fun j h1 h2 => by omega, ?_⟩
        intro j hj1 hj2
        rcases Nat.eq_or_lt_of_le hj1 with hj | hj
        · subst hj; exact le_refl _
        · exact hall j (by omega) (by omega)
      · refine ⟨i, by omega, by omega, he, lt_trans hlt2 hlt, ?_, ?_⟩
        · intro j hj1 hj2
          rcases Nat.eq_or_lt_of_le hj1 with hj | hj
          · subst hj; exact hlt2
          · exact hbefore j (by omega) hj2
        · intro j hj1 hj2
          exact hafter j hj1 (by omega)
    · have hs : searchStep clk baud st a = some st := by
        simp [searchStep, hc, hlt]
      obtain ⟨st1, h1, h2⟩ := ih (a + 1) st (by omega) (by omega)
      refine ⟨st1, by simp [searchLoop, hs, h1], ?_⟩
      rcases h2 with ⟨he, hall⟩ | ⟨i, hi1, hi2, he, hlt2, hbefore, hafter⟩
      · refine Or.inl ⟨he, ?_⟩
        intro j hj1 hj2
        rcases Nat.eq_or_lt_of_le hj1 with hj | hj
        · subst hj; omega
        · exact hall j (by omega) (by omega)
      · refine Or.inr ⟨i, by omega, by omega, he, hlt2, ?_, ?_⟩
        · intro j hj1 hj2
          rcases Nat.eq_or_lt_of_le hj1 with hj | hj
          · subst hj; omega
          · exact hbefore j (by omega) hj2
        · intro j hj1 hj2
          exact hafter j hj1 (by omega)

/-- On the search domain the search ends on the first ratio of `4..32` whose
candidate has the least error, together with that candidate's divider and
error. -/
theorem DivisorSearch_spec {clk baud : Nat} (h : SearchDomain clk baud) :
    ∃ R, 4 ≤ R ∧ R ≤ 32 ∧
      DivisorSearch clk baud
        = some ⟨R, specDivider clk baud R, candidateError clk baud R⟩ ∧
      (∀ j, 4 ≤ j → j < R → candidateError clk baud R < candidateError clk baud j) ∧
      (∀ j, 4 ≤ j → j ≤ 32 → candidateError clk baud R ≤ candidateError clk baud j) := by
  have hc := candidate_eq h (le_refl 4) (by omega : 4 ≤ 32)
  have hseed : searchSeed clk baud
      = some ⟨4, specDivider clk baud 4, candidateError clk baud 4⟩ := by
    simp [searchSeed, hc]
  obtain ⟨st1, h1, h2⟩ := searchLoop_range h 28 5
    ⟨4, specDivider clk baud 4, candidateError clk baud 4⟩ (by omega) (by omega)
  rcases h2 with ⟨he, hall⟩ | ⟨i, hi1, hi2, he, hlt2, hbefore, hafter⟩
  · refine ⟨4, le_refl 4, by omega, by simp [DivisorSearch, hseed, h1, he], ?_, ?_⟩
    · intro j h1 h2; omega
    · intro j hj1 hj2
      rcases Nat.eq_or_lt_of_le hj1 with hj | hj
      · subst hj; exact le_refl _
      · exact hall j (by omega) (by omega)
  · refine ⟨i, by omega, by omega, by simp [DivisorSearch, hseed, h1, he], ?_, ?_⟩
    · intro j hj1 hj2
      rcases Nat.eq_or_lt_of_le hj1 with hj | hj
      · subst hj; exact hlt2
      · exact hbefore j (by omega) hj2
    · intro j hj1 hj2
      by_cases hj : j < i
      · rcases Nat.eq_or_lt_of_le hj1 with hj4 | hj4
        · subst hj4; exact le_of_lt hlt2
        · exact le_of_lt (hbefore j (by omega) hj)
      · exact hafter j (by omega) (by omega)


/-! ## Lemmas on the programmed baud register -/

theorem candidate_sbr_lt {clk baud i d e : Nat} (h : candidate clk baud i = some (d, e)) :
    d < 2 ^ 16 := by
  unfold candidate at h
  split at h
  · exact Option.noConfusion h
  · split at h
    · exact Option.noConfusion h
    · injection h with h
      injection h with h1 _
      rw [← h1]
      exact Nat.mod_lt _ (by decide)

theorem searchStep_sbr_lt {clk baud i : Nat} {st st1 : SearchVars}
    (hst : st.sbr_compare < 2 ^ 16) (h : searchStep clk baud st i = some st1) :
    st1.sbr_compare < 2 ^ 16 := by
  unfold searchStep at h
  split at h
  · exact Option.noConfusion h
  · rename_i d e hc
    split at h
    · injection h with h
      rw [← h]
      exact candidate_sbr_lt hc
    · injection h with h
      rw [← h]
      exact hst

theorem searchLoop_sbr_lt {clk baud : Nat} :
    ∀ (l : List Nat) (st st1 : SearchVars), st.sbr_compare < 2 ^ 16 →
      searchLoop clk baud l st = some st1 → st1.sbr_compare < 2 ^ 16 := by
  intro l
  induction l with
  | nil =>
    intro st st1 hst h
    injection h with h
    rw [← h]
    exact hst
  | cons i l ih =>
    intro st st1 hst h
    unfold searchLoop at h
    split at h
    · exact Option.noConfusion h
    · rename_i st2 hs
      exact ih st2 st1 (searchStep_sbr_lt hst hs) h

/-- Whatever the search ends on, its divider is a 16-bit value. -/
theorem DivisorSearch_sbr_lt {clk baud : Nat} {st : SearchVars}
    (h : DivisorSearch clk baud = some st) : st.sbr_compare < 2 ^ 16 := by
  unfold DivisorSearch at h
  split at h
  · exact Option.noConfusion h
  · rename_i st0 hseed
    refine searchLoop_sbr_lt _ st0 st ?_ h
    unfold searchSeed at hseed
    split at hseed
    · exact Option.noConfusion hseed
    · rename_i d e hc
      injection hseed with hseed
      rw [← hseed]
      exact candidate_sbr_lt hc

theorem mask_osr_bit17 : (shl32 (not32 0x1F) 24).testBit 17 = false := by decide

theorem shl32_24_bit17 (x : Nat) : (shl32 x 24).testBit 17 = false := by
  unfold shl32 u32
  rw [Nat.testBit_mod_two_pow, Nat.testBit_shiftLeft]
  simp

theorem shl32_0_bit17 {x : Nat} (hx : x < 2 ^ 16) : (shl32 x 0).testBit 17 = false := by
  unfold shl32 u32
  rw [Nat.testBit_mod_two_pow, Nat.shiftLeft_zero,
    Nat.testBit_lt_two_pow (lt_trans hx (by decide))]
  simp

/-- The value written last to the baud register has bit 17 clear: line 298
keeps only bits 29..31 of the register. -/
theorem programBaud_bit17 {inst clk baudRate b0 b : Nat} {st : SearchVars}
    (hst : st.sbr_compare < 2 ^ 16)
    (h : programBaud inst clk baudRate st b0 = some b) : b.testBit 17 = false := by
  unfold programBaud at h
  simp only at h
  split at h
  · exact Option.noConfusion h
  · rename_i osr sbr hf
    have hsbr : sbr < 2 ^ 16 := by
      split at hf
      · split at hf
        · exact Option.noConfusion hf
        · injection hf with hf
          injection hf with _ h2
          rw [← h2]
          exact Nat.mod_lt _ (by decide)
      · injection hf with hf
        injection hf with _ h2
        rw [← h2]
        exact hst
    injection h with h
    rw [← h, Nat.testBit_lor, Nat.testBit_land, Nat.testBit_lor, Nat.testBit_land,
      mask_osr_bit17, shl32_24_bit17, shl32_0_bit17 hsbr]
    simp

/-! ## Lemmas on the transmit handler -/

theorem setAt_same {α : Type} (f : Nat → α) (i : Nat) (v : α) : setAt f i v i = v := by
  simp [setAt]

theorem byte_mask (x : Nat) : u32 (u8 x &&& 0xFF) = u8 x := by
  have h : u8 x &&& 0xFF = u8 x % 2 ^ 8 := Nat.and_pow_two_sub_one_eq_mod (u8 x) 8
  rw [h]
  unfold u32 u8
  omega

theorem readBuf_succ (s : DrvState) (a k : Nat) :
    readBuf s a (k + 1) = readBuf s a k ++ [u8 (s.mem (a + k))] := by
  simp [readBuf, List.range_succ]

/-- A transmit-ready interrupt that does not move the last byte. -/
theorem HanldeInterruptTx_step {s t : DrvState} {inst a n k : Nat}
    (hinst : inst < LPUART_INSTANCE_COUNT) (hk : k + 1 < n) (hn : n < 2 ^ 16)
    (h : TxInFlight s inst a n k t) :
    ∃ t1, Drv_Uart_HanldeInterruptTx inert inst t = some t1 ∧
      TxInFlight s inst a n (k + 1) t1 := by
  obtain ⟨htx, hw, hmem, htr, hwd, hfp⟩ := h
  have hcnt : u16 (k + 1) = k + 1 := Nat.mod_eq_of_lt (by omega)
  have hne : ¬ (k + 1 = n) := by omega
  refine ⟨updTx (writeDATA inst (u8 (t.mem (a + k)) &&& 0xFF) t) inst
    (fun x => { x with txCount := u16 (x.txCount + 1) }), ?_, ?_⟩
  · simp [Drv_Uart_HanldeInterruptTx, txLoad, hinst, htx, hwd, loadByte,
      DRV_UART_DATABITCOUNT_7, DRV_UART_DATABITCOUNT_8, updTx, writeDATA, updBase,
      setAt, hcnt, hne]
  · refine ⟨?_, ?_, ?_, ?_, ?_, ?_⟩
    · simp [updTx, writeDATA, updBase, setAt, htx, hcnt]
    · simp [updTx, writeDATA, updBase, setAt, hw, readBuf_succ, byte_mask, hmem]
    · simp [updTx, writeDATA, updBase, hmem]
    · simp [updTx, writeDATA, updBase, htr]
    · simpa [updTx, writeDATA, updBase] using hwd
    · simp [updTx, writeDATA, updBase, hfp]

/-- The transmit-ready interrupt that moves the last byte. -/
theorem HanldeInterruptTx_last {s t : DrvState} {inst a n k fn : Nat}
    (hinst : inst < LPUART_INSTANCE_COUNT) (hk : k + 1 = n) (hn : n < 2 ^ 16)
    (hcb : s.s_UARTfunctionPointer DRV_UART_CALLBACKTRANSMITTER = some fn)
    (h : TxInFlight s inst a n k t) :
    ∃ t1, Drv_Uart_HanldeInterruptTx inert inst t = some t1 ∧
      t1.s_UARTtxBufferstr inst = ⟨some a, n, n, DRV_UART_STATEREADY, false⟩ ∧
      (t1.base inst).written = (s.base inst).written ++ readBuf s a n ∧
      t1.trace = s.trace ++ [Event.slot DRV_UART_CALLBACKTRANSMITTER fn] := by
  obtain ⟨htx, hw, hmem, htr, hwd, hfp⟩ := h
  have hcnt : u16 (k + 1) = k + 1 := Nat.mod_eq_of_lt (by omega)
  rw [← hfp] at hcb
  subst hk
  simp [Drv_Uart_HanldeInterruptTx, txLoad, hinst, htx, hwd, loadByte,
    DRV_UART_DATABITCOUNT_7, DRV_UART_DATABITCOUNT_8, updTx, writeDATA, updBase,
    setAt, hcnt, hcb, invoke, inert, hw, readBuf_succ, byte_mask, hmem, htr]

/-- A transmit-ready interrupt on an idle transmit direction changes nothing. -/
theorem HanldeInterruptTx_idle {t : DrvState} {inst : Nat}
    (hinst : inst < LPUART_INSTANCE_COUNT)
    (h : (t.s_UARTtxBufferstr inst).isTxBusy = false) :
    Drv_Uart_HanldeInterruptTx inert inst t = some t := by
  simp [Drv_Uart_HanldeInterruptTx, hinst, h]

theorem repeatIrq_add (f : DrvState → Option DrvState) (j k : Nat) (t t1 : DrvState)
    (h : repeatIrq f j t = some t1) : repeatIrq f (j + k) t = repeatIrq f k t1 := by
  induction j generalizing t with
  | zero =>
    simp only [repeatIrq] at h
    injection h with h
    rw [Nat.zero_add, h]
  | succ j ih =>
    have e : j + 1 + k = (j + k) + 1 := by omega
    rw [e]
    cases hf : f t with
    | none => simp [repeatIrq, hf] at h
    | some t2 =>
      simp only [repeatIrq, hf] at h ⊢
      exact ih t2 h

/-- An accepted `Drv_Uart_SendDataInterrupt` starts the transmission. -/
theorem SendDataInterrupt_start {s : DrvState} {inst a n : Nat}
    (hinst : inst < LPUART_INSTANCE_COUNT)
    (hwidth : (s.s_UARTconfig inst).bitCountPerChar = DRV_UART_DATABITCOUNT_8)
    (hidle : (s.s_UARTtxBufferstr inst).isTxBusy = false) (hn : 0 < n) :
    ∃ s0, Drv_Uart_SendDataInterrupt inst (some a) n s = some (DRV_UART_TXBUSY, s0) ∧
      TxInFlight s inst a n 0 s0 := by
  refine ⟨updBase (updBase (updTx s inst fun t =>
      { t with ptxBuff := some a, txBuffSize := n, txCount := 0,
               txStatus := DRV_UART_TXBUSY, isTxBusy := true }) inst fun r =>
      { r with CTRL := (r.CTRL &&& not32 LPUART_CTRL_TE_MASK)
                         ||| shl32 1 LPUART_CTRL_TE_SHIFT }) inst fun r =>
      { r with CTRL := r.CTRL ||| LPUART_CTRL_TIE_MASK }, ?_, ?_⟩
  · simp [Drv_Uart_SendDataInterrupt, hinst, hidle, hn]
  · simp [TxInFlight, updTx, updBase, setAt, readBuf, hwidth]

/-! ## Lemmas on the dispatcher -/

theorem and_flag_ne_zero (x k : Nat) : (x &&& 2 ^ k ≠ 0) ↔ x.testBit k = true := by
  rw [Nat.and_two_pow]
  cases x.testBit k <;> simp

theorem transmitReady_flags (x : Nat) :
    ((x &&& not32 LPUART_STAT_RDRF_MASK) ||| LPUART_STAT_TDRE_MASK)
        &&& LPUART_STAT_RDRF_MASK = 0 ∧
    ((x &&& not32 LPUART_STAT_RDRF_MASK) ||| LPUART_STAT_TDRE_MASK)
        &&& LPUART_STAT_TDRE_MASK ≠ 0 := by
  have h1 : (not32 LPUART_STAT_RDRF_MASK).testBit 21 = false := by decide
  have h2 : LPUART_STAT_TDRE_MASK.testBit 21 = false := by decide
  have h3 : LPUART_STAT_TDRE_MASK.testBit 23 = true := by decide
  have e1 : LPUART_STAT_RDRF_MASK = 2 ^ 21 := by decide
  have e2 : (((x &&& not32 LPUART_STAT_RDRF_MASK) ||| LPUART_STAT_TDRE_MASK)
      &&& LPUART_STAT_TDRE_MASK ≠ 0) ↔ _ := and_flag_ne_zero _ 23
  constructor
  · rw [e1, Nat.and_two_pow, ← e1, Nat.testBit_lor, Nat.testBit_land, h1, h2]
    simp
  · rw [e2, Nat.testBit_lor, h3]
    simp

/-- A transmit-ready interrupt is served by the transmit handler. -/
theorem txReadyIrq_eq (run : Callbacks) {inst : Nat} (hinst : inst < LPUART_INSTANCE_COUNT)
    (t : DrvState) :
    txReadyIrq run inst t = Drv_Uart_HanldeInterruptTx run inst (hwTransmitReady inst t) := by
  have h := transmitReady_flags (t.base inst).STAT
  simp [txReadyIrq, Drv_Uart_HanldeInterrupt, hinst, Drv_Uart_CheckIFReceiver,
    Drv_Uart_CheckIFTransmitter, hwTransmitReady, updBase, setAt, h.1, h.2]

theorem hwTransmitReady_inFlight {s t : DrvState} {inst a n k : Nat}
    (h : TxInFlight s inst a n k t) : TxInFlight s inst a n k (hwTransmitReady inst t) := by
  obtain ⟨htx, hw, hmem, htr, hwd, hfp⟩ := h
  exact ⟨by simpa [hwTransmitReady, updBase] using htx,
    by simpa [hwTransmitReady, updBase, setAt] using hw,
    by simpa [hwTransmitReady, updBase] using hmem,
    by simpa [hwTransmitReady, updBase] using htr,
    by simpa [hwTransmitReady, updBase] using hwd,
    by simpa [hwTransmitReady, updBase] using hfp⟩

/-- A transmit-ready interrupt that does not move the last byte. -/
theorem txReadyIrq_step {s t : DrvState} {inst a n k : Nat}
    (hinst : inst < LPUART_INSTANCE_COUNT) (hk : k + 1 < n) (hn : n < 2 ^ 16)
    (h : TxInFlight s inst a n k t) :
    ∃ t1, txReadyIrq inert inst t = some t1 ∧ TxInFlight s inst a n (k + 1) t1 := by
  rw [txReadyIrq_eq inert hinst]
  exact HanldeInterruptTx_step hinst hk hn (hwTransmitReady_inFlight h)

/-- The transmit-ready interrupt that moves the last byte. -/
theorem txReadyIrq_last {s t : DrvState} {inst a n k fn : Nat}
    (hinst : inst < LPUART_INSTANCE_COUNT) (hk : k + 1 = n) (hn : n < 2 ^ 16)
    (hcb : s.s_UARTfunctionPointer DRV_UART_CALLBACKTRANSMITTER = some fn)
    (h : TxInFlight s inst a n k t) :
    ∃ t1, txReadyIrq inert inst t = some t1 ∧
      t1.s_UARTtxBufferstr inst = ⟨some a, n, n, DRV_UART_STATEREADY, false⟩ ∧
      (t1.base inst).written = (s.base inst).written ++ readBuf s a n ∧
      t1.trace = s.trace ++ [Event.slot DRV_UART_CALLBACKTRANSMITTER fn] := by
  rw [txReadyIrq_eq inert hinst]
  exact HanldeInterruptTx_last hinst hk hn hcb (hwTransmitReady_inFlight h)

/-- Transmit-ready interrupts on an idle transmit direction leave the
transmit descriptor, the data written and the calls made as they are. -/
theorem repeatIrq_txReady_idle {inst : Nat} (hinst : inst < LPUART_INSTANCE_COUNT) :
    ∀ (m : Nat) (t : DrvState), (t.s_UARTtxBufferstr inst).isTxBusy = false →
      ∃ t1, repeatIrq (txReadyIrq inert inst) m t = some t1 ∧
        t1.s_UARTtxBufferstr inst = t.s_UARTtxBufferstr inst ∧
        (t1.base inst).written = (t.base inst).written ∧ t1.trace = t.trace := by
  intro m
  induction m with
  | zero =>
    intro t _
    exact ⟨t, rfl, rfl, rfl, rfl⟩
  | succ m ih =>
    intro t ht
    have hidle : ((hwTransmitReady inst t).s_UARTtxBufferstr inst).isTxBusy = false := by
      simpa [hwTransmitReady, updBase] using ht
    have h1 : txReadyIrq inert inst t = some (hwTransmitReady inst t) := by
      rw [txReadyIrq_eq inert hinst]
      exact HanldeInterruptTx_idle hinst hidle
    obtain ⟨t1, hrun, htx, hw, htr⟩ := ih (hwTransmitReady inst t) hidle
    refine ⟨t1, by simp [repeatIrq, h1, hrun], ?_, ?_, ?_⟩
    · rw [htx]; simp [hwTransmitReady, updBase]
    · rw [hw]; simp [hwTransmitReady, updBase, setAt]
    · rw [htr]; simp [hwTransmitReady, updBase]

/-- The first `k` of the `n` transmit-ready interrupts, `k < n`. -/
theorem repeatIrq_tx {s : DrvState} {inst a n : Nat}
    (hinst : inst < LPUART_INSTANCE_COUNT) (hn : n < 2 ^ 16) :
    ∀ (k j : Nat) (t : DrvState), j + k < n → TxInFlight s inst a n j t →
      ∃ t1, repeatIrq (txReadyIrq inert inst) k t = some t1 ∧
        TxInFlight s inst a n (j + k) t1 := by
  intro k
  induction k with
  | zero =>
    intro j t _ h
    exact ⟨t, rfl, h⟩
  | succ k ih =>
    intro j t hjk h
    obtain ⟨t1, h1, hinv⟩ := txReadyIrq_step hinst (by omega : j + 1 < n) hn h
    obtain ⟨t2, h2, hinv2⟩ := ih (j + 1) t1 (by omega) hinv
    refine ⟨t2, ?_, ?_⟩
    · simp [repeatIrq, h1, h2]
    · have e : j + (k + 1) = j + 1 + k := by omega
      rw [e]
      exact hinv2


/-! ## The divisor search: range, optimality, tie-breaking -/

/-- For every 32-bit clock and positive baud rate with
`clock >= 32 * baud` whose divider at ratio 4 fits 16 bits, the search ends
with an oversampling ratio in `[4, 32]` and a divider of at least 1. -/
theorem DivisorSearch_range (clk baud : Nat) (hb : 0 < baud) (h32 : 32 * baud ≤ clk)
    (hclk : clk < 2 ^ 32) (h16 : clk / (4 * baud) < 2 ^ 16) :
    ∃ st, DivisorSearch clk baud = some st ∧
      4 ≤ st.osr_compare ∧ st.osr_compare ≤ 32 ∧ 1 ≤ st.sbr_compare := by
  have hd : SearchDomain clk baud := ⟨hb, h32, hclk, h16⟩
  obtain ⟨R, h4, hR, hs, _, _⟩ := DivisorSearch_spec hd
  exact ⟨_, hs, h4, hR, specDivider_pos hd hR h4⟩

/-- The loop ends undefined when a listed ratio has no candidate. -/
theorem searchLoop_none {clk baud i : Nat} (hc : candidate clk baud i = none) :
    ∀ (l : List Nat) (st : SearchVars), i ∈ l → searchLoop clk baud l st = none := by
  intro l
  induction l with
  | nil =>
    intro st hi
    cases hi
  | cons j js ih =>
    intro st hi
    rw [searchLoop]
    cases hstep : searchStep clk baud st j with
    | none => rfl
    | some st1 =>
      simp only
      rcases List.mem_cons.mp hi with h | h
      · subst h
        unfold searchStep at hstep
        rw [hc] at hstep
        cases hstep
      · exact ih st1 h

/-- The ratio 32 has no candidate when the clock is below `32 * baud`: the
divider is 0 and the achieved baud rate divides by `0 * 32`. -/
theorem candidate_32_none {clk baud : Nat} (hb : 0 < baud) (hclk : clk < 2 ^ 27)
    (h : clk < 32 * baud) (h4 : 4 * baud ≤ clk) : candidate clk baud 32 = none := by
  have h1 : u32 (baud * 32) = baud * 32 := Nat.mod_eq_of_lt (by omega)
  have h2 : clk / (baud * 32) = 0 := Nat.div_eq_of_lt (by omega)
  unfold candidate
  rw [h1, udiv_of_pos (by omega), h2]
  rfl

/-- The search on the bauds whose divider of the ratio 4 does not fit 16
bits, at the two clocks the driver selects between. -/
theorem DivisorSearch_truncating :
    (∀ b ∈ List.range' 1 183,
      (DivisorSearch 48000000 b).map
          (fun st => decide (4 ≤ st.osr_compare ∧ st.osr_compare ≤ 32 ∧ 1 ≤ st.sbr_compare))
        = some true) ∧
    (∀ b ∈ List.range' 1 30,
      (DivisorSearch 8000000 b).map
          (fun st => decide (4 ≤ st.osr_compare ∧ st.osr_compare ≤ 32 ∧ 1 ≤ st.sbr_compare))
        = some true) := by
  refine ⟨by decide, by decide⟩

/-- C1 (code deviates): at each of the two clocks `Drv_Uart_Init` selects
between and every positive baud rate with `clock >= 4 * baud`, the search
ends with a ratio in `[4, 32]` and a divider of at least 1 when
`clock >= 32 * baud`, the 16-bit truncation of the divider included; when
`clock < 32 * baud` the divider of the ratio 32 is 0, line 267 divides by
`0 * 32`, and the search does not end. -/
theorem DivisorSearch_range_real_clocks (clk baud : Nat) (hc : clk ∈ supportedClocks)
    (hb : 0 < baud) (h4 : 4 * baud ≤ clk) :
    (32 * baud ≤ clk →
      ∃ st, DivisorSearch clk baud = some st ∧
        4 ≤ st.osr_compare ∧ st.osr_compare ≤ 32 ∧ 1 ≤ st.sbr_compare) ∧
    (clk < 32 * baud →
      u16 (clk / u32 (baud * 32)) = 0 ∧ candidate clk baud 32 = none ∧
      DivisorSearch clk baud = none) := by
  have hclk : clk < 2 ^ 27 := by
    simp only [supportedClocks, List.mem_cons, List.mem_singleton, List.not_mem_nil,
      or_false] at hc
    rcases hc with h | h <;> subst h <;> decide
  refine ⟨?_, ?_⟩
  · intro h32
    by_cases h16 : clk / (4 * baud) < 2 ^ 16
    · exact DivisorSearch_range clk baud hb h32 (by omega) h16
    · have hle : 2 ^ 16 * (4 * baud) ≤ clk :=
        (Nat.le_div_iff_mul_le (by omega)).mp (Nat.le_of_not_lt h16)
      have key : (DivisorSearch clk baud).map
          (fun st => decide (4 ≤ st.osr_compare ∧ st.osr_compare ≤ 32 ∧ 1 ≤ st.sbr_compare))
          = some true := by
        simp only [supportedClocks, List.mem_cons, List.mem_singleton, List.not_mem_nil,
          or_false] at hc
        rcases hc with h | h
        · subst h
          exact DivisorSearch_truncating.2 baud (List.mem_range'_1.mpr ⟨by omega, by omega⟩)
        · subst h
          exact DivisorSearch_truncating.1 baud (List.mem_range'_1.mpr ⟨by omega, by omega⟩)
      cases hs : DivisorSearch clk baud with
      | none =>
        rw [hs] at key
        cases key
      | some st =>
        rw [hs] at key
        simp only [Option.map_some', Option.some.injEq, decide_eq_true_eq] at key
        exact ⟨st, rfl, key⟩
  · intro hlt
    have hcand := candidate_32_none hb hclk hlt h4
    have h1 : u32 (baud * 32) = baud * 32 := Nat.mod_eq_of_lt (by omega)
    have h2 : clk / (baud * 32) = 0 := Nat.div_eq_of_lt (by omega)
    refine ⟨by rw [h1, h2]; rfl, hcand, ?_⟩
    unfold DivisorSearch
    cases hseed : searchSeed clk baud with
    | none => rfl
    | some st =>
      simp only
      exact searchLoop_none hcand _ st (by decide)

/-- C1, at the 8 MHz clock and the enumerated baud rate 256000
(`clock >= 4 * baud`, `clock < 32 * baud`): the search does not end; at
48 MHz and 115200 baud it ends in range. -/
theorem DivisorSearch_range_real_clocks_witness :
    (8000000 ∈ supportedClocks ∧ 0 < 256000 ∧ 4 * 256000 ≤ 8000000) ∧
    ((32 * 256000 ≤ 8000000 →
      ∃ st, DivisorSearch 8000000 256000 = some st ∧
        4 ≤ st.osr_compare ∧ st.osr_compare ≤ 32 ∧ 1 ≤ st.sbr_compare) ∧
    (8000000 < 32 * 256000 →
      u16 (8000000 / u32 (256000 * 32)) = 0 ∧ candidate 8000000 256000 32 = none ∧
      DivisorSearch 8000000 256000 = none)) ∧
    8000000 < 32 * 256000 ∧ 256000 ∈ Drv_Uart_BaudrateValues ∧
    DivisorSearch 48000000 115200 = some ⟨4, 104, 184⟩ :=
  ⟨⟨by decide, by decide, by decide⟩,
    DivisorSearch_range_real_clocks 8000000 256000 (by decide) (by decide) (by decide),
    by decide, by decide, by decide⟩

/-- C2 (as stated, refuted): at clock 48 MHz and baud 10 (`clock >= 4 * baud`)
the search ends on ratio 25 with the truncated divider 60928 and an error of
21, while the candidate of the ratio 4, divider `round-down(clock / (baud * 4))`,
has error 0. -/
theorem DivisorSearch_least_error_fails :
    4 * 10 ≤ 48000000 ∧
    DivisorSearch 48000000 10 = some ⟨25, 60928, 21⟩ ∧
    baudError 48000000 10 25 60928 = 21 ∧
    baudError 48000000 10 4 (specDivider 48000000 10 4) = 0 ∧
    ¬ (baudError 48000000 10 25 60928
        ≤ baudError 48000000 10 4 (specDivider 48000000 10 4)) := by
  refine ⟨by decide, by decide, by decide, by decide, by decide⟩

/-- C2 (amended): for every 32-bit clock and positive baud rate with
`clock >= 32 * baud` whose divider at ratio 4 fits 16 bits, the absolute baud
error of the selected pair is at most the error of the candidate of every
ratio `R'` in `[4, 32]`, the candidate being the divider
`round-down(clock / (baud * R'))`. -/
theorem DivisorSearch_least_error (clk baud : Nat) (hb : 0 < baud)
    (h32 : 32 * baud ≤ clk) (hclk : clk < 2 ^ 32) (h16 : clk / (4 * baud) < 2 ^ 16) :
    ∃ st, DivisorSearch clk baud = some st ∧
      ∀ R', 4 ≤ R' → R' ≤ 32 →
        baudError clk baud st.osr_compare st.sbr_compare
          ≤ baudError clk baud R' (specDivider clk baud R') := by
  have hd : SearchDomain clk baud := ⟨hb, h32, hclk, h16⟩
  obtain ⟨R, _, _, hs, _, hmin⟩ := DivisorSearch_spec hd
  exact ⟨_, hs, fun R' h1 h2 => hmin R' h1 h2⟩

/-- C2 (amended), at the clock 8 MHz and the baud rate 115200, where the
selected pair is ratio 23 with divider 3 and its error, 742, is the least
error of the brute-force enumeration of the ratios 4..32. -/
theorem DivisorSearch_least_error_witness :
    (0 < 115200 ∧ 32 * 115200 ≤ 8000000 ∧ 8000000 < 2 ^ 32 ∧
      8000000 / (4 * 115200) < 2 ^ 16) ∧
    (∃ st, DivisorSearch 8000000 115200 = some st ∧
      ∀ R', 4 ≤ R' → R' ≤ 32 →
        baudError 8000000 115200 st.osr_compare st.sbr_compare
          ≤ baudError 8000000 115200 R' (specDivider 8000000 115200 R')) ∧
    DivisorSearch 8000000 115200 = some ⟨23, 3, 742⟩ ∧
    baudError 8000000 115200 23 3 = bruteForceError 8000000 115200 :=
  ⟨by decide, DivisorSearch_least_error 8000000 115200 (by decide) (by decide) (by decide)
    (by decide), by decide, by decide⟩

/-- C3 (as stated, refuted): at clock 8 MHz and baud 230400 the search ends on
ratio 17 with divider 2 (achieved 235294, error 4894), while ratio 5 with
divider 7 achieves 228571, error 1829; the same holds for the exact
quotients, compared after cross-multiplication. -/
theorem DivisorSearch_not_global_minimum :
    8000000 ∈ supportedClocks ∧ 230400 ∈ Drv_Uart_BaudrateValues ∧
    DivisorSearch 8000000 230400 = some ⟨17, 2, 4894⟩ ∧
    baudError 8000000 230400 17 2 = 4894 ∧
    (4 ≤ 5 ∧ 5 ≤ 32 ∧ 1 ≤ 7) ∧
    baudError 8000000 230400 5 7 = 1829 ∧
    (230400 * (7 * 5) - 8000000) * (2 * 17) < (8000000 - 230400 * (2 * 17)) * (7 * 5) := by
  refine ⟨by decide, by decide, by decide, by decide, by decide, by decide, by decide⟩

/-- C3 (amended): for each supported clock and each enumerated baud rate
other than 256000 at 8 MHz, the pair the search chooses is a ratio `R` in
`[4, 32]` with its round-down divider, and it minimises
`|targetBaud - clockHz / (D * R)|` over the round-down candidates of all
ratios in `[4, 32]`. -/
theorem DivisorSearch_supported (clk baud : Nat) (hc : clk ∈ supportedClocks)
    (hb : baud ∈ Drv_Uart_BaudrateValues) (hne : (clk, baud) ≠ (8000000, 256000)) :
    ∃ st, DivisorSearch clk baud = some st ∧
      4 ≤ st.osr_compare ∧ st.osr_compare ≤ 32 ∧
      st.sbr_compare = specDivider clk baud st.osr_compare ∧
      ∀ R', 4 ≤ R' → R' ≤ 32 →
        baudError clk baud st.osr_compare st.sbr_compare
          ≤ baudError clk baud R' (specDivider clk baud R') := by
  have hd : SearchDomain clk baud := by
    simp only [supportedClocks, Drv_Uart_BaudrateValues, List.mem_cons, List.mem_singleton,
      List.mem_nil_iff, or_false] at hc hb
    rcases hc with rfl | rfl <;>
      rcases hb with rfl | rfl | rfl | rfl | rfl | rfl | rfl | rfl <;>
      first
        | exact absurd rfl hne
        | decide
  obtain ⟨R, h4, hR, hs, _, hmin⟩ := DivisorSearch_spec hd
  exact ⟨_, hs, h4, hR, rfl, fun R' h1 h2 => hmin R' h1 h2⟩

/-- C3 (amended), at the clock 48 MHz and the baud rate 38400. -/
theorem DivisorSearch_supported_witness :
    (48000000 ∈ supportedClocks ∧ 38400 ∈ Drv_Uart_BaudrateValues ∧
      (48000000, 38400) ≠ (8000000, 256000)) ∧
    ∃ st, DivisorSearch 48000000 38400 = some st ∧
      4 ≤ st.osr_compare ∧ st.osr_compare ≤ 32 ∧
      st.sbr_compare = specDivider 48000000 38400 st.osr_compare ∧
      ∀ R', 4 ≤ R' → R' ≤ 32 →
        baudError 48000000 38400 st.osr_compare st.sbr_compare
          ≤ baudError 48000000 38400 R' (specDivider 48000000 38400 R') :=
  ⟨by decide, DivisorSearch_supported 48000000 38400 (by decide) (by decide) (by decide)⟩

/-- C4 (as stated, refuted): at clock 48 MHz and baud 150
(`clock >= 4 * baud`) the candidate of the ratio 4, divider 80000, has error 0,
the minimum; the 16-bit variable keeps 14464 of that divider, and the ratio
the search selects is 5. -/
theorem DivisorSearch_first_least_fails :
    4 * 150 ≤ 48000000 ∧
    specDivider 48000000 150 4 = 80000 ∧
    baudError 48000000 150 4 (specDivider 48000000 150 4) = 0 ∧
    DivisorSearch 48000000 150 = some ⟨5, 64000, 0⟩ ∧ 4 < 5 := by
  refine ⟨by decide, by decide, by decide, by decide, by decide⟩

/-- C4 (amended): for every 32-bit clock and positive baud rate with
`clock >= 32 * baud` whose divider at ratio 4 fits 16 bits, the selected ratio
is the smallest ratio of `[4, 32]` whose candidate attains the minimal absolute
error: no candidate has a smaller error, and every smaller ratio has a
strictly larger one. -/
theorem DivisorSearch_first_least (clk baud : Nat) (hb : 0 < baud)
    (h32 : 32 * baud ≤ clk) (hclk : clk < 2 ^ 32) (h16 : clk / (4 * baud) < 2 ^ 16) :
    ∃ st, DivisorSearch clk baud = some st ∧
      4 ≤ st.osr_compare ∧ st.osr_compare ≤ 32 ∧
      st.sbr_compare = specDivider clk baud st.osr_compare ∧
      (∀ R', 4 ≤ R' → R' ≤ 32 →
        candidateError clk baud st.osr_compare ≤ candidateError clk baud R') ∧
      (∀ R', 4 ≤ R' → R' < st.osr_compare →
        candidateError clk baud st.osr_compare < candidateError clk baud R') := by
  have hd : SearchDomain clk baud := ⟨hb, h32, hclk, h16⟩
  obtain ⟨R, h4, hR, hs, hfirst, hmin⟩ := DivisorSearch_spec hd
  exact ⟨_, hs, h4, hR, rfl, fun R' h1 h2 => hmin R' h1 h2,
    fun R' h1 h2 => hfirst R' h1 h2⟩

/-- C4 (amended), at the clock 48 MHz and the baud rate 9600, where the
candidates of the ratios 4 and 5 both have error 0 and the ratio 4 is kept. -/
theorem DivisorSearch_first_least_witness :
    (0 < 9600 ∧ 32 * 9600 ≤ 48000000 ∧ 48000000 < 2 ^ 32 ∧
      48000000 / (4 * 9600) < 2 ^ 16) ∧
    (∃ st, DivisorSearch 48000000 9600 = some st ∧
      4 ≤ st.osr_compare ∧ st.osr_compare ≤ 32 ∧
      st.sbr_compare = specDivider 48000000 9600 st.osr_compare ∧
      (∀ R', 4 ≤ R' → R' ≤ 32 →
        candidateError 48000000 9600 st.osr_compare ≤ candidateError 48000000 9600 R') ∧
      (∀ R', 4 ≤ R' → R' < st.osr_compare →
        candidateError 48000000 9600 st.osr_compare < candidateError 48000000 9600 R')) ∧
    candidateError 48000000 9600 4 = 0 ∧ candidateError 48000000 9600 5 = 0 ∧
    DivisorSearch 48000000 9600 = some ⟨4, 1250, 0⟩ :=
  ⟨by decide, DivisorSearch_first_least 48000000 9600 (by decide) (by decide) (by decide)
    (by decide), by decide, by decide, by decide⟩

/-! ## Programming the baud register -/

/-- C5 (refuted on the code): whenever `Drv_Uart_SetBaudRate` returns, bit 17
of the baud register, the both-edge-sample bit, is clear, also when the
winning ratio is below 8: line 298 masks the register with
`~(uint32_t)0x1F << 24`, which keeps bits 29..31 only. -/
theorem SetBaudRate_bothedge_clear (inst baudRate : Nat) (s s1 : DrvState)
    (r : Drv_Uart_StatusType)
    (h : Drv_Uart_SetBaudRate inst baudRate s = some (r, s1)) :
    (s1.base inst).BAUD.testBit 17 = false := by
  unfold Drv_Uart_SetBaudRate at h
  split at h
  · split at h
    · exact Option.noConfusion h
    · rename_i st hst
      split at h
      · exact Option.noConfusion h
      · rename_i b hb
        injection h with h
        injection h with _ h2
        rw [← h2]
        simp only [updBase, setAt_same]
        exact programBaud_bit17 (DivisorSearch_sbr_lt hst) hb
  · exact Option.noConfusion h

/-- C5, at instance 0, clock 48 MHz, baud 9600: the search ends on the
ratio 4, below 8, and the register written is `0x030004E2`, bit 17 clear. -/
theorem SetBaudRate_bothedge_clear_witness :
    DivisorSearch 48000000 9600 = some ⟨4, 1250, 0⟩ ∧ 4 < 8 ∧
    Drv_Uart_SetBaudRate 0 9600 (clockedState 0 48000000)
      = some (DRV_UART_OK,
          updBase (clockedState 0 48000000) 0 fun r => { r with BAUD := 0x030004E2 }) ∧
    ((updBase (clockedState 0 48000000) 0 fun r => { r with BAUD := 0x030004E2 }).base
      0).BAUD.testBit 17 = false :=
  ⟨by decide, by decide, rfl,
    SetBaudRate_bothedge_clear 0 9600 (clockedState 0 48000000) _ DRV_UART_OK rfl⟩

/-- C6 (refuted on the code): at instance 0, clock 48 MHz, baud 600 the
search selects ratio 4 with divider 20000; the oversampling field holds 3,
the divider field holds 3616, not 20000, and bit 14 of the register, outside
the field, is set. -/
theorem SetBaudRate_divider_exceeds_field :
    48000000 ∈ supportedClocks ∧ 600 ∈ Drv_Uart_BaudrateValues ∧
    0 ≠ DRV_UART_INSTANCE_1 ∧
    DivisorSearch 48000000 600 = some ⟨4, 20000, 0⟩ ∧
    ∃ s1, Drv_Uart_SetBaudRate 0 600 (clockedState 0 48000000) = some (DRV_UART_OK, s1) ∧
      (s1.base 0).BAUD = 0x03004E20 ∧
      fieldOSR (s1.base 0).BAUD = 4 - 1 ∧
      fieldSBR (s1.base 0).BAUD = 3616 ∧
      fieldSBR (s1.base 0).BAUD ≠ 20000 ∧
      (s1.base 0).BAUD.testBit 14 = true :=
  ⟨by decide, by decide, by decide, by decide, _, rfl, by decide, by decide, by decide,
    by decide, by decide⟩

/-! ## Transfers -/

/-- C7 (refuted on the code): `Drv_Uart_Init` with the width 9 returns ready
and selects 9-bit characters in the control register (bit 4); after
`receiveAsync(0x100, 4)` and two receive-ready interrupts delivering `0x1AB`
and `0x0CD`, the buffer holds `0xAB, 0xCD` followed by its two old bytes, the
progress is 2, the receive is still busy and no callback has fired: the
handler reads the width from `s_UARTconfig`, which `Drv_Uart_Init` never
writes, so it still holds the width 8. -/
theorem width9_receive_stores_single_bytes :
    (Drv_Uart_Init 0 (some (configOfWidth DRV_UART_DATABITCOUNT_9))
        (initialState staleMemory)).map (fun p => p.1) = some DRV_UART_STATEREADY ∧
    ((configured DRV_UART_DATABITCOUNT_9 staleMemory).base 0).CTRL.testBit
        LPUART_CTRL_M_SHIFT = true ∧
    (width9Receive staleMemory 0x100 7).map (observeRx 0x100 4)
      = some ([0xAB, 0xCD, 0xEE, 0xEE], 2, DRV_UART_RXBUSY, true, []) ∧
    (width9Receive staleMemory 0x100 7).map
        (fun s => (s.s_UARTconfig 0).bitCountPerChar)
      = some DRV_UART_DATABITCOUNT_8 := by
  refine ⟨by decide, by decide, by decide, by decide⟩

/-- C8: on an instance in range whose stored width is 8 and whose transmit
direction is idle, with a transmit-complete callback `fn` registered and
callbacks that do not re-enter the driver, `sendAsync` of the `n` bytes at `a`
(`0 < n`, a `uint16_t`) is accepted; after `k < n` transmit-ready interrupts
the progress is `k`, the status is busy and nothing was called; after the
`n`-th interrupt the progress is `n`, the status is ready, the data register
was written with the `n` bytes in order, and the callback was called exactly
once; further transmit-ready interrupts call nothing, write nothing and leave
the transmit descriptor as it is. -/
theorem sendAsync_completes_once (s : DrvState) (inst a n fn : Nat)
    (hinst : inst < LPUART_INSTANCE_COUNT)
    (hwidth : (s.s_UARTconfig inst).bitCountPerChar = DRV_UART_DATABITCOUNT_8)
    (hidle : (s.s_UARTtxBufferstr inst).isTxBusy = false)
    (hn : 0 < n) (hn16 : n < 2 ^ 16)
    (hcb : s.s_UARTfunctionPointer DRV_UART_CALLBACKTRANSMITTER = some fn) :
    ∃ s0, Drv_Uart_SendDataInterrupt inst (some a) n s = some (DRV_UART_TXBUSY, s0) ∧
      (∀ k, k < n →
        ∃ sk, repeatIrq (txReadyIrq inert inst) k s0 = some sk ∧
          (sk.s_UARTtxBufferstr inst).txCount = k ∧
          (sk.s_UARTtxBufferstr inst).txStatus = DRV_UART_TXBUSY ∧
          (sk.s_UARTtxBufferstr inst).isTxBusy = true ∧
          sk.trace = s.trace) ∧
      ∃ sn, repeatIrq (txReadyIrq inert inst) n s0 = some sn ∧
        (sn.s_UARTtxBufferstr inst).txCount = n ∧
        (sn.s_UARTtxBufferstr inst).txStatus = DRV_UART_STATEREADY ∧
        (sn.s_UARTtxBufferstr inst).isTxBusy = false ∧
        (sn.base inst).written = (s.base inst).written ++ readBuf s a n ∧
        sn.trace = s.trace ++ [Event.slot DRV_UART_CALLBACKTRANSMITTER fn] ∧
        ∀ m, ∃ sm, repeatIrq (txReadyIrq inert inst) m sn = some sm ∧
          sm.s_UARTtxBufferstr inst = sn.s_UARTtxBufferstr inst ∧
          (sm.base inst).written = (sn.base inst).written ∧ sm.trace = sn.trace := by
  obtain ⟨s0, hsend, hinv0⟩ := SendDataInterrupt_start (a := a) hinst hwidth hidle hn
  refine ⟨s0, hsend, ?_, ?_⟩
  · intro k hk
    obtain ⟨sk, hrun, hinv⟩ := repeatIrq_tx hinst hn16 k 0 s0 (by omega) hinv0
    rw [Nat.zero_add] at hinv
    obtain ⟨htx, _, _, htr, _, _⟩ := hinv
    exact ⟨sk, hrun, by rw [htx], by rw [htx], by rw [htx], htr⟩
  · obtain ⟨m, rfl⟩ : ∃ m, n = m + 1 := ⟨n - 1, by omega⟩
    obtain ⟨t, hrun, hinv⟩ := repeatIrq_tx hinst hn16 m 0 s0 (by omega) hinv0
    rw [Nat.zero_add] at hinv
    obtain ⟨sn, hlast, htx, hw, htr⟩ := txReadyIrq_last hinst rfl hn16 hcb hinv
    have hrun1 : repeatIrq (txReadyIrq inert inst) (m + 1) s0 = some sn := by
      rw [repeatIrq_add _ m 1 s0 t hrun]
      simp [repeatIrq, hlast]
    refine ⟨sn, hrun1, by rw [htx], by rw [htx], by rw [htx], hw, htr, ?_⟩
    intro j
    exact repeatIrq_txReady_idle hinst j sn (by rw [htx])

/-- C8, for the scenario of the specification: instance 0 configured with
width 8 at 48 MHz and 115200 baud, the transmit-complete callback `7`
registered, `sendAsync` of the bytes `0x41, 0x42, 0x43`. -/
theorem sendAsync_completes_once_witness :
    (Drv_Uart_Init 0 (some (configOfWidth DRV_UART_DATABITCOUNT_8))
        (initialState abcMemory)).isSome = true ∧
    readBuf sendReady 0x100 3 = [0x41, 0x42, 0x43] ∧
    (0 < LPUART_INSTANCE_COUNT ∧
      (sendReady.s_UARTconfig 0).bitCountPerChar = DRV_UART_DATABITCOUNT_8 ∧
      (sendReady.s_UARTtxBufferstr 0).isTxBusy = false ∧
      0 < 3 ∧ 3 < 2 ^ 16 ∧
      sendReady.s_UARTfunctionPointer DRV_UART_CALLBACKTRANSMITTER = some 7) ∧
    ∃ s0, Drv_Uart_SendDataInterrupt 0 (some 0x100) 3 sendReady
        = some (DRV_UART_TXBUSY, s0) ∧
      (∀ k, k < 3 →
        ∃ sk, repeatIrq (txReadyIrq inert 0) k s0 = some sk ∧
          (sk.s_UARTtxBufferstr 0).txCount = k ∧
          (sk.s_UARTtxBufferstr 0).txStatus = DRV_UART_TXBUSY ∧
          (sk.s_UARTtxBufferstr 0).isTxBusy = true ∧
          sk.trace = sendReady.trace) ∧
      ∃ sn, repeatIrq (txReadyIrq inert 0) 3 s0 = some sn ∧
        (sn.s_UARTtxBufferstr 0).txCount = 3 ∧
        (sn.s_UARTtxBufferstr 0).txStatus = DRV_UART_STATEREADY ∧
        (sn.s_UARTtxBufferstr 0).isTxBusy = false ∧
        (sn.base 0).written = (sendReady.base 0).written ++ readBuf sendReady 0x100 3 ∧
        sn.trace = sendReady.trace ++ [Event.slot DRV_UART_CALLBACKTRANSMITTER 7] ∧
        ∀ m, ∃ sm, repeatIrq (txReadyIrq inert 0) m sn = some sm ∧
          sm.s_UARTtxBufferstr 0 = sn.s_UARTtxBufferstr 0 ∧
          (sm.base 0).written = (sn.base 0).written ∧ sm.trace = sn.trace :=
  ⟨by decide, by decide, by decide,
    sendAsync_completes_once sendReady 0 0x100 3 7 (by decide) (by decide) (by decide)
      (by decide) (by decide) (by decide)⟩

/-- C9: on an instance in range whose transmit direction is busy,
`Drv_Uart_SendDataInterrupt` returns the busy status `DRV_UART_TXBUSY`
whatever the buffer and the length, and leaves the whole state unchanged, the
recorded buffer, length, progress, status and busy flag included. -/
theorem sendAsync_busy_rejected (s : DrvState) (inst : Nat) (data : Option Nat)
    (length : Nat) (hinst : inst < LPUART_INSTANCE_COUNT)
    (hbusy : (s.s_UARTtxBufferstr inst).isTxBusy = true) :
    Drv_Uart_SendDataInterrupt inst data length s = some (DRV_UART_TXBUSY, s) := by
  simp [Drv_Uart_SendDataInterrupt, hinst, hbusy]

/-- C9, for instance 0 busy with 3 bytes of which 1 was sent, and a second
`sendAsync` of 5 bytes at another address. -/
theorem sendAsync_busy_rejected_witness :
    (0 < LPUART_INSTANCE_COUNT ∧ (sendBusy.s_UARTtxBufferstr 0).isTxBusy = true) ∧
    sendBusy.s_UARTtxBufferstr 0 = ⟨some 0x100, 3, 1, DRV_UART_TXBUSY, true⟩ ∧
    Drv_Uart_SendDataInterrupt 0 (some 0x200) 5 sendBusy
      = some (DRV_UART_TXBUSY, sendBusy) :=
  ⟨by decide, by decide,
    sendAsync_busy_rejected sendBusy 0 (some 0x200) 5 (by decide) (by decide)⟩

/-! ## Error classification -/

/-- C10 (refuted on the code): when the error flags of the status register
are none of the four single flags (in particular when more than one is set),
the error handler leaves the receive status as it was and passes that stale
status to the error callback: the `switch` of line 917 matches single flags
only. -/
theorem HanldeInterruptError_unclassified (s : DrvState) (inst fn fnE : Nat)
    (hinst : inst < LPUART_INSTANCE_COUNT)
    (hcb : s.s_UARTfunctionPointer DRV_UART_CALLBACKERROR = some fn)
    (hcbE : s.s_UARTx_ErrorCallBack = some fnE)
    (hor : (s.base inst).STAT &&& DRV_UART_STAT_ERROR_REC_FLAG_MASK ≠ LPUART_STAT_OR_MASK)
    (hnf : (s.base inst).STAT &&& DRV_UART_STAT_ERROR_REC_FLAG_MASK ≠ LPUART_STAT_NF_MASK)
    (hfe : (s.base inst).STAT &&& DRV_UART_STAT_ERROR_REC_FLAG_MASK ≠ LPUART_STAT_FE_MASK)
    (hpf : (s.base inst).STAT &&& DRV_UART_STAT_ERROR_REC_FLAG_MASK ≠ LPUART_STAT_PF_MASK) :
    ∃ s1, Drv_Uart_HanldeInterruptError inert inst s = some s1 ∧
      (s1.s_UARTrxBufferstr inst).rxStatus = (s.s_UARTrxBufferstr inst).rxStatus ∧
      s1.trace = s.trace ++ [Event.error fnE (s.s_UARTrxBufferstr inst).rxStatus] := by
  have hc : classify ((s.base inst).STAT &&& DRV_UART_STAT_ERROR_REC_FLAG_MASK)
      (s.s_UARTrxBufferstr inst).rxStatus = (s.s_UARTrxBufferstr inst).rxStatus := by
    simp [classify, hor, hnf, hfe, hpf]
  unfold Drv_Uart_HanldeInterruptError
  simp only [hinst, if_true, updBase, updRx, hcb, hcbE]
  refine ⟨_, rfl, ?_, ?_⟩
  · simp [invoke, inert, setAt, hc]
  · simp [invoke, inert, setAt, hc]

/-- C10, with the overrun and the framing flag both set during a receive in
flight: the status stays `DRV_UART_RXBUSY`, and `DRV_UART_RXBUSY` is what
the error callback `6` receives. -/
theorem HanldeInterruptError_unclassified_witness :
    ((receiveWithFlags (LPUART_STAT_OR_MASK ||| LPUART_STAT_FE_MASK)).base 0).STAT
        &&& DRV_UART_STAT_ERROR_REC_FLAG_MASK = 0xA0000 ∧
    ((receiveWithFlags (LPUART_STAT_OR_MASK ||| LPUART_STAT_FE_MASK)).s_UARTrxBufferstr
        0).rxStatus = DRV_UART_RXBUSY ∧
    ∃ s1, Drv_Uart_HanldeInterruptError inert 0
          (receiveWithFlags (LPUART_STAT_OR_MASK ||| LPUART_STAT_FE_MASK)) = some s1 ∧
      (s1.s_UARTrxBufferstr 0).rxStatus
        = ((receiveWithFlags (LPUART_STAT_OR_MASK ||| LPUART_STAT_FE_MASK)).s_UARTrxBufferstr
            0).rxStatus ∧
      s1.trace = (receiveWithFlags (LPUART_STAT_OR_MASK ||| LPUART_STAT_FE_MASK)).trace ++
        [Event.error 6
          ((receiveWithFlags (LPUART_STAT_OR_MASK ||| LPUART_STAT_FE_MASK)).s_UARTrxBufferstr
            0).rxStatus] :=
  ⟨by decide, by decide,
    HanldeInterruptError_unclassified
      (receiveWithFlags (LPUART_STAT_OR_MASK ||| LPUART_STAT_FE_MASK)) 0 5 6
      (by decide) (by decide) (by decide) (by decide) (by decide) (by decide) (by decide)⟩

/-! ## Lemmas on register bits -/

theorem testBit_not32 (x i : Nat) :
    (not32 x).testBit i = (decide (i < 32) && !x.testBit i) := by
  unfold not32 u32
  have h : x % 2 ^ 32 < 2 ^ 32 := Nat.mod_lt _ (by decide)
  have e : 2 ^ 32 - 1 - x % 2 ^ 32 = 2 ^ 32 - (x % 2 ^ 32 + 1) := by omega
  rw [e, Nat.testBit_two_pow_sub_succ h, Nat.testBit_mod_two_pow]
  cases decide (i < 32) <;> simp

theorem testBit_lt_32 {k i : Nat} (hk : k < 2 ^ 32) (h : k.testBit i = true) : i < 32 := by
  by_contra hi
  have h1 : 2 ^ i ≤ k := Nat.testBit_implies_ge h
  have h2 : 2 ^ 32 ≤ 2 ^ i := Nat.pow_le_pow_right (by decide) (by omega)
  omega

theorem testBit_disjoint {m k : Nat} (hd : m &&& k = 0) (i : Nat) :
    (m.testBit i && k.testBit i) = false := by
  rw [← Nat.testBit_land, hd, Nat.zero_testBit]

/-- Clearing the bits of the mask `m` leaves none of them set. -/
theorem clear_land_self (x m : Nat) : x &&& not32 m &&& m = 0 := by
  apply Nat.eq_of_testBit_eq
  intro i
  simp only [Nat.testBit_land, testBit_not32, Nat.zero_testBit]
  cases x.testBit i <;> cases m.testBit i <;> simp

/-- Clearing the bits of the mask `m` keeps the bits of a 32-bit mask `k`
that shares no bit with `m`. -/
theorem clear_land_other (x : Nat) {m k : Nat} (hk : k < 2 ^ 32) (hd : m &&& k = 0) :
    x &&& not32 m &&& k = x &&& k := by
  apply Nat.eq_of_testBit_eq
  intro i
  have h1 := testBit_disjoint hd i
  simp only [Nat.testBit_land, testBit_not32]
  cases hki : k.testBit i
  · simp
  · have hi : i < 32 := testBit_lt_32 hk hki
    rw [hki] at h1
    cases hm : m.testBit i
    · simp [hi]
    · rw [hm] at h1; simp at h1

/-- Setting the bits of the mask `m` leaves all of them set. -/
theorem set_land_self (x m : Nat) : (x ||| m) &&& m = m := by
  apply Nat.eq_of_testBit_eq
  intro i
  simp only [Nat.testBit_land, Nat.testBit_lor]
  cases x.testBit i <;> cases m.testBit i <;> simp

/-- Setting the bits of the mask `m` keeps the bits of a mask `k` that shares
no bit with `m`. -/
theorem set_land_other (x : Nat) {m k : Nat} (hd : m &&& k = 0) :
    (x ||| m) &&& k = x &&& k := by
  apply Nat.eq_of_testBit_eq
  intro i
  have h1 := testBit_disjoint hd i
  simp only [Nat.testBit_land, Nat.testBit_lor]
  cases hm : m.testBit i
  · simp
  · rw [hm] at h1
    simp at h1
    simp [h1]

/-! ## Lemmas on the framing codec -/

theorem land_mask_eq_mod (x k : Nat) : x &&& (2 ^ k - 1) = x % 2 ^ k :=
  Nat.and_pow_two_sub_one_eq_mod x k

theorem pack_bytes {lo : Nat} (hlo : lo < 256) (hi : Nat) :
    (hi <<< 8) ||| lo = 256 * hi + lo := by
  rw [Nat.shiftLeft_eq, Nat.mul_comm]
  exact (Nat.mul_add_lt_is_or (i := 8) hlo hi).symm

/-- What `txLoad` appends to the values written to the data register is the
`txChar` of the one or two bytes at the progress offset. -/
theorem txLoad_written {s : DrvState} {inst a : Nat} {w : Nat}
    (hp : (s.s_UARTtxBufferstr inst).ptxBuff = some a)
    (hw : (s.s_UARTconfig inst).bitCountPerChar = w)
    (hmem : w = DRV_UART_DATABITCOUNT_7 ∨ w = DRV_UART_DATABITCOUNT_8 ∨
      w = DRV_UART_DATABITCOUNT_9 ∨ w = DRV_UART_DATABITCOUNT_10) :
    ∃ s1, txLoad inst s = some s1 ∧
      (s1.base inst).written = (s.base inst).written ++
        [u32 (txChar w (u8 (s.mem (a + (s.s_UARTtxBufferstr inst).txCount)))
          (u8 (s.mem (a + ((s.s_UARTtxBufferstr inst).txCount + 1)))))] := by
  rcases hmem with h | h | h | h <;> subst h <;>
    simp [txLoad, hp, hw, loadByte, txChar, DRV_UART_DATABITCOUNT_7, DRV_UART_DATABITCOUNT_8,
      DRV_UART_DATABITCOUNT_9, DRV_UART_DATABITCOUNT_10, updTx, writeDATA, updBase, setAt]

/-- The bytes `rxStore` leaves in the buffer from the progress offset on are
the `rxBytes` of the character. -/
theorem rxStore_bytes {s : DrvState} {inst b data : Nat} {w : Nat}
    (hp : (s.s_UARTrxBufferstr inst).prxBuff = some b)
    (hw : (s.s_UARTconfig inst).bitCountPerChar = w) :
    ∃ s1, rxStore inst data s = some s1 ∧
      readBuf s1 (b + (s.s_UARTrxBufferstr inst).rxCount) (rxBytes w data).length
        = rxBytes w data := by
  by_cases h7 : w = DRV_UART_DATABITCOUNT_7
  · subst h7
    simp [rxStore, hp, hw, storeByte, rxBytes, readBuf, DRV_UART_DATABITCOUNT_7, updRx, setAt,
      List.range_succ, u8]
  by_cases h8 : w = DRV_UART_DATABITCOUNT_8
  · subst h8
    simp [rxStore, hp, hw, storeByte, rxBytes, readBuf, DRV_UART_DATABITCOUNT_7,
      DRV_UART_DATABITCOUNT_8, updRx, setAt, List.range_succ, u8]
  by_cases h9 : w = DRV_UART_DATABITCOUNT_9
  · subst h9
    simp [rxStore, hp, hw, storeByte, rxBytes, readBuf, DRV_UART_DATABITCOUNT_7,
      DRV_UART_DATABITCOUNT_8, DRV_UART_DATABITCOUNT_9, updRx, setAt, List.range_succ, u8,
      Nat.add_assoc]
  by_cases h10 : w = DRV_UART_DATABITCOUNT_10
  · subst h10
    simp [rxStore, hp, hw, storeByte, rxBytes, readBuf, DRV_UART_DATABITCOUNT_7,
      DRV_UART_DATABITCOUNT_8, DRV_UART_DATABITCOUNT_9, DRV_UART_DATABITCOUNT_10, updRx,
      setAt, List.range_succ, u8, Nat.add_assoc]
  · simp [rxStore, hw, rxBytes, h7, h8, h9, h10, readBuf]

/-! ## The framing codec -/

/-- C17: for every byte `lo` and every `hi`, the value the transmit handler writes
to the data register, read back by the receive handler (`uint16_t` read of
the 32-bit register), decodes to `lo` at width 8, to `lo & 0x7F` at width 7,
to `(lo, hi & 0x01)` at width 9 and to `(lo, hi & 0x03)` at width 10; the
decoded high byte is below 2, respectively below 4. -/
theorem codec_round_trip (lo hi : Nat) (hlo : lo < 256) :
    rxBytes DRV_UART_DATABITCOUNT_8 (u16 (u32 (txChar DRV_UART_DATABITCOUNT_8 lo hi)))
      = [lo] ∧
    rxBytes DRV_UART_DATABITCOUNT_7 (u16 (u32 (txChar DRV_UART_DATABITCOUNT_7 lo hi)))
      = [lo &&& 0x7F] ∧
    rxBytes DRV_UART_DATABITCOUNT_9 (u16 (u32 (txChar DRV_UART_DATABITCOUNT_9 lo hi)))
      = [lo, hi &&& 0x01] ∧
    rxBytes DRV_UART_DATABITCOUNT_10 (u16 (u32 (txChar DRV_UART_DATABITCOUNT_10 lo hi)))
      = [lo, hi &&& 0x03] ∧
    hi &&& 0x01 < 2 ∧ hi &&& 0x03 < 4 := by
  have e7 : ∀ x : Nat, x &&& 0x7F = x % 2 ^ 7 := fun x => land_mask_eq_mod x 7
  have e8 : ∀ x : Nat, x &&& 0xFF = x % 2 ^ 8 := fun x => land_mask_eq_mod x 8
  have e9 : ∀ x : Nat, x &&& 0x01FF = x % 2 ^ 9 := fun x => land_mask_eq_mod x 9
  have e10 : ∀ x : Nat, x &&& 0x03FF = x % 2 ^ 10 := fun x => land_mask_eq_mod x 10
  have e1 : ∀ x : Nat, x &&& 0x01 = x % 2 ^ 1 := fun x => land_mask_eq_mod x 1
  have e2 : ∀ x : Nat, x &&& 0x03 = x % 2 ^ 2 := fun x => land_mask_eq_mod x 2
  have hp := pack_bytes hlo hi
  simp only [rxBytes, txChar, DRV_UART_DATABITCOUNT_7, DRV_UART_DATABITCOUNT_8,
    DRV_UART_DATABITCOUNT_9, DRV_UART_DATABITCOUNT_10, u8, u16, u32, hp, e7, e8, e9, e10, e1,
    e2, Nat.shiftRight_eq_div_pow]
  norm_num
  refine ⟨by omega, by omega, ⟨by omega, by omega⟩, ⟨by omega, by omega⟩, by omega, by omega⟩

/-- C17, for the bytes `0xAB` and `0xFF`. -/
theorem codec_round_trip_witness :
    0xAB < 256 ∧
    rxBytes DRV_UART_DATABITCOUNT_8 (u16 (u32 (txChar DRV_UART_DATABITCOUNT_8 0xAB 0xFF)))
      = [0xAB] ∧
    rxBytes DRV_UART_DATABITCOUNT_7 (u16 (u32 (txChar DRV_UART_DATABITCOUNT_7 0xAB 0xFF)))
      = [0xAB &&& 0x7F] ∧
    rxBytes DRV_UART_DATABITCOUNT_9 (u16 (u32 (txChar DRV_UART_DATABITCOUNT_9 0xAB 0xFF)))
      = [0xAB, 0xFF &&& 0x01] ∧
    rxBytes DRV_UART_DATABITCOUNT_10 (u16 (u32 (txChar DRV_UART_DATABITCOUNT_10 0xAB 0xFF)))
      = [0xAB, 0xFF &&& 0x03] ∧
    0xFF &&& 0x01 < 2 ∧ 0xFF &&& 0x03 < 4 :=
  ⟨by decide, codec_round_trip 0xAB 0xFF (by decide)⟩

/-! ## Abort and arming -/

/-- C18: on an instance in range whose receive direction is ready with the
busy flag false, `Drv_Uart_AbortReceiving` returns ready, leaves the receive
status and the busy flag as they were (ready, false), calls nothing, and
leaves the transmit descriptors, the transmitter-enable and
transmit-interrupt-enable bits and the data written as they were. -/
theorem abortReceive_idle (s : DrvState) (inst : Nat)
    (hinst : inst < LPUART_INSTANCE_COUNT)
    (hready : (s.s_UARTrxBufferstr inst).rxStatus = DRV_UART_STATEREADY)
    (hidle : (s.s_UARTrxBufferstr inst).isRxBusy = false) :
    ∃ s1, Drv_Uart_AbortReceiving inst s = some (DRV_UART_STATEREADY, s1) ∧
      (s1.s_UARTrxBufferstr inst).rxStatus = (s.s_UARTrxBufferstr inst).rxStatus ∧
      (s1.s_UARTrxBufferstr inst).rxStatus = DRV_UART_STATEREADY ∧
      (s1.s_UARTrxBufferstr inst).isRxBusy = (s.s_UARTrxBufferstr inst).isRxBusy ∧
      (s1.s_UARTrxBufferstr inst).isRxBusy = false ∧
      s1.trace = s.trace ∧
      s1.s_UARTtxBufferstr = s.s_UARTtxBufferstr ∧
      (s1.base inst).CTRL &&& LPUART_CTRL_TE_MASK
        = (s.base inst).CTRL &&& LPUART_CTRL_TE_MASK ∧
      (s1.base inst).CTRL &&& LPUART_CTRL_TIE_MASK
        = (s.base inst).CTRL &&& LPUART_CTRL_TIE_MASK ∧
      (s1.base inst).written = (s.base inst).written ∧
      s1.mem = s.mem := by
  unfold Drv_Uart_AbortReceiving
  simp only [hinst, if_true]
  refine ⟨_, rfl, ?_, ?_, ?_, ?_, rfl, rfl, ?_, ?_, ?_, rfl⟩
  · simp [updBase, updRx, setAt, hready]
  · simp [updBase, updRx, setAt]
  · simp [updBase, updRx, setAt, hidle]
  · simp [updBase, updRx, setAt]
  · simp only [updBase, updRx, setAt_same]
    rw [clear_land_other _ (by decide) (by decide), clear_land_other _ (by decide) (by decide)]
  · simp only [updBase, updRx, setAt_same]
    rw [clear_land_other _ (by decide) (by decide), clear_land_other _ (by decide) (by decide)]
  · simp [updBase, updRx, setAt]

/-- C18, for instance 0 configured with a transmission of 3 bytes in flight
and the receive direction idle. -/
theorem abortReceive_idle_witness :
    (0 < LPUART_INSTANCE_COUNT ∧
      (sendBusy.s_UARTrxBufferstr 0).rxStatus = DRV_UART_STATEREADY ∧
      (sendBusy.s_UARTrxBufferstr 0).isRxBusy = false) ∧
    ∃ s1, Drv_Uart_AbortReceiving 0 sendBusy = some (DRV_UART_STATEREADY, s1) ∧
      (s1.s_UARTrxBufferstr 0).rxStatus = (sendBusy.s_UARTrxBufferstr 0).rxStatus ∧
      (s1.s_UARTrxBufferstr 0).rxStatus = DRV_UART_STATEREADY ∧
      (s1.s_UARTrxBufferstr 0).isRxBusy = (sendBusy.s_UARTrxBufferstr 0).isRxBusy ∧
      (s1.s_UARTrxBufferstr 0).isRxBusy = false ∧
      s1.trace = sendBusy.trace ∧
      s1.s_UARTtxBufferstr = sendBusy.s_UARTtxBufferstr ∧
      (s1.base 0).CTRL &&& LPUART_CTRL_TE_MASK
        = (sendBusy.base 0).CTRL &&& LPUART_CTRL_TE_MASK ∧
      (s1.base 0).CTRL &&& LPUART_CTRL_TIE_MASK
        = (sendBusy.base 0).CTRL &&& LPUART_CTRL_TIE_MASK ∧
      (s1.base 0).written = (sendBusy.base 0).written ∧
      s1.mem = sendBusy.mem :=
  ⟨by decide, abortReceive_idle sendBusy 0 (by decide) (by decide) (by decide)⟩

/-- C19: on an instance in range, from every state, `Drv_Uart_AbortTransmitting`
returns ready and leaves the transmit descriptor with a null buffer, length
0, progress 0, status ready and the busy flag false, the
transmit-interrupt-enable and transmitter-enable bits clear, and the
receive descriptors as they were; `Drv_Uart_AbortReceiving` does the same
for the receive direction, leaving the transmit descriptors as they were. -/
theorem abort_unconditional (s : DrvState) (inst : Nat)
    (hinst : inst < LPUART_INSTANCE_COUNT) :
    (∃ s1, Drv_Uart_AbortTransmitting inst s = some (DRV_UART_STATEREADY, s1) ∧
      s1.s_UARTtxBufferstr inst = ⟨none, 0, 0, DRV_UART_STATEREADY, false⟩ ∧
      (s1.base inst).CTRL &&& LPUART_CTRL_TIE_MASK = 0 ∧
      (s1.base inst).CTRL &&& LPUART_CTRL_TE_MASK = 0 ∧
      s1.s_UARTrxBufferstr = s.s_UARTrxBufferstr) ∧
    (∃ s1, Drv_Uart_AbortReceiving inst s = some (DRV_UART_STATEREADY, s1) ∧
      s1.s_UARTrxBufferstr inst = ⟨none, 0, 0, DRV_UART_STATEREADY, false⟩ ∧
      (s1.base inst).CTRL &&& LPUART_CTRL_RIE_MASK = 0 ∧
      (s1.base inst).CTRL &&& LPUART_CTRL_RE_MASK = 0 ∧
      s1.s_UARTtxBufferstr = s.s_UARTtxBufferstr) := by
  constructor
  · unfold Drv_Uart_AbortTransmitting
    simp only [hinst, if_true]
    refine ⟨_, rfl, ?_, ?_, ?_, rfl⟩
    · simp [updBase, updTx, setAt]
    · simp only [updBase, updTx, setAt_same]
      rw [clear_land_other _ (by decide) (by decide), clear_land_self]
    · simp only [updBase, updTx, setAt_same]
      rw [clear_land_self]
  · unfold Drv_Uart_AbortReceiving
    simp only [hinst, if_true]
    refine ⟨_, rfl, ?_, ?_, ?_, rfl⟩
    · simp [updBase, updRx, setAt]
    · simp only [updBase, updRx, setAt_same]
      rw [clear_land_other _ (by decide) (by decide), clear_land_self]
    · simp only [updBase, updRx, setAt_same]
      rw [clear_land_self]

/-- C19, for instance 0 with a transmission and a reception both in flight. -/
theorem abort_unconditional_witness :
    0 < LPUART_INSTANCE_COUNT ∧
    bothInFlight.s_UARTtxBufferstr 0 = ⟨some 0x100, 3, 0, DRV_UART_TXBUSY, true⟩ ∧
    bothInFlight.s_UARTrxBufferstr 0 = ⟨some 0x200, 4, 0, DRV_UART_RXBUSY, true⟩ ∧
    (∃ s1, Drv_Uart_AbortTransmitting 0 bothInFlight = some (DRV_UART_STATEREADY, s1) ∧
      s1.s_UARTtxBufferstr 0 = ⟨none, 0, 0, DRV_UART_STATEREADY, false⟩ ∧
      (s1.base 0).CTRL &&& LPUART_CTRL_TIE_MASK = 0 ∧
      (s1.base 0).CTRL &&& LPUART_CTRL_TE_MASK = 0 ∧
      s1.s_UARTrxBufferstr = bothInFlight.s_UARTrxBufferstr) ∧
    (∃ s1, Drv_Uart_AbortReceiving 0 bothInFlight = some (DRV_UART_STATEREADY, s1) ∧
      s1.s_UARTrxBufferstr 0 = ⟨none, 0, 0, DRV_UART_STATEREADY, false⟩ ∧
      (s1.base 0).CTRL &&& LPUART_CTRL_RIE_MASK = 0 ∧
      (s1.base 0).CTRL &&& LPUART_CTRL_RE_MASK = 0 ∧
      s1.s_UARTtxBufferstr = bothInFlight.s_UARTtxBufferstr) :=
  ⟨by decide, by decide, by decide, abort_unconditional bothInFlight 0 (by decide)⟩

/-- C20: on an instance in range whose transmit direction is not busy,
`Drv_Uart_SendDataInterrupt` with a non-null buffer `a` and a length `n > 0`
returns the busy status `DRV_UART_TXBUSY`, records the buffer and the length
with progress 0, the busy flag and the status `DRV_UART_TXBUSY`, sets the
transmitter-enable and the transmit-interrupt-enable bit, and leaves the
receive descriptors and the receiver-enable and receive-interrupt-enable bits
as they were. -/
theorem sendAsync_arms (s : DrvState) (inst a n : Nat)
    (hinst : inst < LPUART_INSTANCE_COUNT)
    (hidle : (s.s_UARTtxBufferstr inst).isTxBusy = false) (hn : 0 < n) :
    ∃ s1, Drv_Uart_SendDataInterrupt inst (some a) n s = some (DRV_UART_TXBUSY, s1) ∧
      s1.s_UARTtxBufferstr inst = ⟨some a, n, 0, DRV_UART_TXBUSY, true⟩ ∧
      (s1.base inst).CTRL &&& LPUART_CTRL_TE_MASK = LPUART_CTRL_TE_MASK ∧
      (s1.base inst).CTRL &&& LPUART_CTRL_TIE_MASK = LPUART_CTRL_TIE_MASK ∧
      s1.s_UARTrxBufferstr = s.s_UARTrxBufferstr ∧
      (s1.base inst).CTRL &&& LPUART_CTRL_RE_MASK
        = (s.base inst).CTRL &&& LPUART_CTRL_RE_MASK ∧
      (s1.base inst).CTRL &&& LPUART_CTRL_RIE_MASK
        = (s.base inst).CTRL &&& LPUART_CTRL_RIE_MASK := by
  have hte : shl32 1 LPUART_CTRL_TE_SHIFT = LPUART_CTRL_TE_MASK := by decide
  unfold Drv_Uart_SendDataInterrupt
  simp only [hinst, hidle, hn, if_true, Option.isSome_some, gt_iff_lt, and_self,
    Bool.false_eq_true, not_false_eq_true]
  refine ⟨_, rfl, ?_, ?_, ?_, rfl, ?_, ?_⟩
  · simp [updBase, updTx, setAt]
  · simp only [updBase, updTx, setAt_same, hte]
    rw [set_land_other _ (by decide), set_land_self]
  · simp only [updBase, updTx, setAt_same, hte]
    rw [set_land_self]
  · simp only [updBase, updTx, setAt_same, hte]
    rw [set_land_other _ (by decide), set_land_other _ (by decide),
      clear_land_other _ (by decide) (by decide)]
  · simp only [updBase, updTx, setAt_same, hte]
    rw [set_land_other _ (by decide), set_land_other _ (by decide),
      clear_land_other _ (by decide) (by decide)]

/-- C20, for instance 0 configured with width 8 and `sendAsync` of the 3
bytes at `0x100`. -/
theorem sendAsync_arms_witness :
    (0 < LPUART_INSTANCE_COUNT ∧ (sendReady.s_UARTtxBufferstr 0).isTxBusy = false ∧
      0 < 3) ∧
    ∃ s1, Drv_Uart_SendDataInterrupt 0 (some 0x100) 3 sendReady
        = some (DRV_UART_TXBUSY, s1) ∧
      s1.s_UARTtxBufferstr 0 = ⟨some 0x100, 3, 0, DRV_UART_TXBUSY, true⟩ ∧
      (s1.base 0).CTRL &&& LPUART_CTRL_TE_MASK = LPUART_CTRL_TE_MASK ∧
      (s1.base 0).CTRL &&& LPUART_CTRL_TIE_MASK = LPUART_CTRL_TIE_MASK ∧
      s1.s_UARTrxBufferstr = sendReady.s_UARTrxBufferstr ∧
      (s1.base 0).CTRL &&& LPUART_CTRL_RE_MASK
        = (sendReady.base 0).CTRL &&& LPUART_CTRL_RE_MASK ∧
      (s1.base 0).CTRL &&& LPUART_CTRL_RIE_MASK
        = (sendReady.base 0).CTRL &&& LPUART_CTRL_RIE_MASK :=
  ⟨by decide, sendAsync_arms sendReady 0 0x100 3 (by decide) (by decide) (by decide)⟩

/-! ## Lemmas on the error handler -/

/-- Writing the error flags back to the status register clears all four. -/
theorem writeSTAT_clears_errors (r : LPUART_Type) :
    (writeSTAT r (r.STAT ||| DRV_UART_STAT_ERROR_REC_FLAG_MASK)).STAT
      &&& DRV_UART_STAT_ERROR_REC_FLAG_MASK = 0 := by
  have d1 : (0x01E00000 : Nat) &&& DRV_UART_STAT_ERROR_REC_FLAG_MASK = 0 := by decide
  have d2 : (0x3E000000 : Nat) &&& DRV_UART_STAT_ERROR_REC_FLAG_MASK = 0 := by decide
  apply Nat.eq_of_testBit_eq
  intro i
  have h1 := testBit_disjoint d1 i
  have h2 := testBit_disjoint d2 i
  simp only [writeSTAT, Nat.testBit_land, Nat.testBit_lor, testBit_not32, u32,
    Nat.testBit_mod_two_pow, Nat.zero_testBit]
  cases hE : DRV_UART_STAT_ERROR_REC_FLAG_MASK.testBit i
  · simp
  · rw [hE] at h1 h2
    simp only [Bool.and_true] at h1 h2
    simp [h1, h2]

theorem classify_single {flag : Nat} {kind : Drv_Uart_StatusType}
    (h : (flag, kind) ∈ singleErrorFlags) (old : Drv_Uart_StatusType) :
    classify flag old = kind ∧ flag ≠ 0 := by
  simp only [singleErrorFlags, List.mem_cons, List.mem_singleton, List.mem_nil_iff, or_false,
    Prod.mk.injEq] at h
  rcases h with ⟨rfl, rfl⟩ | ⟨rfl, rfl⟩ | ⟨rfl, rfl⟩ | ⟨rfl, rfl⟩ <;>
    simp [classify, LPUART_STAT_OR_MASK, LPUART_STAT_NF_MASK, LPUART_STAT_FE_MASK,
      LPUART_STAT_PF_MASK]

/-! ## Error interrupts -/

/-- C11: on an instance in range with a receive in flight, error callbacks
registered by kind and with the error registration, callbacks that do not
re-enter the driver, and a status register in which the data-ready and the
transmit-empty flag are clear and exactly one error flag is set, one
dispatcher invocation calls the error callback exactly once, with the kind of
that flag (overrun, noise, framing, parity); afterwards the four error flags
and the four error-interrupt enables are clear, and the buffer reference, the
buffer length, the progress count, the busy flag and the memory are as
before. -/
theorem error_does_not_abort (s : DrvState) (inst fn fnE flag : Nat)
    (kind : Drv_Uart_StatusType)
    (hinst : inst < LPUART_INSTANCE_COUNT)
    (hfk : (flag, kind) ∈ singleErrorFlags)
    (hrx : (s.base inst).STAT &&& LPUART_STAT_RDRF_MASK = 0)
    (htx : (s.base inst).STAT &&& LPUART_STAT_TDRE_MASK = 0)
    (herr : (s.base inst).STAT &&& DRV_UART_STAT_ERROR_REC_FLAG_MASK = flag)
    (hcb : s.s_UARTfunctionPointer DRV_UART_CALLBACKERROR = some fn)
    (hcbE : s.s_UARTx_ErrorCallBack = some fnE)
    (hbusy : (s.s_UARTrxBufferstr inst).isRxBusy = true) :
    ∃ s1, Drv_Uart_HanldeInterrupt inert inst s = some s1 ∧
      s1.trace = s.trace ++ [Event.error fnE kind] ∧
      (s1.base inst).STAT &&& DRV_UART_STAT_ERROR_REC_FLAG_MASK = 0 ∧
      (s1.base inst).CTRL &&& DRV_UART_CTRL_ERROR_REC_INTERRUPT_MASK = 0 ∧
      (s1.s_UARTrxBufferstr inst).prxBuff = (s.s_UARTrxBufferstr inst).prxBuff ∧
      (s1.s_UARTrxBufferstr inst).rxBuffSize = (s.s_UARTrxBufferstr inst).rxBuffSize ∧
      (s1.s_UARTrxBufferstr inst).rxCount = (s.s_UARTrxBufferstr inst).rxCount ∧
      (s1.s_UARTrxBufferstr inst).isRxBusy = true ∧
      s1.mem = s.mem := by
  obtain ⟨hkind, hne⟩ := classify_single hfk (s.s_UARTrxBufferstr inst).rxStatus
  have hdisp : Drv_Uart_HanldeInterrupt inert inst s
      = Drv_Uart_HanldeInterruptError inert inst s := by
    simp [Drv_Uart_HanldeInterrupt, hinst, Drv_Uart_CheckIFReceiver,
      Drv_Uart_CheckIFTransmitter, Drv_Uart_CheckIFError, hrx, htx, herr, hne]
  rw [hdisp]
  unfold Drv_Uart_HanldeInterruptError
  simp only [hinst, if_true, updBase, updRx, hcb, hcbE, herr]
  refine ⟨_, rfl, ?_, ?_, ?_, ?_, ?_, ?_, ?_, rfl⟩
  · simp [invoke, inert, setAt, hkind]
  · simp only [invoke, inert, setAt_same]
    exact writeSTAT_clears_errors _
  · simp only [invoke, inert, setAt_same]
    have e : ∀ r : LPUART_Type, (writeSTAT r (r.STAT ||| DRV_UART_STAT_ERROR_REC_FLAG_MASK)).CTRL
        = r.CTRL := fun _ => rfl
    rw [e, clear_land_other _ (by decide) (by decide), clear_land_self]
  · simp [invoke, inert, setAt]
  · simp [invoke, inert, setAt]
  · simp [invoke, inert, setAt]
  · simp [invoke, inert, setAt, hbusy]

/-- C11, for instance 0 with `receiveAsync(0x100, 4)` in flight, the error
callbacks `5` and `6` registered and only the overrun flag set. -/
theorem error_does_not_abort_witness :
    (0 < LPUART_INSTANCE_COUNT ∧
      (LPUART_STAT_OR_MASK, DRV_UART_STATERXOVERRUNERROR) ∈ singleErrorFlags ∧
      ((hwStatus 0 LPUART_STAT_OR_MASK receiveArmed).base 0).STAT
        &&& LPUART_STAT_RDRF_MASK = 0 ∧
      ((hwStatus 0 LPUART_STAT_OR_MASK receiveArmed).base 0).STAT
        &&& LPUART_STAT_TDRE_MASK = 0 ∧
      ((hwStatus 0 LPUART_STAT_OR_MASK receiveArmed).base 0).STAT
        &&& DRV_UART_STAT_ERROR_REC_FLAG_MASK = LPUART_STAT_OR_MASK ∧
      (hwStatus 0 LPUART_STAT_OR_MASK receiveArmed).s_UARTfunctionPointer
        DRV_UART_CALLBACKERROR = some 5 ∧
      (hwStatus 0 LPUART_STAT_OR_MASK receiveArmed).s_UARTx_ErrorCallBack = some 6 ∧
      ((hwStatus 0 LPUART_STAT_OR_MASK receiveArmed).s_UARTrxBufferstr 0).isRxBusy = true) ∧
    ∃ s1, Drv_Uart_HanldeInterrupt inert 0 (hwStatus 0 LPUART_STAT_OR_MASK receiveArmed)
        = some s1 ∧
      s1.trace = (hwStatus 0 LPUART_STAT_OR_MASK receiveArmed).trace
        ++ [Event.error 6 DRV_UART_STATERXOVERRUNERROR] ∧
      (s1.base 0).STAT &&& DRV_UART_STAT_ERROR_REC_FLAG_MASK = 0 ∧
      (s1.base 0).CTRL &&& DRV_UART_CTRL_ERROR_REC_INTERRUPT_MASK = 0 ∧
      (s1.s_UARTrxBufferstr 0).prxBuff
        = ((hwStatus 0 LPUART_STAT_OR_MASK receiveArmed).s_UARTrxBufferstr 0).prxBuff ∧
      (s1.s_UARTrxBufferstr 0).rxBuffSize
        = ((hwStatus 0 LPUART_STAT_OR_MASK receiveArmed).s_UARTrxBufferstr 0).rxBuffSize ∧
      (s1.s_UARTrxBufferstr 0).rxCount
        = ((hwStatus 0 LPUART_STAT_OR_MASK receiveArmed).s_UARTrxBufferstr 0).rxCount ∧
      (s1.s_UARTrxBufferstr 0).isRxBusy = true ∧
      s1.mem = (hwStatus 0 LPUART_STAT_OR_MASK receiveArmed).mem :=
  ⟨by decide,
    error_does_not_abort (hwStatus 0 LPUART_STAT_OR_MASK receiveArmed) 0 5 6
      LPUART_STAT_OR_MASK DRV_UART_STATERXOVERRUNERROR (by decide) (by decide) (by decide)
      (by decide) (by decide) (by decide) (by decide) (by decide)⟩

/-- C12 (refuted on the code): with an error callback `fE` registered with
`Drv_Uart_InstallCallBackE` and nothing registered by kind in the error slot,
the error handler returns without calling anything: line 940 tests
`s_UARTfunctionPointer[DRV_UART_CALLBACKERROR]`, line 942 calls
`s_UARTx_ErrorCallBack`. -/
theorem errorCallbackE_not_invoked (run : Callbacks) (s : DrvState) (inst fE : Nat)
    (hinst : inst < LPUART_INSTANCE_COUNT)
    (hE : s.s_UARTx_ErrorCallBack = some fE)
    (hnone : s.s_UARTfunctionPointer DRV_UART_CALLBACKERROR = none) :
    ∃ s1, Drv_Uart_HanldeInterruptError run inst s = some s1 ∧
      s1.s_UARTx_ErrorCallBack = some fE ∧ s1.trace = s.trace := by
  unfold Drv_Uart_HanldeInterruptError
  simp only [hinst, if_true, updBase, updRx, hnone]
  exact ⟨_, rfl, hE, rfl⟩

/-- C12, for instance 0 with a receive in flight, the error callback `6`
registered with `Drv_Uart_InstallCallBackE` only, and the overrun flag set:
the error is classified and nothing is called. -/
theorem errorCallbackE_not_invoked_witness :
    (0 < LPUART_INSTANCE_COUNT ∧ errorRegisteredOnly.s_UARTx_ErrorCallBack = some 6 ∧
      errorRegisteredOnly.s_UARTfunctionPointer DRV_UART_CALLBACKERROR = none) ∧
    (errorRegisteredOnly.base 0).STAT &&& DRV_UART_STAT_ERROR_REC_FLAG_MASK
      = LPUART_STAT_OR_MASK ∧
    errorRegisteredOnly.trace = [] ∧
    ∃ s1, Drv_Uart_HanldeInterruptError inert 0 errorRegisteredOnly = some s1 ∧
      s1.s_UARTx_ErrorCallBack = some 6 ∧ s1.trace = errorRegisteredOnly.trace :=
  ⟨by decide, by decide, by decide,
    errorCallbackE_not_invoked inert errorRegisteredOnly 0 6 (by decide) (by decide)
      (by decide)⟩

/-- C13 (refuted on the code): with an error callback registered by kind
with `Drv_Uart_InstallCallBack` and none registered with
`Drv_Uart_InstallCallBackE`, the error handler calls through the null
pointer `s_UARTx_ErrorCallBack`, which is undefined. -/
theorem errorHandler_calls_null (run : Callbacks) (s : DrvState) (inst g : Nat)
    (hinst : inst < LPUART_INSTANCE_COUNT)
    (hcb : s.s_UARTfunctionPointer DRV_UART_CALLBACKERROR = some g)
    (hE : s.s_UARTx_ErrorCallBack = none) :
    Drv_Uart_HanldeInterruptError run inst s = none := by
  unfold Drv_Uart_HanldeInterruptError
  simp only [hinst, if_true, updBase, updRx, hcb, hE]

/-- C13, for the state reached from start-up by
`Drv_Uart_InstallCallBack(DRV_UART_CALLBACKERROR, 5)` alone. -/
theorem errorHandler_calls_null_witness :
    (0 < LPUART_INSTANCE_COUNT ∧
      kindRegisteredOnly.s_UARTfunctionPointer DRV_UART_CALLBACKERROR = some 5 ∧
      kindRegisteredOnly.s_UARTx_ErrorCallBack = none) ∧
    Drv_Uart_HanldeInterruptError inert 0 kindRegisteredOnly = none :=
  ⟨by decide,
    errorHandler_calls_null inert kindRegisteredOnly 0 5 (by decide) (by decide) (by decide)⟩

/-! ## Lemmas on what the handlers leave alone -/

theorem storeByte_frame {p : Option Nat} {off v : Nat} {s s1 : DrvState}
    (h : storeByte p off v s = some s1) :
    s1.s_UARTtxBufferstr = s.s_UARTtxBufferstr ∧
    s1.s_UARTrxBufferstr = s.s_UARTrxBufferstr ∧ s1.base = s.base ∧
    s1.trace = s.trace ∧ s1.s_UARTfunctionPointer = s.s_UARTfunctionPointer := by
  unfold storeByte at h
  split at h
  · exact Option.noConfusion h
  · injection h with h
    subst h
    exact ⟨rfl, rfl, rfl, rfl, rfl⟩

theorem rxStore_frame {inst data : Nat} {s s1 : DrvState}
    (h : rxStore inst data s = some s1) :
    s1.s_UARTtxBufferstr = s.s_UARTtxBufferstr ∧ s1.base = s.base ∧
    s1.trace = s.trace ∧ s1.s_UARTfunctionPointer = s.s_UARTfunctionPointer := by
  unfold rxStore at h
  simp only at h
  split_ifs at h
  · split at h
    · exact Option.noConfusion h
    · rename_i t ht
      obtain ⟨h1, _, h3, h4, h5⟩ := storeByte_frame ht
      injection h with h
      subst h
      exact ⟨h1, h3, h4, h5⟩
  · split at h
    · exact Option.noConfusion h
    · rename_i t ht
      obtain ⟨h1, _, h3, h4, h5⟩ := storeByte_frame ht
      injection h with h
      subst h
      exact ⟨h1, h3, h4, h5⟩
  · split at h
    · exact Option.noConfusion h
    · rename_i t ht
      obtain ⟨h1, _, h3, h4, h5⟩ := storeByte_frame ht
      split at h
      · exact Option.noConfusion h
      · rename_i t2 ht2
        obtain ⟨g1, _, g3, g4, g5⟩ := storeByte_frame ht2
        injection h with h
        subst h
        exact ⟨g1.trans h1, g3.trans h3, g4.trans h4, g5.trans h5⟩
  · split at h
    · exact Option.noConfusion h
    · rename_i t ht
      obtain ⟨h1, _, h3, h4, h5⟩ := storeByte_frame ht
      split at h
      · exact Option.noConfusion h
      · rename_i t2 ht2
        obtain ⟨g1, _, g3, g4, g5⟩ := storeByte_frame ht2
        injection h with h
        subst h
        exact ⟨g1.trans h1, g3.trans h3, g4.trans h4, g5.trans h5⟩
  · injection h with h
    subst h
    exact ⟨rfl, rfl, rfl, rfl⟩

/-- The receive handler leaves the transmit descriptors and the registers
as they are. -/
theorem HanldeInterruptRx_frame {inst : Nat} {s s1 : DrvState}
    (h : Drv_Uart_HanldeInterruptRx inert inst s = some s1) :
    s1.s_UARTtxBufferstr = s.s_UARTtxBufferstr ∧ s1.base = s.base := by
  unfold Drv_Uart_HanldeInterruptRx at h
  simp only at h
  split_ifs at h
  · split at h
    · exact Option.noConfusion h
    · rename_i t ht
      obtain ⟨h1, h2, _, _⟩ := rxStore_frame ht
      split_ifs at h
      · split at h
        · injection h with h
          subst h
          exact ⟨h1, h2⟩
        · injection h with h
          subst h
          exact ⟨h1, h2⟩
      · injection h with h
        subst h
        exact ⟨h1, h2⟩
  · injection h with h
    subst h
    exact ⟨rfl, rfl⟩

theorem txLoad_frame {inst : Nat} {s s1 : DrvState} (h : txLoad inst s = some s1) :
    s1.s_UARTrxBufferstr = s.s_UARTrxBufferstr ∧ s1.mem = s.mem ∧
    s1.trace = s.trace ∧ s1.s_UARTfunctionPointer = s.s_UARTfunctionPointer := by
  unfold txLoad at h
  simp only at h
  split_ifs at h
  · split at h
    · exact Option.noConfusion h
    · injection h with h
      subst h
      exact ⟨rfl, rfl, rfl, rfl⟩
  · split at h
    · exact Option.noConfusion h
    · injection h with h
      subst h
      exact ⟨rfl, rfl, rfl, rfl⟩
  · split at h
    · injection h with h
      subst h
      exact ⟨rfl, rfl, rfl, rfl⟩
    · exact Option.noConfusion h
  · split at h
    · injection h with h
      subst h
      exact ⟨rfl, rfl, rfl, rfl⟩
    · exact Option.noConfusion h
  · injection h with h
    subst h
    exact ⟨rfl, rfl, rfl, rfl⟩

/-- The transmit handler leaves the receive descriptors and the memory as
they are. -/
theorem HanldeInterruptTx_frame {inst : Nat} {s s1 : DrvState}
    (h : Drv_Uart_HanldeInterruptTx inert inst s = some s1) :
    s1.s_UARTrxBufferstr = s.s_UARTrxBufferstr ∧ s1.mem = s.mem := by
  unfold Drv_Uart_HanldeInterruptTx at h
  simp only at h
  split_ifs at h
  · split at h
    · exact Option.noConfusion h
    · rename_i t ht
      obtain ⟨h1, h2, _, _⟩ := txLoad_frame ht
      split_ifs at h
      · injection h with h
        subst h
        constructor
        · rw [← h1]
          simp only [updTx, updBase]
          split <;> rfl
        · rw [← h2]
          simp only [updTx, updBase]
          split <;> rfl
      · injection h with h
        subst h
        exact ⟨h1, h2⟩
  · injection h with h
    subst h
    exact ⟨rfl, rfl⟩

/-- The error handler leaves the transmit descriptors and the memory as
they are. -/
theorem HanldeInterruptError_frame {inst : Nat} {s s1 : DrvState}
    (h : Drv_Uart_HanldeInterruptError inert inst s = some s1) :
    s1.s_UARTtxBufferstr = s.s_UARTtxBufferstr ∧ s1.mem = s.mem := by
  unfold Drv_Uart_HanldeInterruptError at h
  simp only at h
  split_ifs at h
  split at h
  · split at h
    · exact Option.noConfusion h
    · injection h with h
      subst h
      exact ⟨rfl, rfl⟩
  · injection h with h
    subst h
    exact ⟨rfl, rfl⟩

/-! ## The dispatcher -/

/-- C14: on an instance in range, for every state and every callback
behaviour, one dispatcher invocation is the receive handler if the data-ready
flag is set; otherwise the transmit handler if the transmit-empty flag is
set; otherwise the error handler if an error flag is set; otherwise it
changes nothing.  With callbacks that do not re-enter the driver, the receive
handler and the error handler leave the transmit descriptors as they are,
and the transmit handler leaves the receive descriptors and the memory as
they are. -/
theorem dispatcher_priority (run : Callbacks) (s : DrvState) (inst : Nat)
    (hinst : inst < LPUART_INSTANCE_COUNT) :
    ((s.base inst).STAT &&& LPUART_STAT_RDRF_MASK ≠ 0 →
      Drv_Uart_HanldeInterrupt run inst s = Drv_Uart_HanldeInterruptRx run inst s) ∧
    ((s.base inst).STAT &&& LPUART_STAT_RDRF_MASK = 0 →
      (s.base inst).STAT &&& LPUART_STAT_TDRE_MASK ≠ 0 →
      Drv_Uart_HanldeInterrupt run inst s = Drv_Uart_HanldeInterruptTx run inst s) ∧
    ((s.base inst).STAT &&& LPUART_STAT_RDRF_MASK = 0 →
      (s.base inst).STAT &&& LPUART_STAT_TDRE_MASK = 0 →
      (s.base inst).STAT &&& DRV_UART_STAT_ERROR_REC_FLAG_MASK ≠ 0 →
      Drv_Uart_HanldeInterrupt run inst s = Drv_Uart_HanldeInterruptError run inst s) ∧
    ((s.base inst).STAT &&& LPUART_STAT_RDRF_MASK = 0 →
      (s.base inst).STAT &&& LPUART_STAT_TDRE_MASK = 0 →
      (s.base inst).STAT &&& DRV_UART_STAT_ERROR_REC_FLAG_MASK = 0 →
      Drv_Uart_HanldeInterrupt run inst s = some s) ∧
    (∀ s1, Drv_Uart_HanldeInterruptRx inert inst s = some s1 →
      s1.s_UARTtxBufferstr = s.s_UARTtxBufferstr) ∧
    (∀ s1, Drv_Uart_HanldeInterruptTx inert inst s = some s1 →
      s1.s_UARTrxBufferstr = s.s_UARTrxBufferstr ∧ s1.mem = s.mem) ∧
    (∀ s1, Drv_Uart_HanldeInterruptError inert inst s = some s1 →
      s1.s_UARTtxBufferstr = s.s_UARTtxBufferstr) := by
  refine ⟨?_, ?_, ?_, ?_, ?_, ?_, ?_⟩
  · intro h
    simp [Drv_Uart_HanldeInterrupt, hinst, Drv_Uart_CheckIFReceiver, h]
  · intro h1 h2
    simp [Drv_Uart_HanldeInterrupt, hinst, Drv_Uart_CheckIFReceiver,
      Drv_Uart_CheckIFTransmitter, h1, h2]
  · intro h1 h2 h3
    simp [Drv_Uart_HanldeInterrupt, hinst, Drv_Uart_CheckIFReceiver,
      Drv_Uart_CheckIFTransmitter, Drv_Uart_CheckIFError, h1, h2, h3]
  · intro h1 h2 h3
    simp [Drv_Uart_HanldeInterrupt, hinst, Drv_Uart_CheckIFReceiver,
      Drv_Uart_CheckIFTransmitter, Drv_Uart_CheckIFError, h1, h2, h3]
  · intro s1 h
    exact (HanldeInterruptRx_frame h).1
  · intro s1 h
    exact HanldeInterruptTx_frame h
  · intro s1 h
    exact (HanldeInterruptError_frame h).1

/-! ## Lemmas on arming the receive direction -/

/-- An accepted `Drv_Uart_ReceiveDataInterrupt`. -/
theorem ReceiveDataInterrupt_arms {t : DrvState} {inst : Nat} (buf : Nat) {n : Nat}
    (hinst : inst < LPUART_INSTANCE_COUNT)
    (hidle : (t.s_UARTrxBufferstr inst).isRxBusy = false) (hn : n ≠ 0) :
    ∃ s2, Drv_Uart_ReceiveDataInterrupt inst (some buf) n t = some (DRV_UART_RXBUSY, s2) ∧
      s2.s_UARTrxBufferstr inst = ⟨some buf, n, 0, DRV_UART_RXBUSY, true⟩ ∧
      (s2.base inst).CTRL &&& LPUART_CTRL_RE_MASK = LPUART_CTRL_RE_MASK ∧
      (s2.base inst).CTRL &&& LPUART_CTRL_RIE_MASK = LPUART_CTRL_RIE_MASK ∧
      (s2.base inst).CTRL &&& DRV_UART_CTRL_ERROR_REC_INTERRUPT_MASK
        = DRV_UART_CTRL_ERROR_REC_INTERRUPT_MASK := by
  have hre : shl32 1 LPUART_CTRL_RE_SHIFT = LPUART_CTRL_RE_MASK := by decide
  have e : ∀ r : LPUART_Type,
      (writeSTAT r (r.STAT ||| DRV_UART_STAT_ERROR_REC_FLAG_MASK)).CTRL = r.CTRL :=
    fun _ => rfl
  unfold Drv_Uart_ReceiveDataInterrupt
  simp only [hinst, hidle, hn, if_true, Option.isSome_some, ne_eq, not_false_eq_true,
    and_self, Bool.false_eq_true]
  refine ⟨_, rfl, ?_, ?_, ?_, ?_⟩
  · simp [updBase, updRx, setAt]
  · simp only [updBase, updRx, setAt_same, hre, e]
    rw [set_land_other _ (by decide), set_land_other _ (by decide), set_land_self]
  · simp only [updBase, updRx, setAt_same, hre, e]
    rw [set_land_self]
  · simp only [updBase, updRx, setAt_same, hre, e]
    rw [set_land_other _ (by decide), set_land_self]

/-- `Drv_Uart_AbortReceiving` returns and leaves the receive direction idle. -/
theorem AbortReceiving_idle {s : DrvState} {inst : Nat}
    (hinst : inst < LPUART_INSTANCE_COUNT) :
    ∃ s1, Drv_Uart_AbortReceiving inst s = some (DRV_UART_STATEREADY, s1) ∧
      (s1.s_UARTrxBufferstr inst).isRxBusy = false := by
  unfold Drv_Uart_AbortReceiving
  simp only [hinst, if_true]
  refine ⟨_, rfl, ?_⟩
  simp [updBase, updRx, setAt]

/-- The error handler leaves the busy flag of the receive direction set. -/
theorem HanldeInterruptError_busy {s0 s : DrvState} {inst : Nat}
    (hinst : inst < LPUART_INSTANCE_COUNT)
    (hbusy : (s0.s_UARTrxBufferstr inst).isRxBusy = true)
    (herr : Drv_Uart_HanldeInterruptError inert inst s0 = some s) :
    (s.s_UARTrxBufferstr inst).isRxBusy = true := by
  unfold Drv_Uart_HanldeInterruptError at herr
  simp only [hinst, if_true] at herr
  split at herr
  · split at herr
    · exact Option.noConfusion herr
    · injection herr with herr
      subst herr
      simp [invoke, inert, updBase, updRx, setAt, hbusy]
  · injection herr with herr
    subst herr
    simp [updBase, updRx, setAt, hbusy]

/-- C14, for instance 0 with a transmission and a reception in flight and
the data-ready, transmit-empty and overrun flags all set: the dispatcher is
the receive handler, the progress of the reception goes from 0 to 1, and the
transmit descriptor keeps its progress 0. -/
theorem dispatcher_priority_witness :
    0 < LPUART_INSTANCE_COUNT ∧
    ((allPending.base 0).STAT &&& LPUART_STAT_RDRF_MASK ≠ 0 ∧
      (allPending.base 0).STAT &&& LPUART_STAT_TDRE_MASK ≠ 0 ∧
      (allPending.base 0).STAT &&& DRV_UART_STAT_ERROR_REC_FLAG_MASK ≠ 0) ∧
    (Drv_Uart_HanldeInterrupt inert 0 allPending).map
        (fun s => ((s.s_UARTrxBufferstr 0).rxCount, s.s_UARTtxBufferstr 0))
      = some (1, ⟨some 0x100, 3, 0, DRV_UART_TXBUSY, true⟩) ∧
    (((allPending.base 0).STAT &&& LPUART_STAT_RDRF_MASK ≠ 0 →
      Drv_Uart_HanldeInterrupt inert 0 allPending
        = Drv_Uart_HanldeInterruptRx inert 0 allPending) ∧
    ((allPending.base 0).STAT &&& LPUART_STAT_RDRF_MASK = 0 →
      (allPending.base 0).STAT &&& LPUART_STAT_TDRE_MASK ≠ 0 →
      Drv_Uart_HanldeInterrupt inert 0 allPending
        = Drv_Uart_HanldeInterruptTx inert 0 allPending) ∧
    ((allPending.base 0).STAT &&& LPUART_STAT_RDRF_MASK = 0 →
      (allPending.base 0).STAT &&& LPUART_STAT_TDRE_MASK = 0 →
      (allPending.base 0).STAT &&& DRV_UART_STAT_ERROR_REC_FLAG_MASK ≠ 0 →
      Drv_Uart_HanldeInterrupt inert 0 allPending
        = Drv_Uart_HanldeInterruptError inert 0 allPending) ∧
    ((allPending.base 0).STAT &&& LPUART_STAT_RDRF_MASK = 0 →
      (allPending.base 0).STAT &&& LPUART_STAT_TDRE_MASK = 0 →
      (allPending.base 0).STAT &&& DRV_UART_STAT_ERROR_REC_FLAG_MASK = 0 →
      Drv_Uart_HanldeInterrupt inert 0 allPending = some allPending) ∧
    (∀ s1, Drv_Uart_HanldeInterruptRx inert 0 allPending = some s1 →
      s1.s_UARTtxBufferstr = allPending.s_UARTtxBufferstr) ∧
    (∀ s1, Drv_Uart_HanldeInterruptTx inert 0 allPending = some s1 →
      s1.s_UARTrxBufferstr = allPending.s_UARTrxBufferstr ∧ s1.mem = allPending.mem) ∧
    (∀ s1, Drv_Uart_HanldeInterruptError inert 0 allPending = some s1 →
      s1.s_UARTtxBufferstr = allPending.s_UARTtxBufferstr)) :=
  ⟨by decide, by decide, by decide, dispatcher_priority inert allPending 0 (by decide)⟩

/-! ## The progress count -/

/-- C15 (refuted on the code): from instance 0 configured, after `sendAsync`
of 1 byte and the transmit-ready interrupt that completes it, the transmit
progress and length are both 1 and the direction is idle; a completed
`receiveBlocking` of 1 byte leaves the transmit direction busy (lines
546-547 set the transmit descriptor); the next transmit-ready interrupt moves
the transmit progress to 2, above the recorded length 1. -/
theorem progress_exceeds_length :
    progressScenario.map (fun p => observeTx p.1) = some (1, 1, false) ∧
    progressScenario.map (fun p => observeTx p.2.1) = some (1, 1, true) ∧
    progressScenario.map (fun p => observeTx p.2.2) = some (2, 1, true) ∧
    ¬ (2 ≤ 1) := by
  refine ⟨by decide, by decide, by decide, by decide⟩

/-! ## Recovery from a receive error -/

/-- C16 (as stated, refuted): with `receiveAsync(0x100, 4)` in flight and an
overrun served by the error handler, the receive descriptor holds the status
overrun with the busy flag still set; a `receiveAsync(0x300, 2)` issued next
returns `DRV_UART_RXBUSY` and leaves the descriptor as it is: the buffer is
still `0x100`, the status still the overrun error. -/
theorem rearm_after_error_rejected :
    rearmScenario
      = some (DRV_UART_RXBUSY,
          ⟨some 0x100, 4, 0, DRV_UART_STATERXOVERRUNERROR, true⟩,
          ⟨some 0x100, 4, 0, DRV_UART_STATERXOVERRUNERROR, true⟩) := by
  decide

/-- C16 (amended): on an instance in range, in the state `s` the error
handler leaves from a receive in flight, the next `receiveAsync` is rejected
with `DRV_UART_RXBUSY` and changes nothing; after `Drv_Uart_AbortReceiving`
a `receiveAsync` with a non-null buffer and a length `n ≠ 0` is accepted: it
records the buffer and the length with progress 0, the busy flag and the
status `DRV_UART_RXBUSY`, and sets the receiver-enable, the
receive-interrupt-enable and the four error-interrupt-enable bits. -/
theorem rearm_after_error (s0 s : DrvState) (inst buf n : Nat)
    (hinst : inst < LPUART_INSTANCE_COUNT) (hn : n ≠ 0)
    (hbusy : (s0.s_UARTrxBufferstr inst).isRxBusy = true)
    (herr : Drv_Uart_HanldeInterruptError inert inst s0 = some s) :
    Drv_Uart_ReceiveDataInterrupt inst (some buf) n s = some (DRV_UART_RXBUSY, s) ∧
    ∃ s1 s2, Drv_Uart_AbortReceiving inst s = some (DRV_UART_STATEREADY, s1) ∧
      Drv_Uart_ReceiveDataInterrupt inst (some buf) n s1 = some (DRV_UART_RXBUSY, s2) ∧
      s2.s_UARTrxBufferstr inst = ⟨some buf, n, 0, DRV_UART_RXBUSY, true⟩ ∧
      (s2.base inst).CTRL &&& LPUART_CTRL_RE_MASK = LPUART_CTRL_RE_MASK ∧
      (s2.base inst).CTRL &&& LPUART_CTRL_RIE_MASK = LPUART_CTRL_RIE_MASK ∧
      (s2.base inst).CTRL &&& DRV_UART_CTRL_ERROR_REC_INTERRUPT_MASK
        = DRV_UART_CTRL_ERROR_REC_INTERRUPT_MASK := by
  have hstill := HanldeInterruptError_busy hinst hbusy herr
  constructor
  · simp [Drv_Uart_ReceiveDataInterrupt, hinst, hstill]
  · obtain ⟨s1, habort, hidle⟩ := AbortReceiving_idle (s := s) hinst
    obtain ⟨s2, harm, h1, h2, h3, h4⟩ := ReceiveDataInterrupt_arms buf hinst hidle hn
    exact ⟨s1, s2, habort, harm, h1, h2, h3, h4⟩

/-- C16 (amended), for instance 0 with `receiveAsync(0x100, 4)` in flight,
an overrun served by the error handler, and a new `receiveAsync(0x300, 2)`. -/
theorem rearm_after_error_witness :
    (0 < LPUART_INSTANCE_COUNT ∧ 2 ≠ 0 ∧
      ((hwRaise 0 LPUART_STAT_OR_MASK receiveArmed).s_UARTrxBufferstr 0).isRxBusy = true ∧
      Drv_Uart_HanldeInterruptError inert 0 (hwRaise 0 LPUART_STAT_OR_MASK receiveArmed)
        = some afterOverrun) ∧
    (afterOverrun.s_UARTrxBufferstr 0).rxStatus = DRV_UART_STATERXOVERRUNERROR ∧
    Drv_Uart_ReceiveDataInterrupt 0 (some 0x300) 2 afterOverrun
      = some (DRV_UART_RXBUSY, afterOverrun) ∧
    ∃ s1 s2, Drv_Uart_AbortReceiving 0 afterOverrun = some (DRV_UART_STATEREADY, s1) ∧
      Drv_Uart_ReceiveDataInterrupt 0 (some 0x300) 2 s1 = some (DRV_UART_RXBUSY, s2) ∧
      s2.s_UARTrxBufferstr 0 = ⟨some 0x300, 2, 0, DRV_UART_RXBUSY, true⟩ ∧
      (s2.base 0).CTRL &&& LPUART_CTRL_RE_MASK = LPUART_CTRL_RE_MASK ∧
      (s2.base 0).CTRL &&& LPUART_CTRL_RIE_MASK = LPUART_CTRL_RIE_MASK ∧
      (s2.base 0).CTRL &&& DRV_UART_CTRL_ERROR_REC_INTERRUPT_MASK
        = DRV_UART_CTRL_ERROR_REC_INTERRUPT_MASK :=
  ⟨⟨by decide, by decide, by decide, rfl⟩, by decide,
    rearm_after_error (hwRaise 0 LPUART_STAT_OR_MASK receiveArmed) afterOverrun 0 0x300 2
      (by decide) (by decide) (by decide) rfl⟩

/-! ## Argument checks -/

/-- C21: on an instance in range whose transmit direction is not busy,
`Drv_Uart_SendDataInterrupt` with a null buffer or with the length 0 returns
`DRV_UART_ERROR` and leaves the whole state, the transmit descriptor and the
control register included, unchanged. -/
theorem sendAsync_invalid_argument (s : DrvState) (inst : Nat) (data : Option Nat)
    (length : Nat) (hinst : inst < LPUART_INSTANCE_COUNT)
    (hidle : (s.s_UARTtxBufferstr inst).isTxBusy = false)
    (hbad : data = none ∨ length = 0) :
    Drv_Uart_SendDataInterrupt inst data length s = some (DRV_UART_ERROR, s) := by
  rcases hbad with h | h <;> subst h <;>
    simp [Drv_Uart_SendDataInterrupt, hinst, hidle]

/-- C21, for instance 0 configured and idle: a null buffer with length 3. -/
theorem sendAsync_invalid_argument_witness :
    (0 < LPUART_INSTANCE_COUNT ∧ (sendReady.s_UARTtxBufferstr 0).isTxBusy = false ∧
      ((none : Option Nat) = none ∨ 3 = 0)) ∧
    Drv_Uart_SendDataInterrupt 0 none 3 sendReady = some (DRV_UART_ERROR, sendReady) :=
  ⟨⟨by decide, by decide, Or.inl rfl⟩,
    sendAsync_invalid_argument sendReady 0 none 3 (by decide) (by decide) (Or.inl rfl)⟩

/-- C22 (refuted on the code): with an instance index of 3 or more, or with
a null configuration, `Drv_Uart_Init` does not reach its check of line 322:
line 312 reads `uartConfig->clockSource` and lines 314-320 index the arrays
with `instance` first, which is undefined for these arguments. -/
theorem Init_bad_arguments_undefined (inst : Nat) (uartConfig : Option Drv_Uart_ConfigType)
    (s : DrvState) (hbad : LPUART_INSTANCE_COUNT ≤ inst ∨ uartConfig = none) :
    Drv_Uart_Init inst uartConfig s = none := by
  unfold Drv_Uart_Init
  rcases hbad with h | h
  · cases uartConfig with
    | none => rfl
    | some cfg =>
      have h1 : ¬ inst < LPUART_INSTANCE_COUNT := by omega
      simp only [h1, if_false]
  · subst h
    rfl

/-- C22, for instance 0 with a null configuration, and for the instance
index 3 with the configuration of the middleware. -/
theorem Init_bad_arguments_undefined_witness :
    ((LPUART_INSTANCE_COUNT ≤ 0 ∨ (none : Option Drv_Uart_ConfigType) = none) ∧
      Drv_Uart_Init 0 none (initialState abcMemory) = none) ∧
    ((LPUART_INSTANCE_COUNT ≤ 3 ∨ some UserConfig = none) ∧
      Drv_Uart_Init 3 (some UserConfig) (initialState abcMemory) = none) :=
  ⟨⟨Or.inr rfl, Init_bad_arguments_undefined 0 none (initialState abcMemory) (Or.inr rfl)⟩,
    ⟨Or.inl (by decide),
      Init_bad_arguments_undefined 3 (some UserConfig) (initialState abcMemory)
        (Or.inl (by decide))⟩⟩

/-! ## Configuration -/

/-- C23 (refuted on the code): `Drv_Uart_Init` of instance 0 with the 8 MHz
clock and the baud rate 256000 does not return: the candidate divider of the
ratio 32 is 0 and line 267 divides by `0 * 32`.  With every other supported
clock and enumerated baud rate it returns ready and leaves both directions
ready with the busy flags false. -/
theorem Init_undefined_at_8MHz_256000 :
    DRV_UART_SOSCCLKSOUCE ∈ [DRV_UART_SOSCCLKSOUCE, DRV_UART_FIRCCLKSOUCE] ∧
    256000 ∈ Drv_Uart_BaudrateValues ∧
    (Drv_Uart_Init 0 (some (configWith DRV_UART_STOPBITCOUNTONE 256000 DRV_UART_SOSCCLKSOUCE))
      (initialState abcMemory)).isNone = true ∧
    candidate 8000000 256000 32 = none ∧
    ∀ c ∈ [DRV_UART_SOSCCLKSOUCE, DRV_UART_FIRCCLKSOUCE], ∀ b ∈ Drv_Uart_BaudrateValues,
      (c, b) ≠ (DRV_UART_SOSCCLKSOUCE, 256000) →
      (Drv_Uart_Init 0 (some (configWith DRV_UART_STOPBITCOUNTONE b c))
        (initialState abcMemory)).map
          (fun p => (p.1, p.2.s_UARTtxBufferstr 0, p.2.s_UARTrxBufferstr 0))
        = some (DRV_UART_STATEREADY, ⟨none, 0, 0, DRV_UART_STATEREADY, false⟩,
            ⟨none, 0, 0, DRV_UART_STATEREADY, false⟩) := by
  refine ⟨by decide, by decide, by decide, by decide, by decide⟩

/-- C25 (refuted on the code): `Drv_Uart_Init` of instance 0 with two stop
bits, 115200 baud and the 48 MHz clock returns ready with the baud register
`0x03000068`, whose stop-bit-count bit (bit 13) is clear.
`Drv_Uart_SetStopBit` does set the bit; `Drv_Uart_SetBaudRate`, run next,
clears it: line 298 masks the register with `~(uint32_t)0x1F << 24`, which
keeps bits 29..31 only. -/
theorem Init_loses_stop_bit :
    (Drv_Uart_Init 0
        (some (configWith DRV_UART_STOPBITCOUNTTWO 115200 DRV_UART_FIRCCLKSOUCE))
        (initialState abcMemory)).map (observeInit 0)
      = some (DRV_UART_STATEREADY, 0x03000068, false) ∧
    ((Drv_Uart_SetStopBit 0 DRV_UART_STOPBITCOUNTTWO (clockedState 0 48000000)).base
      0).BAUD.testBit LPUART_BAUD_SBNS_SHIFT = true ∧
    (Drv_Uart_SetBaudRate 0 115200
        (Drv_Uart_SetStopBit 0 DRV_UART_STOPBITCOUNTTWO (clockedState 0 48000000))).map
        (observeInit 0)
      = some (DRV_UART_OK, 0x03000068, false) ∧
    shl32 (not32 0x1F) 24 = 0xE0000000 := by
  refine ⟨by decide, by decide, by decide, by decide⟩

/-! ## The baud rate on instance 1 and the zero divisor -/

/-- C29 (refuted on the code): with the configuration of the middleware
(instance 1, 48 MHz, 115200 baud) the oversampling field is 15 and the
divider field 26, and on instance 1 every supported clock and enumerated baud
rate other than 256000 at 8 MHz programs the field 15 and the divider
`round-down(clock / (baud * 16))`; at 8 MHz and 256000 baud the search, which
runs before the override, divides by zero, on instance 1 as on the others.
On instance 0 at 48 MHz and 600 baud the search result `(4, 20000)` is not
what the fields hold. -/
theorem SetBaudRate_instance1 :
    (MIDD_uartInit (initialState abcMemory)).map
        (fun p => (p.1, fieldOSR (p.2.base 1).BAUD, fieldSBR (p.2.base 1).BAUD))
      = some (DRV_UART_STATEREADY, 15, 26) ∧
    48000000 / (115200 * 16) = 26 ∧
    (∀ clk ∈ supportedClocks, ∀ baud ∈ Drv_Uart_BaudrateValues,
      (clk, baud) ≠ (8000000, 256000) →
      (Drv_Uart_SetBaudRate DRV_UART_INSTANCE_1 baud
          (clockedState DRV_UART_INSTANCE_1 clk)).map
          (fun p => (fieldOSR (p.2.base 1).BAUD, fieldSBR (p.2.base 1).BAUD))
        = some (16 - 1, clk / (baud * 16))) ∧
    (Drv_Uart_SetBaudRate DRV_UART_INSTANCE_1 256000
      (clockedState DRV_UART_INSTANCE_1 8000000)).isNone = true ∧
    8000000 / (256000 * 16) = 1 ∧
    DivisorSearch 48000000 600 = some ⟨4, 20000, 0⟩ ∧
    (Drv_Uart_SetBaudRate DRV_UART_INSTANCE_0 600
        (clockedState DRV_UART_INSTANCE_0 48000000)).map
        (fun p => (fieldOSR (p.2.base 0).BAUD, fieldSBR (p.2.base 0).BAUD))
      = some (4 - 1, 3616) := by
  refine ⟨by decide, by decide, by decide, by decide, by decide, by decide, by decide⟩

/-- C30 (refuted on the code): at the 8 MHz clock and the baud rate 256000
the candidate divider of the ratio 32 is `8000000 / 8192000 = 0`, and line
267 divides by `0 * 32`: the candidate and the whole search are undefined.
For every other supported clock and enumerated baud rate every ratio of
`4..32` has a candidate, with a divider of at least 1. -/
theorem candidate_divider_zero :
    8000000 ∈ supportedClocks ∧ 256000 ∈ Drv_Uart_BaudrateValues ∧
    32 ∈ List.range' 4 29 ∧
    u16 (8000000 / u32 (256000 * 32)) = 0 ∧
    u32 (u16 (8000000 / u32 (256000 * 32)) * 32) = 0 ∧
    candidate 8000000 256000 32 = none ∧
    DivisorSearch 8000000 256000 = none ∧
    ∀ clk ∈ supportedClocks, ∀ baud ∈ Drv_Uart_BaudrateValues,
      (clk, baud) ≠ (8000000, 256000) →
      ∀ R ∈ List.range' 4 29,
        (candidate clk baud R).isSome = true ∧ 1 ≤ u16 (clk / u32 (baud * R)) := by
  refine ⟨by decide, by decide, by decide, by decide, by decide, by decide, by decide,
    by decide⟩

/-! ## Lemmas on starting a transfer and on de-initialisation -/

/-- An accepted `Drv_Uart_SendDataInterrupt`. -/
theorem SendDataInterrupt_accepts {t : DrvState} {inst : Nat} (a : Nat) {n : Nat}
    (hinst : inst < LPUART_INSTANCE_COUNT)
    (hidle : (t.s_UARTtxBufferstr inst).isTxBusy = false) (hn : 0 < n) :
    ∃ s1, Drv_Uart_SendDataInterrupt inst (some a) n t = some (DRV_UART_TXBUSY, s1) ∧
      s1.s_UARTtxBufferstr inst = ⟨some a, n, 0, DRV_UART_TXBUSY, true⟩ ∧
      (s1.base inst).CTRL &&& LPUART_CTRL_TIE_MASK = LPUART_CTRL_TIE_MASK := by
  unfold Drv_Uart_SendDataInterrupt
  simp only [hinst, hidle, hn, if_true, Option.isSome_some, gt_iff_lt, and_self,
    Bool.false_eq_true, not_false_eq_true]
  refine ⟨_, rfl, ?_, ?_⟩
  · simp [updBase, updTx, setAt]
  · simp only [updBase, updTx, setAt_same]
    rw [set_land_self]

/-- `Drv_Uart_Deinit` returns and leaves both directions in the default
status with the busy flags false. -/
theorem Deinit_default {s : DrvState} {inst : Nat} (hinst : inst < LPUART_INSTANCE_COUNT) :
    ∃ sd, Drv_Uart_Deinit inst s = some (DRV_UART_OK, sd) ∧
      (sd.s_UARTtxBufferstr inst).txStatus = DRV_UART_STATEDEFAULT ∧
      (sd.s_UARTtxBufferstr inst).isTxBusy = false ∧
      (sd.s_UARTrxBufferstr inst).rxStatus = DRV_UART_STATEDEFAULT ∧
      (sd.s_UARTrxBufferstr inst).isRxBusy = false := by
  unfold Drv_Uart_Deinit
  simp only [hinst, if_true]
  refine ⟨_, rfl, ?_, ?_, ?_, ?_⟩ <;> simp [updBase, updTx, updRx, setSlot, setAt]

/-! ## Transfers on an instance that is not configured -/

/-- C24 (as stated, refuted): at start-up, with instance 0 never configured,
`sendAsync(0x100, 3)` returns `DRV_UART_TXBUSY` and arms the transmission,
and `receiveAsync(0x200, 4)` returns `DRV_UART_RXBUSY` and arms the
reception; the same happens after `Drv_Uart_Deinit`. -/
theorem start_unconfigured_accepted :
    ((initialState abcMemory).s_UARTtxBufferstr 0).txStatus = DRV_UART_OK ∧
    (Drv_Uart_SendDataInterrupt 0 (some 0x100) 3 (initialState abcMemory)).map
        (fun p => (p.1, p.2.s_UARTtxBufferstr 0))
      = some (DRV_UART_TXBUSY, ⟨some 0x100, 3, 0, DRV_UART_TXBUSY, true⟩) ∧
    (Drv_Uart_ReceiveDataInterrupt 0 (some 0x200) 4 (initialState abcMemory)).map
        (fun p => (p.1, p.2.s_UARTrxBufferstr 0))
      = some (DRV_UART_RXBUSY, ⟨some 0x200, 4, 0, DRV_UART_RXBUSY, true⟩) ∧
    ((stateAfter (Drv_Uart_Deinit 0 sendReady) sendReady).s_UARTtxBufferstr 0).txStatus
      = DRV_UART_STATEDEFAULT ∧
    (Drv_Uart_SendDataInterrupt 0 (some 0x100) 3
        (stateAfter (Drv_Uart_Deinit 0 sendReady) sendReady)).map
        (fun p => (p.1, p.2.s_UARTtxBufferstr 0))
      = some (DRV_UART_TXBUSY, ⟨some 0x100, 3, 0, DRV_UART_TXBUSY, true⟩) := by
  refine ⟨by decide, by decide, by decide, by decide, by decide⟩

/-- C24 (amended): on an instance in range that was never configured (the
start-up state), and on one that `Drv_Uart_Deinit` left in the default
status, `sendAsync` and `receiveAsync` with a non-null buffer and a length
`n > 0` are accepted as on a configured instance: they return
`DRV_UART_TXBUSY`, respectively `DRV_UART_RXBUSY`, record the buffer and the
length with progress 0 and the busy flag, and set the interrupt enable. -/
theorem start_unconfigured (mem : Nat → Nat) (s : DrvState) (inst a n : Nat)
    (hinst : inst < LPUART_INSTANCE_COUNT) (hn : 0 < n) :
    (∃ s1, Drv_Uart_SendDataInterrupt inst (some a) n (initialState mem)
        = some (DRV_UART_TXBUSY, s1) ∧
      s1.s_UARTtxBufferstr inst = ⟨some a, n, 0, DRV_UART_TXBUSY, true⟩ ∧
      (s1.base inst).CTRL &&& LPUART_CTRL_TIE_MASK = LPUART_CTRL_TIE_MASK) ∧
    (∃ s1, Drv_Uart_ReceiveDataInterrupt inst (some a) n (initialState mem)
        = some (DRV_UART_RXBUSY, s1) ∧
      s1.s_UARTrxBufferstr inst = ⟨some a, n, 0, DRV_UART_RXBUSY, true⟩ ∧
      (s1.base inst).CTRL &&& LPUART_CTRL_RIE_MASK = LPUART_CTRL_RIE_MASK) ∧
    ∃ sd, Drv_Uart_Deinit inst s = some (DRV_UART_OK, sd) ∧
      (sd.s_UARTtxBufferstr inst).txStatus = DRV_UART_STATEDEFAULT ∧
      (sd.s_UARTrxBufferstr inst).rxStatus = DRV_UART_STATEDEFAULT ∧
      (∃ s1, Drv_Uart_SendDataInterrupt inst (some a) n sd = some (DRV_UART_TXBUSY, s1) ∧
        s1.s_UARTtxBufferstr inst = ⟨some a, n, 0, DRV_UART_TXBUSY, true⟩ ∧
        (s1.base inst).CTRL &&& LPUART_CTRL_TIE_MASK = LPUART_CTRL_TIE_MASK) ∧
      (∃ s1, Drv_Uart_ReceiveDataInterrupt inst (some a) n sd
          = some (DRV_UART_RXBUSY, s1) ∧
        s1.s_UARTrxBufferstr inst = ⟨some a, n, 0, DRV_UART_RXBUSY, true⟩ ∧
        (s1.base inst).CTRL &&& LPUART_CTRL_RIE_MASK = LPUART_CTRL_RIE_MASK) := by
  have hn0 : n ≠ 0 := by omega
  refine ⟨SendDataInterrupt_accepts a hinst rfl hn, ?_, ?_⟩
  · obtain ⟨s1, h1, h2, _, h4, _⟩ :=
      ReceiveDataInterrupt_arms (t := initialState mem) a hinst rfl hn0
    exact ⟨s1, h1, h2, h4⟩
  · obtain ⟨sd, hd, ht, htb, hr, hrb⟩ := Deinit_default (s := s) hinst
    refine ⟨sd, hd, ht, hr, SendDataInterrupt_accepts a hinst htb hn, ?_⟩
    obtain ⟨s1, h1, h2, _, h4, _⟩ := ReceiveDataInterrupt_arms a hinst hrb hn0
    exact ⟨s1, h1, h2, h4⟩

/-- C24 (amended), for instance 2, the buffer `0x100` and the length 3, with
`Drv_Uart_Deinit` applied to the configured state `sendReady`. -/
theorem start_unconfigured_witness :
    (2 < LPUART_INSTANCE_COUNT ∧ 0 < 3) ∧
    (∃ s1, Drv_Uart_SendDataInterrupt 2 (some 0x100) 3 (initialState abcMemory)
        = some (DRV_UART_TXBUSY, s1) ∧
      s1.s_UARTtxBufferstr 2 = ⟨some 0x100, 3, 0, DRV_UART_TXBUSY, true⟩ ∧
      (s1.base 2).CTRL &&& LPUART_CTRL_TIE_MASK = LPUART_CTRL_TIE_MASK) ∧
    (∃ s1, Drv_Uart_ReceiveDataInterrupt 2 (some 0x100) 3 (initialState abcMemory)
        = some (DRV_UART_RXBUSY, s1) ∧
      s1.s_UARTrxBufferstr 2 = ⟨some 0x100, 3, 0, DRV_UART_RXBUSY, true⟩ ∧
      (s1.base 2).CTRL &&& LPUART_CTRL_RIE_MASK = LPUART_CTRL_RIE_MASK) ∧
    ∃ sd, Drv_Uart_Deinit 2 sendReady = some (DRV_UART_OK, sd) ∧
      (sd.s_UARTtxBufferstr 2).txStatus = DRV_UART_STATEDEFAULT ∧
      (sd.s_UARTrxBufferstr 2).rxStatus = DRV_UART_STATEDEFAULT ∧
      (∃ s1, Drv_Uart_SendDataInterrupt 2 (some 0x100) 3 sd = some (DRV_UART_TXBUSY, s1) ∧
        s1.s_UARTtxBufferstr 2 = ⟨some 0x100, 3, 0, DRV_UART_TXBUSY, true⟩ ∧
        (s1.base 2).CTRL &&& LPUART_CTRL_TIE_MASK = LPUART_CTRL_TIE_MASK) ∧
      (∃ s1, Drv_Uart_ReceiveDataInterrupt 2 (some 0x100) 3 sd
          = some (DRV_UART_RXBUSY, s1) ∧
        s1.s_UARTrxBufferstr 2 = ⟨some 0x100, 3, 0, DRV_UART_RXBUSY, true⟩ ∧
        (s1.base 2).CTRL &&& LPUART_CTRL_RIE_MASK = LPUART_CTRL_RIE_MASK) :=
  ⟨by decide, start_unconfigured abcMemory sendReady 2 0x100 3 (by decide) (by decide)⟩

/-! ## Blocking receive and the transmit direction -/

/-- The polling loop writes memory only. -/
theorem rxPollLoop_frame (width : Nat) :
    ∀ (chars : List Nat) (rxBuff rxSize : Nat) (s s1 : DrvState),
      rxPollLoop width chars rxBuff rxSize s = some s1 →
      s1.s_UARTtxBufferstr = s.s_UARTtxBufferstr ∧
      s1.s_UARTrxBufferstr = s.s_UARTrxBufferstr ∧ s1.base = s.base ∧
      s1.trace = s.trace := by
  intro chars
  induction chars with
  | nil =>
    intro rxBuff rxSize s s1 h
    cases rxSize with
    | zero =>
      rw [rxPollLoop] at h
      injection h with h
      subst h
      exact ⟨rfl, rfl, rfl, rfl⟩
    | succ m =>
      rw [rxPollLoop] at h
      exact Option.noConfusion h
  | cons c cs ih =>
    intro rxBuff rxSize s s1 h
    cases rxSize with
    | zero =>
      rw [rxPollLoop] at h
      injection h with h
      subst h
      exact ⟨rfl, rfl, rfl, rfl⟩
    | succ m =>
      rw [rxPollLoop] at h
      split_ifs at h
      · have g := ih _ _ _ _ h
        exact g
      · have g := ih _ _ _ _ h
        exact g
      · have g := ih _ _ _ _ h
        exact g
      · have g := ih _ _ _ _ h
        exact g
      · exact ih _ _ _ _ h

/-- C26 (code deviates): whenever a valid `Drv_Uart_ReceiveDataPolling`
(instance in range, receive direction idle, non-null buffer, length `n > 0`)
returns, it returns `DRV_UART_STATEREADY` and leaves the transmit status
`DRV_UART_TXBUSY` and the transmit busy flag true, whatever they were
before; every `Drv_Uart_SendDataInterrupt` issued afterwards is rejected
with `DRV_UART_TXBUSY` and changes nothing. -/
theorem receiveBlocking_marks_transmit_busy (s s1 : DrvState) (inst a n : Nat)
    (chars : List Nat) (r : Drv_Uart_StatusType)
    (hinst : inst < LPUART_INSTANCE_COUNT)
    (hidle : (s.s_UARTrxBufferstr inst).isRxBusy = false) (hn : 0 < n)
    (h : Drv_Uart_ReceiveDataPolling inst (some a) n chars s = some (r, s1)) :
    r = DRV_UART_STATEREADY ∧
    (s1.s_UARTtxBufferstr inst).txStatus = DRV_UART_TXBUSY ∧
    (s1.s_UARTtxBufferstr inst).isTxBusy = true ∧
    ∀ (data : Option Nat) (len : Nat),
      Drv_Uart_SendDataInterrupt inst data len s1 = some (DRV_UART_TXBUSY, s1) := by
  unfold Drv_Uart_ReceiveDataPolling at h
  simp only [hinst, hidle, hn, if_true, gt_iff_lt, and_self, Bool.false_eq_true,
    not_false_eq_true] at h
  split at h
  · exact Option.noConfusion h
  · rename_i s3 h3
    obtain ⟨htx, _, _, _⟩ := rxPollLoop_frame _ _ _ _ _ _ h3
    injection h with h
    injection h with hr hs
    subst hs
    have hbusy : ((updRx (updBase s3 inst fun r =>
          { r with CTRL := r.CTRL &&& not32 LPUART_CTRL_RE_MASK }) inst fun t =>
          { t with rxStatus := DRV_UART_STATEREADY, isRxBusy := false }).s_UARTtxBufferstr
          inst).isTxBusy = true := by
      simp [updRx, updBase, htx, updTx, setAt]
    refine ⟨hr.symm, ?_, hbusy, ?_⟩
    · simp [updRx, updBase, htx, updTx, setAt]
    · intro data len
      unfold Drv_Uart_SendDataInterrupt
      simp only [hinst, hbusy, if_true]
      simp

/-- C26, for instance 0 configured and idle in both directions: a blocking
receive of the 2 characters `0x5A`, `0x5B` into `0x200` returns
`DRV_UART_STATEREADY`; before it the transmit direction is
`DRV_UART_STATEREADY` and not busy, after it `DRV_UART_TXBUSY` and busy, and
`sendAsync(0x100, 3)` is rejected with `DRV_UART_TXBUSY`. -/
theorem receiveBlocking_marks_transmit_busy_witness :
    (0 < LPUART_INSTANCE_COUNT ∧ (sendReady.s_UARTrxBufferstr 0).isRxBusy = false ∧ 0 < 2 ∧
      Drv_Uart_ReceiveDataPolling 0 (some 0x200) 2 [0x5A, 0x5B] sendReady
        = some (DRV_UART_STATEREADY,
            stateAfter (Drv_Uart_ReceiveDataPolling 0 (some 0x200) 2 [0x5A, 0x5B] sendReady)
              sendReady)) ∧
    (DRV_UART_STATEREADY = DRV_UART_STATEREADY ∧
      ((stateAfter (Drv_Uart_ReceiveDataPolling 0 (some 0x200) 2 [0x5A, 0x5B] sendReady)
        sendReady).s_UARTtxBufferstr 0).txStatus = DRV_UART_TXBUSY ∧
      ((stateAfter (Drv_Uart_ReceiveDataPolling 0 (some 0x200) 2 [0x5A, 0x5B] sendReady)
        sendReady).s_UARTtxBufferstr 0).isTxBusy = true ∧
      ∀ (data : Option Nat) (len : Nat),
        Drv_Uart_SendDataInterrupt 0 data len
            (stateAfter (Drv_Uart_ReceiveDataPolling 0 (some 0x200) 2 [0x5A, 0x5B] sendReady)
              sendReady)
          = some (DRV_UART_TXBUSY,
              stateAfter (Drv_Uart_ReceiveDataPolling 0 (some 0x200) 2 [0x5A, 0x5B] sendReady)
                sendReady)) ∧
    blockingThenSend
      = some ((DRV_UART_STATEREADY, false), (DRV_UART_TXBUSY, true), DRV_UART_TXBUSY) :=
  ⟨⟨by decide, by decide, by decide, rfl⟩,
    receiveBlocking_marks_transmit_busy sendReady _ 0 0x200 2 [0x5A, 0x5B] _
      (by decide) (by decide) (by decide) rfl,
    by decide⟩

/-! ## Completion of a reception and of a transmission -/

/-- A receive-ready interrupt is served by the receive handler. -/
theorem rxReadyIrq_eq (run : Callbacks) {inst : Nat} (hinst : inst < LPUART_INSTANCE_COUNT)
    (v : Nat) (t : DrvState) :
    rxReadyIrq run inst v t = Drv_Uart_HanldeInterruptRx run inst (hwReceive inst v t) := by
  have h : ((t.base inst).STAT ||| LPUART_STAT_RDRF_MASK) &&& LPUART_STAT_RDRF_MASK ≠ 0 := by
    rw [set_land_self]
    decide
  simp [rxReadyIrq, Drv_Uart_HanldeInterrupt, hinst, Drv_Uart_CheckIFReceiver, hwReceive,
    updBase, setAt, h]

/-- C27 (code deviates): with 8-bit characters stored for the instance, a
reception of `n` bytes in flight with `n - 1` stored and a receive-complete
callback `fn` registered, the receive-ready interrupt that stores the last
byte sets the receive status to `DRV_UART_STATEREADY`, the busy flag to
false and progress to `n`, and calls `fn` exactly once; but the control
register is left as it was, so the receive-interrupt-enable and
receiver-enable bits are not cleared. -/
theorem receive_completion_keeps_receiver (s : DrvState) (inst b n k fn v : Nat)
    (hinst : inst < LPUART_INSTANCE_COUNT)
    (hwd : (s.s_UARTconfig inst).bitCountPerChar = DRV_UART_DATABITCOUNT_8)
    (hrx : s.s_UARTrxBufferstr inst = ⟨some b, n, k, DRV_UART_RXBUSY, true⟩)
    (hk : k + 1 = n) (hn : n < 2 ^ 16)
    (hcb : s.s_UARTfunctionPointer DRV_UART_CALLBACKRECEIVER = some fn) :
    ∃ s1, rxReadyIrq inert inst v s = some s1 ∧
      s1.s_UARTrxBufferstr inst = ⟨some b, n, n, DRV_UART_STATEREADY, false⟩ ∧
      s1.trace = s.trace ++ [Event.slot DRV_UART_CALLBACKRECEIVER fn] ∧
      (s1.base inst).CTRL = (s.base inst).CTRL := by
  have hcnt : u16 (k + 1) = k + 1 := Nat.mod_eq_of_lt (by omega)
  subst hk
  rw [rxReadyIrq_eq inert hinst]
  simp [Drv_Uart_HanldeInterruptRx, rxStore, storeByte, hinst, hrx, hwd, hwReceive,
    DRV_UART_DATABITCOUNT_7, DRV_UART_DATABITCOUNT_8, updRx, updBase, setAt, hcnt, hcb,
    invoke, inert]

/-- C27, for `receiveAsync(0x200, 1)` in flight on instance 0 with the
receive-complete callback `9`: the interrupt that delivers `0x5A` completes
the reception and calls `9` once, and the receive-interrupt-enable and
receiver-enable bits of the control register are still set afterwards. -/
theorem receive_completion_keeps_receiver_witness :
    (0 < LPUART_INSTANCE_COUNT ∧
      (receiveOne.s_UARTconfig 0).bitCountPerChar = DRV_UART_DATABITCOUNT_8 ∧
      receiveOne.s_UARTrxBufferstr 0 = ⟨some 0x200, 1, 0, DRV_UART_RXBUSY, true⟩ ∧
      0 + 1 = 1 ∧ 1 < 2 ^ 16 ∧
      receiveOne.s_UARTfunctionPointer DRV_UART_CALLBACKRECEIVER = some 9) ∧
    (∃ s1, rxReadyIrq inert 0 0x5A receiveOne = some s1 ∧
      s1.s_UARTrxBufferstr 0 = ⟨some 0x200, 1, 1, DRV_UART_STATEREADY, false⟩ ∧
      s1.trace = receiveOne.trace ++ [Event.slot DRV_UART_CALLBACKRECEIVER 9] ∧
      (s1.base 0).CTRL = (receiveOne.base 0).CTRL) ∧
    (rxReadyIrq inert 0 0x5A receiveOne).map observeRxDone
      = some (LPUART_CTRL_RIE_MASK, LPUART_CTRL_RE_MASK,
          ⟨some 0x200, 1, 1, DRV_UART_STATEREADY, false⟩,
          [Event.slot DRV_UART_CALLBACKRECEIVER 9]) :=
  ⟨⟨by decide, by decide, by decide, by decide, by decide, by decide⟩,
    receive_completion_keeps_receiver receiveOne 0 0x200 1 0 9 0x5A (by decide) (by decide)
      (by decide) (by decide) (by decide) (by decide),
    by decide⟩

/-- C28 (code deviates): with 8-bit characters stored for the instance, a
transmission of `n` bytes in flight with `n - 1` written and a
transmit-complete callback `fn` registered, the transmit-ready interrupt
that writes the last byte enters the callback in a state `sc` whose transmit
status is still `DRV_UART_TXBUSY` and whose busy flag is still true; every
`Drv_Uart_SendDataInterrupt` issued in that state is rejected with
`DRV_UART_TXBUSY` and changes nothing; the status becomes
`DRV_UART_STATEREADY` and the busy flag false only after the callback has
returned. -/
theorem txComplete_callback_sees_busy (run : Callbacks) (s : DrvState)
    (inst a n k fn : Nat) (hinst : inst < LPUART_INSTANCE_COUNT)
    (hwd : (s.s_UARTconfig inst).bitCountPerChar = DRV_UART_DATABITCOUNT_8)
    (htx : s.s_UARTtxBufferstr inst = ⟨some a, n, k, DRV_UART_TXBUSY, true⟩)
    (hk : k + 1 = n) (hn : n < 2 ^ 16)
    (hcb : s.s_UARTfunctionPointer DRV_UART_CALLBACKTRANSMITTER = some fn) :
    ∃ sc, txReadyIrq run inst s
        = some (updTx (run (Event.slot DRV_UART_CALLBACKTRANSMITTER fn) sc) inst fun t =>
            { t with txStatus := DRV_UART_STATEREADY, isTxBusy := false }) ∧
      sc.s_UARTtxBufferstr inst = ⟨some a, n, n, DRV_UART_TXBUSY, true⟩ ∧
      sc.trace = s.trace ++ [Event.slot DRV_UART_CALLBACKTRANSMITTER fn] ∧
      ∀ (data : Option Nat) (len : Nat),
        Drv_Uart_SendDataInterrupt inst data len sc = some (DRV_UART_TXBUSY, sc) := by
  have hcnt : u16 (k + 1) = k + 1 := Nat.mod_eq_of_lt (by omega)
  subst hk
  rw [txReadyIrq_eq run hinst]
  have hrun : Drv_Uart_HanldeInterruptTx run inst (hwTransmitReady inst s)
      = some (updTx (invoke run (Event.slot DRV_UART_CALLBACKTRANSMITTER fn)
          (updBase (updBase (updTx (writeDATA inst (u8 (s.mem (a + k)) &&& 0xFF)
              (hwTransmitReady inst s)) inst
              fun t => { t with txCount := u16 (t.txCount + 1) }) inst
              fun r => { r with CTRL := r.CTRL &&& not32 LPUART_CTRL_TIE_MASK }) inst
              fun r => { r with CTRL := r.CTRL &&& not32 LPUART_CTRL_TE_MASK })) inst
          fun t => { t with txStatus := DRV_UART_STATEREADY, isTxBusy := false }) := by
    simp [Drv_Uart_HanldeInterruptTx, txLoad, hinst, htx, hwd, loadByte, hwTransmitReady,
      DRV_UART_DATABITCOUNT_7, DRV_UART_DATABITCOUNT_8, updTx, writeDATA, updBase,
      setAt, hcnt, hcb]
  rw [hrun]
  refine ⟨_, rfl, ?_, ?_, ?_⟩
  · simp [updTx, writeDATA, updBase, setAt, hwTransmitReady, htx, hcnt]
  · simp [updTx, writeDATA, updBase, hwTransmitReady]
  · intro data len
    simp [Drv_Uart_SendDataInterrupt, hinst, updTx, writeDATA, updBase, setAt,
      hwTransmitReady, htx]

/-- C28, for `sendAsync(0x100, 1)` in flight on instance 0 with the
transmit-complete callback `7`, where the callback issues
`sendAsync(0x101, 2)`: the nested request is rejected, and after the
interrupt the transmit descriptor still names the buffer `0x100` of length 1,
`DRV_UART_STATEREADY` and not busy. -/
theorem txComplete_callback_sees_busy_witness :
    (0 < LPUART_INSTANCE_COUNT ∧
      (sendOne.s_UARTconfig 0).bitCountPerChar = DRV_UART_DATABITCOUNT_8 ∧
      sendOne.s_UARTtxBufferstr 0 = ⟨some 0x100, 1, 0, DRV_UART_TXBUSY, true⟩ ∧
      0 + 1 = 1 ∧ 1 < 2 ^ 16 ∧
      sendOne.s_UARTfunctionPointer DRV_UART_CALLBACKTRANSMITTER = some 7) ∧
    (∃ sc, txReadyIrq (resendCallback 0 0x101 2) 0 sendOne
        = some (updTx (resendCallback 0 0x101 2 (Event.slot DRV_UART_CALLBACKTRANSMITTER 7) sc) 0
            fun t => { t with txStatus := DRV_UART_STATEREADY, isTxBusy := false }) ∧
      sc.s_UARTtxBufferstr 0 = ⟨some 0x100, 1, 1, DRV_UART_TXBUSY, true⟩ ∧
      sc.trace = sendOne.trace ++ [Event.slot DRV_UART_CALLBACKTRANSMITTER 7] ∧
      ∀ (data : Option Nat) (len : Nat),
        Drv_Uart_SendDataInterrupt 0 data len sc = some (DRV_UART_TXBUSY, sc)) ∧
    resendScenario.map (fun s => (s.s_UARTtxBufferstr 0, s.trace))
      = some (⟨some 0x100, 1, 1, DRV_UART_STATEREADY, false⟩,
          [Event.slot DRV_UART_CALLBACKTRANSMITTER 7]) :=
  ⟨⟨by decide, by decide, by decide, by decide, by decide, by decide⟩,
    txComplete_callback_sees_busy (resendCallback 0 0x101 2) sendOne 0 0x100 1 0 7
      (by decide) (by decide) (by decide) (by decide) (by decide) (by decide),
    by decide⟩

/-! ## The stored configuration is never written -/

theorem SetBitCountPerChar_config (inst b p : Nat) (s : DrvState) :
    (Drv_Uart_SetBitCountPerChar inst b p s).s_UARTconfig = s.s_UARTconfig := by
  unfold Drv_Uart_SetBitCountPerChar
  simp only []
  split_ifs <;> rfl

theorem SetBaudRate_config {inst baud : Nat} {s s1 : DrvState} {r : Drv_Uart_StatusType}
    (h : Drv_Uart_SetBaudRate inst baud s = some (r, s1)) :
    s1.s_UARTconfig = s.s_UARTconfig := by
  unfold Drv_Uart_SetBaudRate at h
  repeat' split at h
  all_goals first | (cases h; rfl) | cases h

theorem Init_config {inst : Nat} {cfg : Option Drv_Uart_ConfigType} {s s1 : DrvState}
    {r : Drv_Uart_StatusType} (h : Drv_Uart_Init inst cfg s = some (r, s1)) :
    s1.s_UARTconfig = s.s_UARTconfig := by
  unfold Drv_Uart_Init at h
  split at h
  · cases h
  · rename_i c
    split_ifs at h
    all_goals try (cases h; rfl)
    all_goals
      dsimp only at h
      split at h
      · cases h
      · rename_i x s9 h9
        have e := SetBaudRate_config h9
        simp only [Option.some.injEq, Prod.mk.injEq] at h
        obtain ⟨_, h⟩ := h
        subst h
        simp only [updRx, updTx]
        rw [e]
        simp only [Drv_Uart_SetStopBit, DRV_UART_SetParityMode, updBase,
          SetBitCountPerChar_config]

theorem SendDataInterrupt_config {inst : Nat} {data : Option Nat} {n : Nat} {s s1 : DrvState}
    {r : Drv_Uart_StatusType} (h : Drv_Uart_SendDataInterrupt inst data n s = some (r, s1)) :
    s1.s_UARTconfig = s.s_UARTconfig := by
  unfold Drv_Uart_SendDataInterrupt at h
  repeat' split at h
  all_goals first | (cases h; rfl) | cases h

theorem ReceiveDataInterrupt_config {inst : Nat} {data : Option Nat} {n : Nat}
    {s s1 : DrvState} {r : Drv_Uart_StatusType}
    (h : Drv_Uart_ReceiveDataInterrupt inst data n s = some (r, s1)) :
    s1.s_UARTconfig = s.s_UARTconfig := by
  unfold Drv_Uart_ReceiveDataInterrupt at h
  repeat' split at h
  all_goals first | (cases h; rfl) | cases h

theorem AbortReceiving_config {inst : Nat} {s s1 : DrvState} {r : Drv_Uart_StatusType}
    (h : Drv_Uart_AbortReceiving inst s = some (r, s1)) :
    s1.s_UARTconfig = s.s_UARTconfig := by
  unfold Drv_Uart_AbortReceiving at h
  repeat' split at h
  all_goals first | (cases h; rfl) | cases h

theorem AbortTransmitting_config {inst : Nat} {s s1 : DrvState} {r : Drv_Uart_StatusType}
    (h : Drv_Uart_AbortTransmitting inst s = some (r, s1)) :
    s1.s_UARTconfig = s.s_UARTconfig := by
  unfold Drv_Uart_AbortTransmitting at h
  repeat' split at h
  all_goals first | (cases h; rfl) | cases h

theorem Deinit_config {inst : Nat} {s s1 : DrvState} {r : Drv_Uart_StatusType}
    (h : Drv_Uart_Deinit inst s = some (r, s1)) :
    s1.s_UARTconfig = s.s_UARTconfig := by
  unfold Drv_Uart_Deinit at h
  repeat' split at h
  all_goals first | (cases h; rfl) | cases h

theorem InstallCallBack_config (k : Nat) (fn : Option Nat) (s : DrvState) :
    (Drv_Uart_InstallCallBack k fn s).s_UARTconfig = s.s_UARTconfig := by
  unfold Drv_Uart_InstallCallBack
  simp only []
  split_ifs <;> rfl

theorem invoke_config {run : Callbacks}
    (hrun : ∀ ev t, (run ev t).s_UARTconfig = t.s_UARTconfig) (ev : Event) (s : DrvState) :
    (invoke run ev s).s_UARTconfig = s.s_UARTconfig := by
  unfold invoke
  rw [hrun]

theorem storeByte_config {p : Option Nat} {off v : Nat} {s s1 : DrvState}
    (h : storeByte p off v s = some s1) : s1.s_UARTconfig = s.s_UARTconfig := by
  unfold storeByte at h
  split at h
  · cases h
  · cases h
    rfl

theorem rxStore_config {inst data : Nat} {s s1 : DrvState}
    (h : rxStore inst data s = some s1) : s1.s_UARTconfig = s.s_UARTconfig := by
  unfold rxStore at h
  dsimp only at h
  split_ifs at h
  · split at h
    · cases h
    · rename_i t ht
      cases h
      have e := storeByte_config ht
      exact e
  · split at h
    · cases h
    · rename_i t ht
      cases h
      have e := storeByte_config ht
      exact e
  · split at h
    · cases h
    · rename_i t ht
      split at h
      · cases h
      · rename_i t2 ht2
        cases h
        have e := (storeByte_config ht2).trans (storeByte_config ht)
        exact e
  · split at h
    · cases h
    · rename_i t ht
      split at h
      · cases h
      · rename_i t2 ht2
        cases h
        have e := (storeByte_config ht2).trans (storeByte_config ht)
        exact e
  · cases h
    rfl

theorem HanldeInterruptRx_config {run : Callbacks}
    (hrun : ∀ ev t, (run ev t).s_UARTconfig = t.s_UARTconfig) {inst : Nat} {s s1 : DrvState}
    (h : Drv_Uart_HanldeInterruptRx run inst s = some s1) :
    s1.s_UARTconfig = s.s_UARTconfig := by
  unfold Drv_Uart_HanldeInterruptRx at h
  dsimp only at h
  split_ifs at h
  · split at h
    · cases h
    · rename_i t ht
      have e := rxStore_config ht
      split_ifs at h
      · split at h
        · cases h
          rw [invoke_config hrun]
          exact e
        · cases h
          exact e
      · cases h
        exact e
  · cases h
    rfl

theorem txLoad_config {inst : Nat} {s s1 : DrvState} (h : txLoad inst s = some s1) :
    s1.s_UARTconfig = s.s_UARTconfig := by
  unfold txLoad at h
  dsimp only at h
  repeat' split at h
  all_goals first | (cases h; rfl) | cases h

theorem HanldeInterruptTx_config {run : Callbacks}
    (hrun : ∀ ev t, (run ev t).s_UARTconfig = t.s_UARTconfig) {inst : Nat} {s s1 : DrvState}
    (h : Drv_Uart_HanldeInterruptTx run inst s = some s1) :
    s1.s_UARTconfig = s.s_UARTconfig := by
  unfold Drv_Uart_HanldeInterruptTx at h
  dsimp only at h
  split_ifs at h
  · split at h
    · cases h
    · rename_i t ht
      have e := txLoad_config ht
      split_ifs at h
      · cases h
        simp only [updTx]
        split
        · rw [invoke_config hrun]
          exact e
        · exact e
      · cases h
        exact e
  · cases h
    rfl

theorem HanldeInterruptError_config {run : Callbacks}
    (hrun : ∀ ev t, (run ev t).s_UARTconfig = t.s_UARTconfig) {inst : Nat} {s s1 : DrvState}
    (h : Drv_Uart_HanldeInterruptError run inst s = some s1) :
    s1.s_UARTconfig = s.s_UARTconfig := by
  unfold Drv_Uart_HanldeInterruptError at h
  dsimp only at h
  split_ifs at h
  split at h
  · split at h
    · cases h
    · cases h
      rw [invoke_config hrun]
      rfl
  · cases h
    rfl

theorem HanldeInterrupt_config {run : Callbacks}
    (hrun : ∀ ev t, (run ev t).s_UARTconfig = t.s_UARTconfig) {inst : Nat} {s s1 : DrvState}
    (h : Drv_Uart_HanldeInterrupt run inst s = some s1) :
    s1.s_UARTconfig = s.s_UARTconfig := by
  unfold Drv_Uart_HanldeInterrupt at h
  split_ifs at h
  · exact HanldeInterruptRx_config hrun h
  · exact HanldeInterruptTx_config hrun h
  · exact HanldeInterruptError_config hrun h
  · cases h
    rfl

theorem rxPollLoop_config (width : Nat) :
    ∀ (chars : List Nat) (rxBuff rxSize : Nat) (s s1 : DrvState),
      rxPollLoop width chars rxBuff rxSize s = some s1 →
      s1.s_UARTconfig = s.s_UARTconfig := by
  intro chars
  induction chars with
  | nil =>
    intro rxBuff rxSize s s1 h
    cases rxSize with
    | zero =>
      rw [rxPollLoop] at h
      cases h
      rfl
    | succ m =>
      rw [rxPollLoop] at h
      cases h
  | cons c cs ih =>
    intro rxBuff rxSize s s1 h
    cases rxSize with
    | zero =>
      rw [rxPollLoop] at h
      cases h
      rfl
    | succ m =>
      rw [rxPollLoop] at h
      split_ifs at h
      · have g := ih _ _ _ _ h
        exact g
      · have g := ih _ _ _ _ h
        exact g
      · have g := ih _ _ _ _ h
        exact g
      · have g := ih _ _ _ _ h
        exact g
      · exact ih _ _ _ _ h

theorem ReceiveDataPolling_config {inst : Nat} {rxBuff : Option Nat} {rxSize : Nat}
    {chars : List Nat} {s s1 : DrvState} {r : Drv_Uart_StatusType}
    (h : Drv_Uart_ReceiveDataPolling inst rxBuff rxSize chars s = some (r, s1)) :
    s1.s_UARTconfig = s.s_UARTconfig := by
  unfold Drv_Uart_ReceiveDataPolling at h
  dsimp only at h
  repeat' split at h
  all_goals first
    | (cases h; rfl)
    | (rename_i s3 h3
       cases h
       have e := rxPollLoop_config _ _ _ _ _ _ h3
       simp only [updRx, updBase] at e ⊢
       exact e)
    | cases h

theorem txPollLoop_config (inst width : Nat) :
    ∀ (fuel txBuff txSize : Nat) (s s1 : DrvState),
      txPollLoop inst width fuel txBuff txSize s = some s1 →
      s1.s_UARTconfig = s.s_UARTconfig := by
  intro fuel
  induction fuel with
  | zero =>
    intro txBuff txSize s s1 h
    rw [txPollLoop] at h
    split_ifs at h
    cases h
    rfl
  | succ m ih =>
    intro txBuff txSize s s1 h
    rw [txPollLoop] at h
    split_ifs at h
    · cases h
      rfl
    · have g := ih _ _ _ _ h
      exact g
    · have g := ih _ _ _ _ h
      exact g
    · have g := ih _ _ _ _ h
      exact g
    · have g := ih _ _ _ _ h
      exact g
    · exact ih _ _ _ _ h

theorem SendDataPolling_config {inst : Nat} {txBuff : Option Nat} {txSize fuel : Nat}
    {s s1 : DrvState} {r : Drv_Uart_StatusType}
    (h : Drv_Uart_SendDataPolling inst txBuff txSize fuel s = some (r, s1)) :
    s1.s_UARTconfig = s.s_UARTconfig := by
  unfold Drv_Uart_SendDataPolling at h
  dsimp only at h
  repeat' split at h
  all_goals first
    | (cases h; rfl)
    | (rename_i s3 h3
       cases h
       have e := txPollLoop_config _ _ _ _ _ _ _ h3
       simp only [updTx, updBase] at e ⊢
       exact e)
    | cases h

theorem step_config {run : Callbacks}
    (hrun : ∀ ev t, (run ev t).s_UARTconfig = t.s_UARTconfig) {c : Call} {s s1 : DrvState}
    (h : step run c s = some s1) : s1.s_UARTconfig = s.s_UARTconfig := by
  cases c with
  | Init inst cfg =>
    simp only [step, Option.map_eq_some', Prod.exists, exists_eq_right] at h
    obtain ⟨r, h⟩ := h
    exact Init_config h
  | Deinit inst =>
    simp only [step, Option.map_eq_some', Prod.exists, exists_eq_right] at h
    obtain ⟨r, h⟩ := h
    exact Deinit_config h
  | SetBaudRate inst baud =>
    simp only [step, Option.map_eq_some', Prod.exists, exists_eq_right] at h
    obtain ⟨r, h⟩ := h
    exact SetBaudRate_config h
  | EnableTx inst =>
    simp only [step, Drv_Uart_EnableTx] at h
    split_ifs at h
    cases h
    rfl
  | DisableTx inst =>
    simp only [step, Drv_Uart_DisableTx] at h
    split_ifs at h
    cases h
    rfl
  | EnableRx inst =>
    simp only [step, Drv_Uart_EnableRx] at h
    split_ifs at h
    cases h
    rfl
  | DisableRx inst =>
    simp only [step, Drv_Uart_DisableRx] at h
    split_ifs at h
    cases h
    rfl
  | SendDataPolling inst txBuff txSize fuel =>
    simp only [step, Option.map_eq_some', Prod.exists, exists_eq_right] at h
    obtain ⟨r, h⟩ := h
    exact SendDataPolling_config h
  | SendDataInterrupt inst data length =>
    simp only [step, Option.map_eq_some', Prod.exists, exists_eq_right] at h
    obtain ⟨r, h⟩ := h
    exact SendDataInterrupt_config h
  | ReceiveDataPolling inst rxBuff rxSize chars =>
    simp only [step, Option.map_eq_some', Prod.exists, exists_eq_right] at h
    obtain ⟨r, h⟩ := h
    exact ReceiveDataPolling_config h
  | ReceiveDataInterrupt inst rxBuff rxSize =>
    simp only [step, Option.map_eq_some', Prod.exists, exists_eq_right] at h
    obtain ⟨r, h⟩ := h
    exact ReceiveDataInterrupt_config h
  | AbortReceiving inst =>
    simp only [step, Option.map_eq_some', Prod.exists, exists_eq_right] at h
    obtain ⟨r, h⟩ := h
    exact AbortReceiving_config h
  | AbortTransmitting inst =>
    simp only [step, Option.map_eq_some', Prod.exists, exists_eq_right] at h
    obtain ⟨r, h⟩ := h
    exact AbortTransmitting_config h
  | InstallCallBack k fn =>
    simp only [step, Option.some.injEq] at h
    subst h
    exact InstallCallBack_config k fn s
  | InstallCallBackE fn =>
    simp only [step, Option.some.injEq] at h
    subst h
    rfl
  | store addr v =>
    simp only [step, Option.some.injEq] at h
    subst h
    rfl
  | hardware inst stat data =>
    simp only [step, Option.some.injEq] at h
    subst h
    rfl
  | interrupt inst =>
    simp only [step, LPUART_RxTx_IRQHandler] at h
    exact HanldeInterrupt_config hrun h

/-- No sequence of calls changes the stored configuration. -/
theorem execCalls_config {run : Callbacks}
    (hrun : ∀ ev t, (run ev t).s_UARTconfig = t.s_UARTconfig) :
    ∀ (calls : List Call) (s s1 : DrvState), execCalls run calls s = some s1 →
      s1.s_UARTconfig = s.s_UARTconfig := by
  intro calls
  induction calls with
  | nil =>
    intro s s1 h
    rw [execCalls] at h
    cases h
    rfl
  | cons c cs ih =>
    intro s s1 h
    rw [execCalls] at h
    split at h
    · cases h
    · rename_i t ht
      exact (ih t s1 h).trans (step_config hrun ht)

theorem resendCallback_config (inst a n : Nat) (ev : Event) (t : DrvState) :
    (resendCallback inst a n ev t).s_UARTconfig = t.s_UARTconfig := by
  unfold resendCallback
  split
  · cases hs : Drv_Uart_SendDataInterrupt inst (some a) n t with
    | none => rfl
    | some p =>
      obtain ⟨r, s1⟩ := p
      exact SendDataInterrupt_config hs
  · rfl

/-! ## Interrupts with the stored width -/

/-- A receive-ready interrupt on a reception in flight, with the stored
width 8: one byte is stored at the progress offset and progress moves by 1. -/
theorem rxReadyIrq_width8 {s : DrvState} {inst b n k : Nat} {st : Drv_Uart_StatusType}
    (v : Nat) (hinst : inst < LPUART_INSTANCE_COUNT)
    (hwd : (s.s_UARTconfig inst).bitCountPerChar = DRV_UART_DATABITCOUNT_8)
    (hrx : s.s_UARTrxBufferstr inst = ⟨some b, n, k, st, true⟩)
    (hk : k < n) (hn : n < 2 ^ 16) :
    ∃ s1, rxReadyIrq inert inst v s = some s1 ∧
      s1.mem = setAt s.mem (b + k) (u8 (u16 v &&& 0xFF)) ∧
      s1.s_UARTrxBufferstr inst =
        (if k + 1 = n then ⟨some b, n, n, DRV_UART_STATEREADY, false⟩
         else ⟨some b, n, k + 1, st, true⟩) ∧
      s1.s_UARTconfig = s.s_UARTconfig := by
  have hcnt : u16 (k + 1) = k + 1 := Nat.mod_eq_of_lt (by omega)
  rw [rxReadyIrq_eq inert hinst]
  by_cases hlast : k + 1 = n
  · subst hlast
    cases hcb : s.s_UARTfunctionPointer DRV_UART_CALLBACKRECEIVER with
    | none =>
      simp [Drv_Uart_HanldeInterruptRx, rxStore, storeByte, hinst, hrx, hwd, hwReceive,
        DRV_UART_DATABITCOUNT_7, DRV_UART_DATABITCOUNT_8, updRx, updBase, setAt, hcnt, hcb]
    | some fn =>
      simp [Drv_Uart_HanldeInterruptRx, rxStore, storeByte, hinst, hrx, hwd, hwReceive,
        DRV_UART_DATABITCOUNT_7, DRV_UART_DATABITCOUNT_8, updRx, updBase, setAt, hcnt, hcb,
        invoke, inert]
  · simp [Drv_Uart_HanldeInterruptRx, rxStore, storeByte, hinst, hrx, hwd, hwReceive,
      DRV_UART_DATABITCOUNT_7, DRV_UART_DATABITCOUNT_8, updRx, updBase, setAt, hcnt, hlast]

/-- A transmit-ready interrupt on a transmission in flight, with the stored
width 8: one byte of the buffer is written and progress moves by 1. -/
theorem txReadyIrq_width8 {s : DrvState} {inst a n k : Nat} {st : Drv_Uart_StatusType}
    (hinst : inst < LPUART_INSTANCE_COUNT)
    (hwd : (s.s_UARTconfig inst).bitCountPerChar = DRV_UART_DATABITCOUNT_8)
    (htx : s.s_UARTtxBufferstr inst = ⟨some a, n, k, st, true⟩)
    (hk : k < n) (hn : n < 2 ^ 16) :
    ∃ s1, txReadyIrq inert inst s = some s1 ∧
      (s1.base inst).written = (s.base inst).written ++ [u32 (u8 (s.mem (a + k)) &&& 0xFF)] ∧
      s1.s_UARTtxBufferstr inst =
        (if k + 1 = n then ⟨some a, n, n, DRV_UART_STATEREADY, false⟩
         else ⟨some a, n, k + 1, st, true⟩) := by
  have hcnt : u16 (k + 1) = k + 1 := Nat.mod_eq_of_lt (by omega)
  rw [txReadyIrq_eq inert hinst]
  by_cases hlast : k + 1 = n
  · subst hlast
    cases hcb : s.s_UARTfunctionPointer DRV_UART_CALLBACKTRANSMITTER with
    | none =>
      simp [Drv_Uart_HanldeInterruptTx, txLoad, hinst, htx, hwd, loadByte, hwTransmitReady,
        DRV_UART_DATABITCOUNT_7, DRV_UART_DATABITCOUNT_8, updTx, writeDATA, updBase,
        setAt, hcnt, hcb]
    | some fn =>
      simp [Drv_Uart_HanldeInterruptTx, txLoad, hinst, htx, hwd, loadByte, hwTransmitReady,
        DRV_UART_DATABITCOUNT_7, DRV_UART_DATABITCOUNT_8, updTx, writeDATA, updBase,
        setAt, hcnt, hcb, invoke, inert]
  · simp [Drv_Uart_HanldeInterruptTx, txLoad, hinst, htx, hwd, loadByte, hwTransmitReady,
      DRV_UART_DATABITCOUNT_7, DRV_UART_DATABITCOUNT_8, updTx, writeDATA, updBase,
      setAt, hcnt, hlast]

/-- The transmit-ready interrupt that moves the last byte, whether or not a
transmit-complete callback is registered. -/
theorem txReadyIrq_complete {s t : DrvState} {inst a n k : Nat}
    (hinst : inst < LPUART_INSTANCE_COUNT) (hk : k + 1 = n) (hn : n < 2 ^ 16)
    (h : TxInFlight s inst a n k t) :
    ∃ t1, txReadyIrq inert inst t = some t1 ∧
      t1.s_UARTtxBufferstr inst = ⟨some a, n, n, DRV_UART_STATEREADY, false⟩ ∧
      (t1.base inst).written = (s.base inst).written ++ readBuf s a n := by
  cases hcb : s.s_UARTfunctionPointer DRV_UART_CALLBACKTRANSMITTER with
  | some fn =>
    obtain ⟨t1, h1, h2, h3, _⟩ := txReadyIrq_last hinst hk hn hcb h
    exact ⟨t1, h1, h2, h3⟩
  | none =>
    rw [txReadyIrq_eq inert hinst]
    have hfl : TxInFlight s inst a n k (hwTransmitReady inst t) := hwTransmitReady_inFlight h
    obtain ⟨htx, hw, hmem, htr, hwd, hfp⟩ := hfl
    have hcnt : u16 (k + 1) = k + 1 := Nat.mod_eq_of_lt (by omega)
    rw [← hfp] at hcb
    subst hk
    simp [Drv_Uart_HanldeInterruptTx, txLoad, hinst, htx, hwd, loadByte,
      DRV_UART_DATABITCOUNT_7, DRV_UART_DATABITCOUNT_8, updTx, writeDATA, updBase,
      setAt, hcnt, hcb, hw, readBuf_succ, byte_mask, hmem]

/-- The receive-ready interrupts of a reception in flight, up to and
including the one that completes it. -/
theorem receiveAll_width8 {inst b n : Nat} {st : Drv_Uart_StatusType}
    (hinst : inst < LPUART_INSTANCE_COUNT) (hn : n < 2 ^ 16) :
    ∀ (vs : List Nat) (j : Nat) (t : DrvState),
      (t.s_UARTconfig inst).bitCountPerChar = DRV_UART_DATABITCOUNT_8 →
      t.s_UARTrxBufferstr inst = ⟨some b, n, j, st, true⟩ →
      j < n → j + vs.length ≤ n →
      ∃ t1, receiveAll inert inst vs t = some t1 ∧
        t1.s_UARTrxBufferstr inst =
          (if j + vs.length = n then ⟨some b, n, n, DRV_UART_STATEREADY, false⟩
           else ⟨some b, n, j + vs.length, st, true⟩) ∧
        t1.mem = writeBuf t.mem (b + j) (vs.map fun v => u8 (u16 v &&& 0xFF)) := by
  intro vs
  induction vs with
  | nil =>
    intro j t _ hrx hj _
    refine ⟨t, rfl, ?_, rfl⟩
    have hne : ¬ (j = n) := by omega
    simp [hrx, hne]
  | cons v vs ih =>
    intro j t hwd hrx hj hlen
    simp only [List.length_cons] at hlen
    obtain ⟨s1, h1, hmem1, hrx1, hcfg1⟩ := rxReadyIrq_width8 v hinst hwd hrx hj hn
    by_cases hlast : j + 1 = n
    · have hvs : vs = [] := by
        cases vs with
        | nil => rfl
        | cons w ws =>
          simp only [List.length_cons] at hlen
          omega
      subst hvs
      refine ⟨s1, by simp [receiveAll, h1], ?_, ?_⟩
      · simpa [hlast] using hrx1
      · simpa [writeBuf] using hmem1
    · rw [if_neg hlast] at hrx1
      have hwd1 : (s1.s_UARTconfig inst).bitCountPerChar = DRV_UART_DATABITCOUNT_8 := by
        rw [hcfg1]
        exact hwd
      obtain ⟨t1, h2, hrx2, hmem2⟩ := ih (j + 1) s1 hwd1 hrx1 (by omega) (by omega)
      refine ⟨t1, by simp [receiveAll, h1, h2], ?_, ?_⟩
      · have e : j + (vs.length + 1) = j + 1 + vs.length := by omega
        simp only [List.length_cons]
        rw [e]
        exact hrx2
      · rw [hmem2, hmem1]
        simp [writeBuf, Nat.add_assoc]

/-- An accepted `Drv_Uart_ReceiveDataInterrupt` leaves the memory as it is. -/
theorem ReceiveDataInterrupt_start {s : DrvState} {inst : Nat} (b : Nat) {n : Nat}
    (hinst : inst < LPUART_INSTANCE_COUNT)
    (hidle : (s.s_UARTrxBufferstr inst).isRxBusy = false) (hn : 0 < n) :
    ∃ s0, Drv_Uart_ReceiveDataInterrupt inst (some b) n s = some (DRV_UART_RXBUSY, s0) ∧
      s0.s_UARTrxBufferstr inst = ⟨some b, n, 0, DRV_UART_RXBUSY, true⟩ ∧
      s0.mem = s.mem := by
  have hn0 : n ≠ 0 := by omega
  unfold Drv_Uart_ReceiveDataInterrupt
  simp only [hinst, hidle, hn0, if_true, Option.isSome_some, ne_eq, not_false_eq_true,
    and_self, Bool.false_eq_true]
  refine ⟨_, rfl, ?_, rfl⟩
  simp [updBase, updRx, setAt]

/-! ## The stored width and the transfer handlers -/

/-- A sequence of calls followed by one more call. -/
theorem execCalls_snoc (run : Callbacks) (c : Call) {s1 : DrvState} :
    ∀ (calls : List Call) (s0 s : DrvState), execCalls run calls s0 = some s →
      step run c s = some s1 → execCalls run (calls ++ [c]) s0 = some s1 := by
  intro calls
  induction calls with
  | nil =>
    intro s0 s h hc
    rw [execCalls] at h
    cases h
    simp [execCalls, hc]
  | cons d ds ih =>
    intro s0 s h hc
    rw [execCalls] at h
    split at h
    · cases h
    · rename_i t ht
      simp only [List.cons_append, execCalls, ht]
      exact ih t s h hc

/-- A completed valid `Drv_Uart_ReceiveDataPolling` leaves the transmit
direction busy and its buffer pointer as it was. -/
theorem ReceiveDataPolling_tx {s s1 : DrvState} {inst a n : Nat} {chars : List Nat}
    {r : Drv_Uart_StatusType} (hinst : inst < LPUART_INSTANCE_COUNT)
    (hidle : (s.s_UARTrxBufferstr inst).isRxBusy = false) (hn : 0 < n)
    (h : Drv_Uart_ReceiveDataPolling inst (some a) n chars s = some (r, s1)) :
    (s1.s_UARTtxBufferstr inst).isTxBusy = true ∧
    (s1.s_UARTtxBufferstr inst).txStatus = DRV_UART_TXBUSY ∧
    (s1.s_UARTtxBufferstr inst).ptxBuff = (s.s_UARTtxBufferstr inst).ptxBuff := by
  unfold Drv_Uart_ReceiveDataPolling at h
  simp only [hinst, hidle, hn, if_true, gt_iff_lt, and_self, Bool.false_eq_true,
    not_false_eq_true] at h
  split at h
  · exact Option.noConfusion h
  · rename_i s3 h3
    obtain ⟨htx, _, _, _⟩ := rxPollLoop_frame _ _ _ _ _ _ h3
    injection h with h
    injection h with hr hs
    subst hs
    refine ⟨?_, ?_, ?_⟩ <;> simp [updRx, updBase, htx, updTx, setAt]

/-- A transmit-ready interrupt on a direction that is busy with a null buffer
pointer, with the stored width 8: line 871 reads through the null pointer. -/
theorem txReadyIrq_null_buffer (run : Callbacks) {t : DrvState} {inst : Nat}
    (hinst : inst < LPUART_INSTANCE_COUNT)
    (hwd : (t.s_UARTconfig inst).bitCountPerChar = DRV_UART_DATABITCOUNT_8)
    (hbusy : (t.s_UARTtxBufferstr inst).isTxBusy = true)
    (hnull : (t.s_UARTtxBufferstr inst).ptxBuff = none) :
    txReadyIrq run inst t = none := by
  rw [txReadyIrq_eq run hinst]
  simp [Drv_Uart_HanldeInterruptTx, txLoad, loadByte, hinst, hwTransmitReady, updBase,
    hwd, hbusy, hnull, DRV_UART_DATABITCOUNT_7, DRV_UART_DATABITCOUNT_8]

/-- C31 (code deviates): in every state `s` reached from start-up by a
sequence of calls of the functions of the driver, stores of the application,
register changes by the hardware and interrupts (with callbacks that, like
all code outside `DRV_LPUART.c`, cannot write the static array),
`s_UARTconfig` is still what it was at start-up, so the width the handlers
read is 0, which is `DRV_UART_DATABITCOUNT_8`, whatever was passed to
`Drv_Uart_Init`.  On every instance in range: a receive-ready interrupt on a
reception in flight (buffer `b`, length `n`, progress `k < n`) stores the one
byte `data & 0xFF` at offset `k` and moves progress to `k + 1`, completing
the reception exactly when `k + 1 = n`; a transmit-ready interrupt on a
transmission in flight writes the one byte at offset `k`, masked with `0xFF`,
and moves progress to `k + 1`, completing exactly when `k + 1 = n`; a
`sendAsync` of `n` bytes is busy with progress `j` after `j < n`
transmit-ready interrupts and ready with the `n` bytes written after `n`; a
`receiveAsync` of `n` bytes is busy with progress `j` after `j < n`
receive-ready interrupts and ready after `n`, the buffer holding the low
bytes of the `n` characters.  But not every busy direction has a transfer in
flight: when the transmit buffer pointer of `s` is null, a completed valid
`Drv_Uart_ReceiveDataPolling` leads to a reachable state whose transmit
direction is busy with that null pointer, and there a transmit-ready
interrupt is undefined, whatever the callbacks: it moves no buffer element. -/
theorem stored_width_never_written (run : Callbacks)
    (hrun : ∀ ev t, (run ev t).s_UARTconfig = t.s_UARTconfig)
    (mem : Nat → Nat) (calls : List Call) (s : DrvState)
    (hreach : execCalls run calls (initialState mem) = some s)
    (inst : Nat) (hinst : inst < LPUART_INSTANCE_COUNT) :
    s.s_UARTconfig = (initialState mem).s_UARTconfig ∧
    (s.s_UARTconfig inst).bitCountPerChar = DRV_UART_DATABITCOUNT_8 ∧
    (∀ (b n k : Nat) (st : Drv_Uart_StatusType) (v : Nat),
      s.s_UARTrxBufferstr inst = ⟨some b, n, k, st, true⟩ → k < n → n < 2 ^ 16 →
      ∃ s1, rxReadyIrq inert inst v s = some s1 ∧
        s1.mem = setAt s.mem (b + k) (u8 (u16 v &&& 0xFF)) ∧
        s1.s_UARTrxBufferstr inst =
          (if k + 1 = n then ⟨some b, n, n, DRV_UART_STATEREADY, false⟩
           else ⟨some b, n, k + 1, st, true⟩)) ∧
    (∀ (a n k : Nat) (st : Drv_Uart_StatusType),
      s.s_UARTtxBufferstr inst = ⟨some a, n, k, st, true⟩ → k < n → n < 2 ^ 16 →
      ∃ s1, txReadyIrq inert inst s = some s1 ∧
        (s1.base inst).written
          = (s.base inst).written ++ [u32 (u8 (s.mem (a + k)) &&& 0xFF)] ∧
        s1.s_UARTtxBufferstr inst =
          (if k + 1 = n then ⟨some a, n, n, DRV_UART_STATEREADY, false⟩
           else ⟨some a, n, k + 1, st, true⟩)) ∧
    (∀ (a n : Nat), (s.s_UARTtxBufferstr inst).isTxBusy = false → 0 < n → n < 2 ^ 16 →
      ∃ s0, Drv_Uart_SendDataInterrupt inst (some a) n s = some (DRV_UART_TXBUSY, s0) ∧
        (∀ j, j < n →
          ∃ t, repeatIrq (txReadyIrq inert inst) j s0 = some t ∧
            t.s_UARTtxBufferstr inst = ⟨some a, n, j, DRV_UART_TXBUSY, true⟩) ∧
        ∃ t, repeatIrq (txReadyIrq inert inst) n s0 = some t ∧
          t.s_UARTtxBufferstr inst = ⟨some a, n, n, DRV_UART_STATEREADY, false⟩ ∧
          (t.base inst).written = (s.base inst).written ++ readBuf s a n) ∧
    (∀ (b : Nat) (vs : List Nat), (s.s_UARTrxBufferstr inst).isRxBusy = false →
      0 < vs.length → vs.length < 2 ^ 16 →
      ∃ s0, Drv_Uart_ReceiveDataInterrupt inst (some b) vs.length s
          = some (DRV_UART_RXBUSY, s0) ∧
        (∀ j, j < vs.length →
          ∃ t, receiveAll inert inst (vs.take j) s0 = some t ∧
            t.s_UARTrxBufferstr inst = ⟨some b, vs.length, j, DRV_UART_RXBUSY, true⟩) ∧
        ∃ t, receiveAll inert inst vs s0 = some t ∧
          t.s_UARTrxBufferstr inst
            = ⟨some b, vs.length, vs.length, DRV_UART_STATEREADY, false⟩ ∧
          t.mem = writeBuf s.mem b (vs.map fun v => u8 (u16 v &&& 0xFF))) ∧
    (∀ (a n : Nat) (chars : List Nat) (r : Drv_Uart_StatusType) (s1 : DrvState),
      (s.s_UARTrxBufferstr inst).isRxBusy = false →
      (s.s_UARTtxBufferstr inst).ptxBuff = none → 0 < n →
      Drv_Uart_ReceiveDataPolling inst (some a) n chars s = some (r, s1) →
      execCalls run (calls ++ [Call.ReceiveDataPolling inst (some a) n chars])
          (initialState mem) = some s1 ∧
        (s1.s_UARTtxBufferstr inst).isTxBusy = true ∧
        (s1.s_UARTtxBufferstr inst).ptxBuff = none ∧
        ∀ run2 : Callbacks, txReadyIrq run2 inst s1 = none) := by
  have hcfg := execCalls_config hrun calls _ _ hreach
  have hwd : (s.s_UARTconfig inst).bitCountPerChar = DRV_UART_DATABITCOUNT_8 := by
    rw [hcfg]
    rfl
  refine ⟨hcfg, hwd, ?_, ?_, ?_, ?_, ?_⟩
  · intro b n k st v hrx hk hn
    obtain ⟨s1, h1, h2, h3, _⟩ := rxReadyIrq_width8 v hinst hwd hrx hk hn
    exact ⟨s1, h1, h2, h3⟩
  · intro a n k st htx hk hn
    exact txReadyIrq_width8 hinst hwd htx hk hn
  · intro a n hidle hn hn16
    obtain ⟨s0, hsend, hinv0⟩ := SendDataInterrupt_start (a := a) hinst hwd hidle hn
    refine ⟨s0, hsend, ?_, ?_⟩
    · intro j hj
      obtain ⟨t, hrep, hinv⟩ := repeatIrq_tx hinst hn16 j 0 s0 (by omega) hinv0
      rw [Nat.zero_add] at hinv
      exact ⟨t, hrep, hinv.1⟩
    · obtain ⟨m, rfl⟩ : ∃ m, n = m + 1 := ⟨n - 1, by omega⟩
      obtain ⟨t, hrep, hinv⟩ := repeatIrq_tx hinst hn16 m 0 s0 (by omega) hinv0
      rw [Nat.zero_add] at hinv
      obtain ⟨t1, hlast, htx, hw⟩ := txReadyIrq_complete hinst rfl hn16 hinv
      refine ⟨t1, ?_, htx, hw⟩
      rw [repeatIrq_add _ m 1 s0 t hrep]
      simp [repeatIrq, hlast]
  · intro b vs hidle hn hn16
    obtain ⟨s0, hrecv, hrx0, hmem0⟩ := ReceiveDataInterrupt_start b hinst hidle hn
    have hwd0 : (s0.s_UARTconfig inst).bitCountPerChar = DRV_UART_DATABITCOUNT_8 := by
      rw [ReceiveDataInterrupt_config hrecv]
      exact hwd
    refine ⟨s0, hrecv, ?_, ?_⟩
    · intro j hj
      have hlen : (vs.take j).length = j := by
        rw [List.length_take]
        omega
      obtain ⟨t, h1, h2, _⟩ :=
        receiveAll_width8 hinst hn16 (vs.take j) 0 s0 hwd0 hrx0 hn (by omega)
      refine ⟨t, h1, ?_⟩
      rw [h2, hlen, Nat.zero_add, if_neg (by omega)]
    · obtain ⟨t, h1, h2, h3⟩ :=
        receiveAll_width8 hinst hn16 vs 0 s0 hwd0 hrx0 hn (by omega)
      refine ⟨t, h1, ?_, ?_⟩
      · rw [h2, Nat.zero_add, if_pos rfl]
      · rw [h3, hmem0, Nat.add_zero]
  · intro a n chars r s1 hidle hnull hn hpoll
    obtain ⟨hbusy, _, hptr⟩ := ReceiveDataPolling_tx hinst hidle hn hpoll
    have hwd1 : (s1.s_UARTconfig inst).bitCountPerChar = DRV_UART_DATABITCOUNT_8 := by
      rw [ReceiveDataPolling_config hpoll]
      exact hwd
    have hstep : step run (Call.ReceiveDataPolling inst (some a) n chars) s = some s1 := by
      simp [step, hpoll]
    refine ⟨execCalls_snoc run _ calls _ s hreach hstep, hbusy, hptr.trans hnull, ?_⟩
    intro run2
    exact txReadyIrq_null_buffer run2 hinst hwd1 hbusy (hptr.trans hnull)

/-- C31, for instance 0 after `wideCalls` (configured with width 9, even
parity, two stop bits), with a transmit-complete callback that calls
`sendAsync`: the stored width is still 0, and of `receiveAsync(0x200, 2)` the
first receive-ready interrupt, delivering the 9-bit character `0x1AB`, stores
the single byte `0xAB` and moves progress to 1.  After `nullBufferCalls` the
transmit direction of instance 0 is busy with a null buffer pointer, and the
interrupt that follows in `nullBufferIrq` is undefined. -/
theorem stored_width_never_written_witness :
    ((∀ ev t, (resendCallback 0 0x101 2 ev t).s_UARTconfig = t.s_UARTconfig) ∧
      execCalls (resendCallback 0 0x101 2) wideCalls (initialState abcMemory)
        = some wideState ∧
      0 < LPUART_INSTANCE_COUNT) ∧
    (wideState.s_UARTconfig = (initialState abcMemory).s_UARTconfig ∧
    (wideState.s_UARTconfig 0).bitCountPerChar = DRV_UART_DATABITCOUNT_8 ∧
    (∀ (b n k : Nat) (st : Drv_Uart_StatusType) (v : Nat),
      wideState.s_UARTrxBufferstr 0 = ⟨some b, n, k, st, true⟩ → k < n → n < 2 ^ 16 →
      ∃ s1, rxReadyIrq inert 0 v wideState = some s1 ∧
        s1.mem = setAt wideState.mem (b + k) (u8 (u16 v &&& 0xFF)) ∧
        s1.s_UARTrxBufferstr 0 =
          (if k + 1 = n then ⟨some b, n, n, DRV_UART_STATEREADY, false⟩
           else ⟨some b, n, k + 1, st, true⟩)) ∧
    (∀ (a n k : Nat) (st : Drv_Uart_StatusType),
      wideState.s_UARTtxBufferstr 0 = ⟨some a, n, k, st, true⟩ → k < n → n < 2 ^ 16 →
      ∃ s1, txReadyIrq inert 0 wideState = some s1 ∧
        (s1.base 0).written
          = (wideState.base 0).written ++ [u32 (u8 (wideState.mem (a + k)) &&& 0xFF)] ∧
        s1.s_UARTtxBufferstr 0 =
          (if k + 1 = n then ⟨some a, n, n, DRV_UART_STATEREADY, false⟩
           else ⟨some a, n, k + 1, st, true⟩)) ∧
    (∀ (a n : Nat), (wideState.s_UARTtxBufferstr 0).isTxBusy = false → 0 < n → n < 2 ^ 16 →
      ∃ s0, Drv_Uart_SendDataInterrupt 0 (some a) n wideState = some (DRV_UART_TXBUSY, s0) ∧
        (∀ j, j < n →
          ∃ t, repeatIrq (txReadyIrq inert 0) j s0 = some t ∧
            t.s_UARTtxBufferstr 0 = ⟨some a, n, j, DRV_UART_TXBUSY, true⟩) ∧
        ∃ t, repeatIrq (txReadyIrq inert 0) n s0 = some t ∧
          t.s_UARTtxBufferstr 0 = ⟨some a, n, n, DRV_UART_STATEREADY, false⟩ ∧
          (t.base 0).written = (wideState.base 0).written ++ readBuf wideState a n) ∧
    (∀ (b : Nat) (vs : List Nat), (wideState.s_UARTrxBufferstr 0).isRxBusy = false →
      0 < vs.length → vs.length < 2 ^ 16 →
      ∃ s0, Drv_Uart_ReceiveDataInterrupt 0 (some b) vs.length wideState
          = some (DRV_UART_RXBUSY, s0) ∧
        (∀ j, j < vs.length →
          ∃ t, receiveAll inert 0 (vs.take j) s0 = some t ∧
            t.s_UARTrxBufferstr 0 = ⟨some b, vs.length, j, DRV_UART_RXBUSY, true⟩) ∧
        ∃ t, receiveAll inert 0 vs s0 = some t ∧
          t.s_UARTrxBufferstr 0
            = ⟨some b, vs.length, vs.length, DRV_UART_STATEREADY, false⟩ ∧
          t.mem = writeBuf wideState.mem b (vs.map fun v => u8 (u16 v &&& 0xFF))) ∧
    (∀ (a n : Nat) (chars : List Nat) (r : Drv_Uart_StatusType) (s1 : DrvState),
      (wideState.s_UARTrxBufferstr 0).isRxBusy = false →
      (wideState.s_UARTtxBufferstr 0).ptxBuff = none → 0 < n →
      Drv_Uart_ReceiveDataPolling 0 (some a) n chars wideState = some (r, s1) →
      execCalls (resendCallback 0 0x101 2)
          (wideCalls ++ [Call.ReceiveDataPolling 0 (some a) n chars])
          (initialState abcMemory) = some s1 ∧
        (s1.s_UARTtxBufferstr 0).isTxBusy = true ∧
        (s1.s_UARTtxBufferstr 0).ptxBuff = none ∧
        ∀ run2 : Callbacks, txReadyIrq run2 0 s1 = none)) ∧
    (receiveAll inert 0 [0x1AB]
        (stateAfter (Drv_Uart_ReceiveDataInterrupt 0 (some 0x200) 2 wideState) wideState)).map
        (fun t => (readBuf t 0x200 2, t.s_UARTrxBufferstr 0))
      = some ([0xAB, 0x00], ⟨some 0x200, 2, 1, DRV_UART_RXBUSY, true⟩) ∧
    (execCalls inert nullBufferCalls (initialState abcMemory)).map
        (fun s => s.s_UARTtxBufferstr 0)
      = some ⟨none, 0, 0, DRV_UART_TXBUSY, true⟩ ∧
    (execCalls inert nullBufferIrq (initialState abcMemory)).isNone = true :=
  ⟨⟨resendCallback_config 0 0x101 2, rfl, by decide⟩,
    stored_width_never_written (resendCallback 0 0x101 2) (resendCallback_config 0 0x101 2)
      abcMemory wideCalls wideState rfl 0 (by decide),
    by decide, by decide, by decide⟩

/-! ## The status an asynchronous start returns -/

/-- C32 (as stated, refuted): on instance 0, configured and idle,
`sendAsync(0x100, 3)` is accepted and returns `DRV_UART_TXBUSY`; issued again
on the state it leaves, it is rejected and returns `DRV_UART_TXBUSY` as well.
`receiveAsync(0x200, 4)` returns `DRV_UART_RXBUSY` both times. -/
theorem asyncStart_status_ambiguous :
    (Drv_Uart_SendDataInterrupt 0 (some 0x100) 3 sendReady).map
        (fun p => (p.1, p.2.s_UARTtxBufferstr 0))
      = some (DRV_UART_TXBUSY, ⟨some 0x100, 3, 0, DRV_UART_TXBUSY, true⟩) ∧
    (Drv_Uart_SendDataInterrupt 0 (some 0x100) 3
        (stateAfter (Drv_Uart_SendDataInterrupt 0 (some 0x100) 3 sendReady) sendReady)).map
        (fun p => (p.1, p.2.s_UARTtxBufferstr 0))
      = some (DRV_UART_TXBUSY, ⟨some 0x100, 3, 0, DRV_UART_TXBUSY, true⟩) ∧
    (Drv_Uart_ReceiveDataInterrupt 0 (some 0x200) 4 sendReady).map
        (fun p => (p.1, p.2.s_UARTrxBufferstr 0))
      = some (DRV_UART_RXBUSY, ⟨some 0x200, 4, 0, DRV_UART_RXBUSY, true⟩) ∧
    (Drv_Uart_ReceiveDataInterrupt 0 (some 0x200) 4
        (stateAfter (Drv_Uart_ReceiveDataInterrupt 0 (some 0x200) 4 sendReady) sendReady)).map
        (fun p => (p.1, p.2.s_UARTrxBufferstr 0))
      = some (DRV_UART_RXBUSY, ⟨some 0x200, 4, 0, DRV_UART_RXBUSY, true⟩) := by
  refine ⟨by decide, by decide, by decide, by decide⟩

/-- C32 (amended): on an instance in range, with a non-null buffer and a
length `n > 0`, `sendAsync` returns `DRV_UART_TXBUSY` when it accepts (idle
direction: the buffer is recorded with progress 0 and the busy flag) and
`DRV_UART_TXBUSY` when it rejects (busy direction: nothing changes);
`receiveAsync` returns `DRV_UART_RXBUSY` in both cases.  The returned status
is the same; what tells the two apart is the transfer descriptor.  The only
other status an asynchronous start returns is `DRV_UART_ERROR`, for a null
buffer or the length 0 on an idle direction. -/
theorem asyncStart_same_status (s sb : DrvState) (inst a n : Nat)
    (hinst : inst < LPUART_INSTANCE_COUNT) (hn : 0 < n)
    (hidleTx : (s.s_UARTtxBufferstr inst).isTxBusy = false)
    (hidleRx : (s.s_UARTrxBufferstr inst).isRxBusy = false)
    (hbusyTx : (sb.s_UARTtxBufferstr inst).isTxBusy = true)
    (hbusyRx : (sb.s_UARTrxBufferstr inst).isRxBusy = true) :
    (∃ s1, Drv_Uart_SendDataInterrupt inst (some a) n s = some (DRV_UART_TXBUSY, s1) ∧
      s1.s_UARTtxBufferstr inst = ⟨some a, n, 0, DRV_UART_TXBUSY, true⟩) ∧
    Drv_Uart_SendDataInterrupt inst (some a) n sb = some (DRV_UART_TXBUSY, sb) ∧
    (∃ s1, Drv_Uart_ReceiveDataInterrupt inst (some a) n s = some (DRV_UART_RXBUSY, s1) ∧
      s1.s_UARTrxBufferstr inst = ⟨some a, n, 0, DRV_UART_RXBUSY, true⟩) ∧
    Drv_Uart_ReceiveDataInterrupt inst (some a) n sb = some (DRV_UART_RXBUSY, sb) ∧
    Drv_Uart_SendDataInterrupt inst none n s = some (DRV_UART_ERROR, s) ∧
    Drv_Uart_SendDataInterrupt inst (some a) 0 s = some (DRV_UART_ERROR, s) ∧
    Drv_Uart_ReceiveDataInterrupt inst none n s = some (DRV_UART_ERROR, s) ∧
    Drv_Uart_ReceiveDataInterrupt inst (some a) 0 s = some (DRV_UART_ERROR, s) := by
  refine ⟨?_, ?_, ?_, ?_, ?_, ?_, ?_, ?_⟩
  · obtain ⟨s1, h1, h2, _⟩ := SendDataInterrupt_accepts (t := s) a hinst hidleTx hn
    exact ⟨s1, h1, h2⟩
  · simp [Drv_Uart_SendDataInterrupt, hinst, hbusyTx]
  · obtain ⟨s1, h1, h2, _⟩ := ReceiveDataInterrupt_start (s := s) a hinst hidleRx hn
    exact ⟨s1, h1, h2⟩
  · simp [Drv_Uart_ReceiveDataInterrupt, hinst, hbusyRx]
  · simp [Drv_Uart_SendDataInterrupt, hinst, hidleTx]
  · simp [Drv_Uart_SendDataInterrupt, hinst, hidleTx]
  · simp [Drv_Uart_ReceiveDataInterrupt, hinst, hidleRx]
  · simp [Drv_Uart_ReceiveDataInterrupt, hinst, hidleRx]

/-- C32 (amended), for instance 0 with the idle state `sendReady` and the
state `bothInFlight`, in which both directions are busy. -/
theorem asyncStart_same_status_witness :
    (0 < LPUART_INSTANCE_COUNT ∧ 0 < 3 ∧
      (sendReady.s_UARTtxBufferstr 0).isTxBusy = false ∧
      (sendReady.s_UARTrxBufferstr 0).isRxBusy = false ∧
      (bothInFlight.s_UARTtxBufferstr 0).isTxBusy = true ∧
      (bothInFlight.s_UARTrxBufferstr 0).isRxBusy = true) ∧
    ((∃ s1, Drv_Uart_SendDataInterrupt 0 (some 0x100) 3 sendReady
        = some (DRV_UART_TXBUSY, s1) ∧
      s1.s_UARTtxBufferstr 0 = ⟨some 0x100, 3, 0, DRV_UART_TXBUSY, true⟩) ∧
    Drv_Uart_SendDataInterrupt 0 (some 0x100) 3 bothInFlight
      = some (DRV_UART_TXBUSY, bothInFlight) ∧
    (∃ s1, Drv_Uart_ReceiveDataInterrupt 0 (some 0x100) 3 sendReady
        = some (DRV_UART_RXBUSY, s1) ∧
      s1.s_UARTrxBufferstr 0 = ⟨some 0x100, 3, 0, DRV_UART_RXBUSY, true⟩) ∧
    Drv_Uart_ReceiveDataInterrupt 0 (some 0x100) 3 bothInFlight
      = some (DRV_UART_RXBUSY, bothInFlight) ∧
    Drv_Uart_SendDataInterrupt 0 none 3 sendReady = some (DRV_UART_ERROR, sendReady) ∧
    Drv_Uart_SendDataInterrupt 0 (some 0x100) 0 sendReady = some (DRV_UART_ERROR, sendReady) ∧
    Drv_Uart_ReceiveDataInterrupt 0 none 3 sendReady = some (DRV_UART_ERROR, sendReady) ∧
    Drv_Uart_ReceiveDataInterrupt 0 (some 0x100) 0 sendReady
      = some (DRV_UART_ERROR, sendReady)) :=
  ⟨⟨by decide, by decide, by decide, by decide, by decide, by decide⟩,
    asyncStart_same_status sendReady bothInFlight 0 0x100 3 (by decide) (by decide)
      (by decide) (by decide) (by decide) (by decide)⟩

end LPUART
